import Mathlib

/-!
redirfs: shadow inodes (`src/redirfs/rinode.c`)

A shallow embedding of the shadow-inode registry, the operation wrappers and the
private-data store of `rinode.c`, followed by theorems about them.

Conventions of the embedding

* Objects live in heaps indexed by natural numbers (`World`); a pointer is the index,
  a nullable pointer is an `Option`.
* A pointer to an operation table of the underlying filesystem is modelled by the
  (constant) table it points to; the live pointer of an inode may also point into a
  shadow inode (`iop_ptr.ri_op_new`), which is what `container_of` inverts.
* `BUG()`, a null dereference, a use after free and a wild `container_of` are
  results of their own (`Fault`); every operation returns `Except Fault _`.
* Filters and the implementations of the underlying filesystem are parameters
  (`Env`); they act on the call arguments, the call context and on a state `E`
  that this layer never inspects.
-/

namespace Redirfs

/-! ## Constants of the kernel headers -/

def EPERM : Int := 1
def ENOENT : Int := 2
def ENOMEM : Int := 12
def EACCES : Int := 13
def EEXIST : Int := 17
def EINVAL : Int := 22
def ENOSYS : Int := 38
def ENODATA : Int := 61
def EOPNOTSUPP : Int := 95

def MAY_APPEND : Int := 8

def S_IFMT : Nat := 0o170000
def S_IFSOCK : Nat := 0o140000
def S_IFLNK : Nat := 0o120000
def S_IFREG : Nat := 0o100000
def S_IFBLK : Nat := 0o060000
def S_IFDIR : Nat := 0o040000
def S_IFCHR : Nat := 0o020000
def S_IFIFO : Nat := 0o010000

def S_ISLNK (m : Nat) : Bool := m &&& S_IFMT == S_IFLNK
def S_ISREG (m : Nat) : Bool := m &&& S_IFMT == S_IFREG
def S_ISDIR (m : Nat) : Bool := m &&& S_IFMT == S_IFDIR
def S_ISCHR (m : Nat) : Bool := m &&& S_IFMT == S_IFCHR
def S_ISBLK (m : Nat) : Bool := m &&& S_IFMT == S_IFBLK
def S_ISFIFO (m : Nat) : Bool := m &&& S_IFMT == S_IFIFO
def S_ISSOCK (m : Nat) : Bool := m &&& S_IFMT == S_IFSOCK

/-! ## Operation tables -/

/-- Values of the function pointers held in operation tables: the wrappers of
`rinode.c` and the functions of the underlying filesystem (`native n`). -/
inductive Fn where
  | rfs_lookup | rfs_unlink | rfs_rmdir | rfs_mkdir | rfs_create | rfs_link
  | rfs_symlink | rfs_mknod | rfs_permission | rfs_setattr
  | rfs_readpage | rfs_writepage
  | native (n : Nat)
  deriving DecidableEq, Repr

/-- The slots of `struct inode_operations` that `rinode.c` reads or writes; the
remaining slots of the kernel structure are kept in `rest`. -/
structure inode_operations where
  create : Option Fn := none
  lookup : Option Fn := none
  link : Option Fn := none
  unlink : Option Fn := none
  symlink : Option Fn := none
  mkdir : Option Fn := none
  rmdir : Option Fn := none
  mknod : Option Fn := none
  permission : Option Fn := none
  setattr : Option Fn := none
  rest : List (Option Fn) := []
  deriving DecidableEq, Repr

/-- The slots of `struct address_space_operations`, likewise. -/
structure address_space_operations where
  readpage : Option Fn := none
  writepage : Option Fn := none
  rest : List (Option Fn) := []
  deriving DecidableEq, Repr

/-- Operation identifiers (`args.type.id`, index into `ops->o_ops`) named in `rinode.c`. -/
inductive rfs_op_id where
  | RFS_REG_IOP_PERMISSION | RFS_REG_IOP_SETATTR
  | RFS_REG_AOP_READPAGE | RFS_REG_AOP_WRITEPAGE
  | RFS_DIR_IOP_UNLINK | RFS_DIR_IOP_PERMISSION | RFS_DIR_IOP_SETATTR
  | RFS_DIR_IOP_RMDIR | RFS_DIR_IOP_MKDIR | RFS_DIR_IOP_CREATE
  | RFS_DIR_IOP_LINK | RFS_DIR_IOP_MKNOD | RFS_DIR_IOP_SYMLINK
  | RFS_DIR_IOP_LOOKUP
  | RFS_LNK_IOP_PERMISSION | RFS_LNK_IOP_SETATTR
  | RFS_CHR_IOP_PERMISSION | RFS_CHR_IOP_SETATTR
  | RFS_BLK_IOP_PERMISSION | RFS_BLK_IOP_SETATTR
  | RFS_FIFO_IOP_PERMISSION | RFS_FIFO_IOP_SETATTR
  | RFS_SOCK_IOP_PERMISSION | RFS_SOCK_IOP_SETATTR
  deriving DecidableEq, Repr

/-! ## Objects -/

/-- The value of `inode->i_op`: null, a table of the underlying filesystem, or
the `ri_op_new` member of the shadow inode `rid`. -/
inductive iop_ptr where
  | null
  | table (t : inode_operations)
  | ri_op_new (rid : Nat)
  deriving DecidableEq, Repr

/-- The value of `inode->i_mapping->a_ops`, likewise. -/
inductive aop_ptr where
  | null
  | table (t : address_space_operations)
  | ri_aop_new (rid : Nat)
  deriving DecidableEq, Repr

structure address_space where
  a_ops : aop_ptr
  deriving DecidableEq, Repr

structure inode where
  i_mode : Nat
  i_op : iop_ptr
  i_fop : Option Nat
  i_mapping : Option address_space
  deriving DecidableEq, Repr

/-- The shadow inode, `struct rinode`. Paths, chains and operation sets are handles. -/
structure rinode where
  ri_inode : Nat
  ri_op_old : Option inode_operations
  ri_fop_old : Option Nat
  ri_aop_old : Option address_space_operations
  ri_op_new : inode_operations
  ri_aop_new : address_space_operations
  ri_path : Option Nat
  ri_chain : Option Nat
  ri_path_set : Option Nat
  ri_chain_set : Option Nat
  ri_ops_set : Option Nat
  ri_count : Nat
  ri_nlink : Int
  ri_data : List Nat
  ri_rdentries : List Nat
  deriving DecidableEq, Repr

/-- The shadow dentry, `struct rdentry`, as far as `rinode.c` uses it. The table
that `rdentry_set_ops` derives is kept as the operation bitmap it was derived from. -/
structure rdentry where
  rd_path : Option Nat
  rd_chain : Option Nat
  rd_ops : Option Nat
  rd_rinode : Option Nat
  rd_count : Int
  rd_op_new : Option (rfs_op_id → Bool)

inductive Fault where
  | BUG
  | null_deref
  | use_after_free
  | wild_pointer
  deriving DecidableEq, Repr

/-- The state of the layer. `ext` is the state of the underlying filesystem and of
the filters. -/
structure World (E : Type) where
  ext : E
  inodes : Nat → inode
  d_inode : Nat → Option Nat
  page_host : Nat → Option Nat
  rinodes : Nat → Option rinode
  rdentries : Nat → Option rdentry
  chain_flts : Nat → List Nat
  chain_cnt : Nat → Int
  path_cnt : Nat → Int
  ops_bits : Nat → rfs_op_id → Bool
  ops_cnt : Nat → Int
  data_flt : Nat → Nat
  data_cnt : Nat → Int
  rinode_cnt : Nat
  rinodes_freed : Bool
  rcu_pending : List Nat

/-! ## Reference-counted handles

`chain_get`, `chain_put`, `path_get`, `path_put`, `ops_get`, `ops_put`,
`rfs_get_data`, `rfs_put_data` and `rdentry_put` are defined in other files of
redirfs. -/

/-- A counter array with one more reference on the handle `h`; a null handle
changes nothing. -/
def cnt_inc (f : Nat → Int) (h : Option Nat) : Nat → Int :=
  match h with
  | none => f
  | some c => Function.update f c (f c + 1)

/-- A counter array with one reference less on the handle `h`; a null handle
changes nothing. -/
def cnt_dec (f : Nat → Int) (h : Option Nat) : Nat → Int :=
  match h with
  | none => f
  | some c => Function.update f c (f c - 1)

/-- Modelled from the spec: `chain_get` (chain.c is not among the sources) takes a
reference on a chain handle; the wrappers call it on null handles, which it
passes through. -/
def chain_get {E : Type} (w : World E) (c : Option Nat) : World E :=
  { w with chain_cnt := cnt_inc w.chain_cnt c }

/-- Modelled from the spec: `chain_put` releases a reference on a chain handle. -/
def chain_put {E : Type} (w : World E) (c : Option Nat) : World E :=
  { w with chain_cnt := cnt_dec w.chain_cnt c }

/-- Modelled from the spec: `path_get` takes a reference on a path handle. -/
def path_get {E : Type} (w : World E) (p : Option Nat) : World E :=
  { w with path_cnt := cnt_inc w.path_cnt p }

/-- Modelled from the spec: `path_put` releases a reference on a path handle. -/
def path_put {E : Type} (w : World E) (p : Option Nat) : World E :=
  { w with path_cnt := cnt_dec w.path_cnt p }

/-- Modelled from the spec: `ops_get` takes a reference on an operation-set handle. -/
def ops_get {E : Type} (w : World E) (o : Option Nat) : World E :=
  { w with ops_cnt := cnt_inc w.ops_cnt o }

/-- Modelled from the spec: `ops_put` releases a reference on an operation-set handle. -/
def ops_put {E : Type} (w : World E) (o : Option Nat) : World E :=
  { w with ops_cnt := cnt_dec w.ops_cnt o }

/-- Modelled from the spec: `rfs_get_data` (data.c is not among the sources) takes
a reference on a private-data object and returns it. -/
def rfs_get_data {E : Type} (w : World E) (d : Nat) : World E :=
  { w with data_cnt := Function.update w.data_cnt d (w.data_cnt d + 1) }

/-- Modelled from the spec: `rfs_put_data` releases a reference on a private-data object. -/
def rfs_put_data {E : Type} (w : World E) (d : Nat) : World E :=
  { w with data_cnt := Function.update w.data_cnt d (w.data_cnt d - 1) }

def World.set_rinode {E : Type} (w : World E) (rid : Nat) (r : Option rinode) : World E :=
  { w with rinodes := Function.update w.rinodes rid r }

def World.set_rdentry {E : Type} (w : World E) (rd : Nat) (e : Option rdentry) : World E :=
  { w with rdentries := Function.update w.rdentries rd e }

def World.set_inode {E : Type} (w : World E) (i : Nat) (n : inode) : World E :=
  { w with inodes := Function.update w.inodes i n }

/-- Modelled from the spec: `rdentry_put` (rdentry.c is not among the sources)
releases a reference on a shadow dentry and destroys it on the last release; a
null pointer is passed through, as the exit paths of the wrappers require. -/
def rdentry_put {E : Type} (w : World E) (rdentry : Option Nat) : Except Fault (World E) :=
  match rdentry with
  | none => .ok w
  | some rd =>
    match w.rdentries rd with
    | none => .error .use_after_free
    | some e =>
      if e.rd_count - 1 = 0 then .ok (w.set_rdentry rd none)
      else .ok (w.set_rdentry rd (some { e with rd_count := e.rd_count - 1 }))

/-! ## The registry: `rinode_alloc` .. `rinode_del` -/

/-- The table behind a value of `inode->i_op`. -/
def World.iop_deref {E : Type} (w : World E) (p : iop_ptr) :
    Except Fault (Option inode_operations) :=
  match p with
  | .null => .ok none
  | .table t => .ok (some t)
  | .ri_op_new rid =>
    match w.rinodes rid with
    | none => .error .use_after_free
    | some r => .ok (some r.ri_op_new)

/-- The table behind a value of `inode->i_mapping->a_ops`. -/
def World.aop_deref {E : Type} (w : World E) (p : aop_ptr) :
    Except Fault (Option address_space_operations) :=
  match p with
  | .null => .ok none
  | .table t => .ok (some t)
  | .ri_aop_new rid =>
    match w.rinodes rid with
    | none => .error .use_after_free
    | some r => .ok (some r.ri_aop_new)

/-- Lines 9-56. `slot` is what `kmem_cache_alloc` returns (`none`: no memory). The
result is the new shadow inode or the error of `ERR_PTR`. The saved pointers are
kept as the tables they point to when they are saved. -/
def rinode_alloc {E : Type} (slot : Option Nat) (w : World E) (i : Nat) :
    Except Fault (Except Int Nat × World E) :=
  match slot with
  | none => .ok (.error (-ENOMEM), w)
  | some rid =>
    let ino := w.inodes i
    match ino.i_mapping with
    | none => .error .null_deref
    | some mapping =>
      match w.iop_deref ino.i_op, w.aop_deref mapping.a_ops with
      | .error f, _ => .error f
      | _, .error f => .error f
      | .ok op_old, .ok aop_old =>
        let op_new : inode_operations :=
          match op_old with
          | some t => t
          | none => {}
        let aop_new : address_space_operations :=
          match aop_old with
          | some t => t
          | none => {}
        let r : rinode :=
          { ri_inode := i
            ri_op_old := op_old
            ri_fop_old := ino.i_fop
            ri_aop_old := aop_old
            ri_op_new := { op_new with lookup := some Fn.rfs_lookup }
            ri_aop_new := aop_new
            ri_path := none
            ri_chain := none
            ri_path_set := none
            ri_chain_set := none
            ri_ops_set := none
            ri_count := 1
            ri_nlink := 1
            ri_data := []
            ri_rdentries := [] }
        .ok (.ok rid, { (w.set_rinode rid (some r)) with
                          rinode_cnt := (w.rinode_cnt + 1) % 2 ^ 64 })

/-- Lines 58-63. The count is kept as a natural number that `atomic_inc` increments;
`atomic_value` gives the value that the 32 bits of the `atomic_t` hold. -/
def rinode_get {E : Type} (w : World E) (rid : Nat) : Except Fault (Nat × World E) :=
  match w.rinodes rid with
  | none => .error .use_after_free
  | some r =>
    if r.ri_count = 0 then .error .BUG
    else .ok (rid, w.set_rinode rid (some { r with ri_count := r.ri_count + 1 }))

/-- Lines 65-101. -/
def rinode_put {E : Type} (w : World E) (ri : Option Nat) : Except Fault (World E) :=
  match ri with
  | none => .ok w
  | some rid =>
    match w.rinodes rid with
    | none => .error .use_after_free
    | some r =>
      if r.ri_count = 0 then .error .BUG
      else if r.ri_count - 1 ≠ 0 then
        .ok (w.set_rinode rid (some { r with ri_count := r.ri_count - 1 }))
      else
        let w := path_put w r.ri_path
        let w := chain_put w r.ri_chain
        let w := path_put w r.ri_path_set
        let w := chain_put w r.ri_chain_set
        let w := ops_put w r.ri_ops_set
        if r.ri_rdentries ≠ [] then .error .BUG
        else
          let w := r.ri_data.foldl rfs_put_data w
          let w := w.set_rinode rid none
          let cnt := (w.rinode_cnt + 2 ^ 64 - 1) % 2 ^ 64
          .ok { w with rinode_cnt := cnt
                       rinodes_freed := if cnt = 0 then true else w.rinodes_freed }

/-- Lines 103-120. A table of the underlying filesystem that carries the sentinel
makes `container_of` yield a pointer to no shadow inode. -/
def rinode_find {E : Type} (w : World E) (i : Nat) :
    Except Fault (Option Nat × World E) :=
  match (w.inodes i).i_op with
  | .null => .ok (none, w)
  | .table t =>
    if t.lookup = some Fn.rfs_lookup then .error .wild_pointer else .ok (none, w)
  | .ri_op_new rid =>
    match w.rinodes rid with
    | none => .error .use_after_free
    | some r =>
      if r.ri_op_new.lookup = some Fn.rfs_lookup then
        match rinode_get w rid with
        | .error f => .error f
        | .ok (rid, w) => .ok (some rid, w)
      else .ok (none, w)

/-- Lines 122-128: the callback that `rinode_del` hands to `call_rcu`. -/
def rinode_del_rcu {E : Type} (w : World E) (rid : Nat) : Except Fault (World E) :=
  rinode_put w (some rid)

/-- The value `inode->i_op` takes when it is set to a saved table pointer. -/
def iop_of (t : Option inode_operations) : iop_ptr :=
  match t with
  | none => .null
  | some t => .table t

/-- The value `inode->i_mapping->a_ops` takes when it is set to a saved table pointer. -/
def aop_of (t : Option address_space_operations) : aop_ptr :=
  match t with
  | none => .null
  | some t => .table t

/-- Lines 130-161. The deferred callback is queued in `rcu_pending`. -/
def rinode_del {E : Type} (w : World E) (i : Nat) : Except Fault (World E) :=
  match rinode_find w i with
  | .error f => .error f
  | .ok (none, w) => .ok w
  | .ok (some rid, w) =>
    match w.rinodes rid with
    | none => .error .use_after_free
    | some r =>
      let r := { r with ri_nlink := r.ri_nlink - 1 }
      let w := w.set_rinode rid (some r)
      if r.ri_nlink ≠ 0 then rinode_put w (some rid)
      else
        let ino := w.inodes i
        let ino := if !S_ISSOCK ino.i_mode then { ino with i_fop := r.ri_fop_old } else ino
        let ino : Except Fault inode :=
          if S_ISREG ino.i_mode then
            match ino.i_mapping with
            | none => .error .null_deref
            | some _ => .ok { ino with i_mapping := some { a_ops := aop_of r.ri_aop_old } }
          else .ok ino
        match ino with
        | .error f => .error f
        | .ok ino =>
          let ino := { ino with i_op := iop_of r.ri_op_old }
          let w := w.set_inode i ino
          match rinode_put w (some rid) with
          | .error f => .error f
          | .ok w =>
            match w.rinodes rid with
            | none => .error .use_after_free
            | some _ => .ok { w with rcu_pending := w.rcu_pending ++ [rid] }

/-! ## Re-derivation of the substituted tables (lines 1166-1309) -/

def old_iop (ri : rinode) (f : inode_operations → Option Fn) : Option Fn :=
  match ri.ri_op_old with
  | some t => f t
  | none => none

def old_aop (ri : rinode) (f : address_space_operations → Option Fn) : Option Fn :=
  match ri.ri_aop_old with
  | some t => f t
  | none => none

/-- An assignment to slots of `rinode->ri_op_new`. -/
def rinode.set_iop (ri : rinode) (f : inode_operations → inode_operations) : rinode :=
  { ri with ri_op_new := f ri.ri_op_new }

/-- An assignment to slots of `rinode->ri_aop_new`. -/
def rinode.set_aop (ri : rinode) (f : address_space_operations → address_space_operations) :
    rinode :=
  { ri with ri_aop_new := f ri.ri_aop_new }

/-- Lines 1166-1187. -/
def rinode_set_reg_ops (ri : rinode) (ops : rfs_op_id → Bool) : rinode :=
  let ri :=
    ri.set_iop fun t =>
      { t with permission :=
          if ops .RFS_REG_IOP_PERMISSION then some Fn.rfs_permission else old_iop ri (·.permission) }
  let ri :=
    ri.set_iop fun t =>
      { t with setattr :=
          if ops .RFS_REG_IOP_SETATTR then some Fn.rfs_setattr else old_iop ri (·.setattr) }
  let ri :=
    ri.set_aop fun t =>
      { t with readpage :=
          if ops .RFS_REG_AOP_READPAGE then some Fn.rfs_readpage else old_aop ri (·.readpage) }
  ri.set_aop fun t =>
    { t with writepage :=
        if ops .RFS_REG_AOP_WRITEPAGE then some Fn.rfs_writepage else old_aop ri (·.writepage) }

/-- Lines 1189-1216. -/
def rinode_set_dir_ops (ri : rinode) (ops : rfs_op_id → Bool) : rinode :=
  let ri :=
    ri.set_iop fun t =>
      { t with unlink :=
          if ops .RFS_DIR_IOP_UNLINK then some Fn.rfs_unlink else old_iop ri (·.unlink) }
  let ri :=
    ri.set_iop fun t =>
      { t with permission :=
          if ops .RFS_DIR_IOP_PERMISSION then some Fn.rfs_permission else old_iop ri (·.permission) }
  let ri :=
    ri.set_iop fun t =>
      { t with setattr :=
          if ops .RFS_DIR_IOP_SETATTR then some Fn.rfs_setattr else old_iop ri (·.setattr) }
  let ri :=
    ri.set_iop fun t =>
      { t with rmdir :=
          if ops .RFS_DIR_IOP_RMDIR then some Fn.rfs_rmdir else old_iop ri (·.rmdir) }
  ri.set_iop fun t =>
    { t with
      mkdir := some Fn.rfs_mkdir
      create := some Fn.rfs_create
      link := some Fn.rfs_link
      mknod := some Fn.rfs_mknod
      symlink := some Fn.rfs_symlink }

/-- The body shared, up to the two identifiers, by `rinode_set_chr_ops`,
`rinode_set_blk_ops`, `rinode_set_fifo_ops`, `rinode_set_lnk_ops` and
`rinode_set_sock_ops` (lines 1218-1281). -/
def rinode_set_perm_attr (perm attr : rfs_op_id) (ri : rinode) (ops : rfs_op_id → Bool) :
    rinode :=
  let ri :=
    ri.set_iop fun t =>
      { t with permission :=
          if ops perm then some Fn.rfs_permission else old_iop ri (·.permission) }
  ri.set_iop fun t =>
    { t with setattr :=
        if ops attr then some Fn.rfs_setattr else old_iop ri (·.setattr) }

/-- Lines 1218-1229. -/
def rinode_set_chr_ops (ri : rinode) (ops : rfs_op_id → Bool) : rinode :=
  rinode_set_perm_attr .RFS_CHR_IOP_PERMISSION .RFS_CHR_IOP_SETATTR ri ops

/-- Lines 1231-1242. -/
def rinode_set_blk_ops (ri : rinode) (ops : rfs_op_id → Bool) : rinode :=
  rinode_set_perm_attr .RFS_BLK_IOP_PERMISSION .RFS_BLK_IOP_SETATTR ri ops

/-- Lines 1244-1255. -/
def rinode_set_fifo_ops (ri : rinode) (ops : rfs_op_id → Bool) : rinode :=
  rinode_set_perm_attr .RFS_FIFO_IOP_PERMISSION .RFS_FIFO_IOP_SETATTR ri ops

/-- Lines 1257-1268. -/
def rinode_set_lnk_ops (ri : rinode) (ops : rfs_op_id → Bool) : rinode :=
  rinode_set_perm_attr .RFS_LNK_IOP_PERMISSION .RFS_LNK_IOP_SETATTR ri ops

/-- Lines 1270-1281. -/
def rinode_set_sock_ops (ri : rinode) (ops : rfs_op_id → Bool) : rinode :=
  rinode_set_perm_attr .RFS_SOCK_IOP_PERMISSION .RFS_SOCK_IOP_SETATTR ri ops

/-- Lines 1283-1309, on the fields of the shadow inode: `mode` is
`rinode->ri_inode->i_mode` and `ops` is `ops->o_ops`. -/
def rinode_set_ops_mode (mode : Nat) (ri : rinode) (ops : rfs_op_id → Bool) : rinode :=
  let ri :=
    if S_ISREG mode then rinode_set_reg_ops ri ops
    else if S_ISDIR mode then rinode_set_dir_ops ri ops
    else if S_ISLNK mode then rinode_set_lnk_ops ri ops
    else if S_ISCHR mode then rinode_set_chr_ops ri ops
    else if S_ISBLK mode then rinode_set_blk_ops ri ops
    else if S_ISFIFO mode then rinode_set_fifo_ops ri ops
    else if S_ISSOCK mode then rinode_set_sock_ops ri ops
    else ri
  ri.set_iop fun t => { t with lookup := some Fn.rfs_lookup }

/-- Whether the mode is one of the seven kinds, that is whether `rinode_set_ops`
reads `ops->o_ops`. -/
def known_kind (mode : Nat) : Bool :=
  S_ISREG mode || S_ISDIR mode || S_ISLNK mode || S_ISCHR mode || S_ISBLK mode
    || S_ISFIFO mode || S_ISSOCK mode

/-- Lines 1283-1309, on the state: `rinode` and `ops` are pointers. A null `ops`
is dereferenced exactly when the kind is one of the seven. -/
def rinode_set_ops {E : Type} (w : World E) (rid : Nat) (ops : Option Nat) :
    Except Fault (World E) :=
  match w.rinodes rid with
  | none => .error .use_after_free
  | some r =>
    let mode := (w.inodes r.ri_inode).i_mode
    match ops with
    | none =>
      if known_kind mode then .error .null_deref
      else .ok (w.set_rinode rid (some (rinode_set_ops_mode mode r (fun _ => false))))
    | some o => .ok (w.set_rinode rid (some (rinode_set_ops_mode mode r (w.ops_bits o))))

/-! ## The filter protocol

`rfs_precall_flts`, `rfs_postcall_flts` and `chain_find_flt` are defined in other
files of redirfs. -/

/-- The members of `union rfs_op_args` that `rinode.c` fills in, as one record of
all their fields; every wrapper writes and reads the fields of its own member only.
Pointers are the indices of the objects. -/
structure rfs_op_args where
  dir : Int := 0
  dentry : Int := 0
  old_dentry : Int := 0
  mode : Int := 0
  nd : Int := 0
  oldname : Int := 0
  rdev : Int := 0
  ino : Int := 0
  mask : Int := 0
  iattr : Int := 0
  file : Int := 0
  page : Int := 0
  wbc : Int := 0
  deriving DecidableEq, Repr

/-- The fields of `struct rfs_args` used here: `type.id`, `args` and the return slot `retv`. -/
structure rfs_args where
  id : rfs_op_id
  args : rfs_op_args
  retv : Int
  deriving DecidableEq, Repr

/-- The call context, `struct context`: the list of data attached for the call. -/
structure context where
  data_list : List Nat
  deriving DecidableEq, Repr

/-- What a filter callback and the original implementation work on during one
call: the context, the arguments and the state outside this layer. -/
structure Call (E : Type) where
  cont : context
  args : rfs_args
  ext : E

/-- The collaborators of `rinode.c`. `f_pre f` and `f_post f` are the callbacks of
the filter `f` (the Boolean of `f_pre` is its wish to skip the original), `call fn argv`
invokes a function pointer of an original table, `rdentry_add` is the routine of
rdentry.c (`none` for an error pointer) and `stack` is the indeterminate content of
the return slot of the local `args` before anything is stored in it. -/
structure Env (E : Type) where
  f_pre : Nat → Call E → Bool × Call E
  f_post : Nat → Call E → Call E
  call : Fn → List Int → E → Int × E
  generic_permission : Int → Int → E → Int × E
  rdentry_add : Nat → World E → Option Nat × World E
  stack : Int

/-- The PRE callbacks of the filters `fs`, in order; the results are joined by "or". -/
def precall_list {E : Type} (env : Env E) : List Nat → Call E → Bool × Call E
  | [], s => (false, s)
  | f :: fs, s =>
    let r := env.f_pre f s
    let r2 := precall_list env fs r.2
    (r.1 || r2.1, r2.2)

/-- The POST callbacks of the filters `fs`, in order. -/
def postcall_list {E : Type} (env : Env E) : List Nat → Call E → Call E
  | [], s => s
  | f :: fs, s => postcall_list env fs (env.f_post f s)

/-- Modelled from the spec: `rfs_precall_flts` (filter.c is not among the sources)
invokes the PRE callback of every filter of the chain from `idx_start` onward, in
chain order, and returns whether any of them asked to skip the original. A null
chain, which the wrappers pass for a node without an active chain, has no filter. -/
def rfs_precall_flts {E : Type} (env : Env E) (w : World E) (idx_start : Int)
    (chain : Option Nat) (s : Call E) : Bool × Call E :=
  match chain with
  | none => (false, s)
  | some c => precall_list env ((w.chain_flts c).drop idx_start.toNat) s

/-- Modelled from the spec: `rfs_postcall_flts` invokes the POST callback of every
filter of the chain from `idx_start` onward, in chain order. -/
def rfs_postcall_flts {E : Type} (env : Env E) (w : World E) (idx_start : Int)
    (chain : Option Nat) (s : Call E) : Call E :=
  match chain with
  | none => s
  | some c => postcall_list env ((w.chain_flts c).drop idx_start.toNat) s

/-- Modelled from the spec: `chain_find_flt` (chain.c is not among the sources)
locates the index of the filter within the chain; the callers test the result
against -1, the value for a filter that is not in the chain. -/
def chain_find_flt {E : Type} (w : World E) (chain : Option Nat) (flt : Nat) : Int :=
  match chain with
  | none => -1
  | some c =>
    if flt ∈ w.chain_flts c then ((w.chain_flts c).indexOf flt : Int) else -1

/-- Modelled from the spec: `rfs_find_data` (data.c is not among the sources) scans
the list linearly for the entry of the filter. -/
def rfs_find_data {E : Type} (w : World E) (list : List Nat) (flt : Nat) : Option Nat :=
  list.find? (fun d => w.data_flt d == flt)

/-- Modelled from the spec: `rdentry_set_ops` (rdentry.c is not among the sources)
re-derives the table of the shadow dentry from the operation set; it reads
`ops->o_ops`. -/
def rdentry_set_ops {E : Type} (w : World E) (rd : Nat) (ops : Option Nat) :
    Except Fault (World E) :=
  match w.rdentries rd, ops with
  | none, _ => .error .use_after_free
  | some _, none => .error .null_deref
  | some e, some o => .ok (w.set_rdentry rd (some { e with rd_op_new := some (w.ops_bits o) }))

/-! ## The wrappers -/

def World.live_iop {E : Type} (w : World E) (i : Nat) : Except Fault (Option inode_operations) :=
  w.iop_deref (w.inodes i).i_op

def World.live_aop {E : Type} (w : World E) (i : Nat) :
    Except Fault (Option address_space_operations) :=
  match (w.inodes i).i_mapping with
  | none => .ok none
  | some m => w.aop_deref m.a_ops

/-- Stores the result of the original step in the return slot (`args.retv.rv_int = rv`)
and keeps the state the original left behind. -/
def Call.ret {E : Type} (s : Call E) (r : Int × E) : Call E :=
  { s with args := { s.args with retv := r.1 }, ext := r.2 }

/-- Lines 163-211. -/
def rfs_unlink {E : Type} (env : Env E) (w : World E) (dir dentry : Nat) :
    Except Fault (Int × World E) := do
  let (rinode, w) ← rinode_find w dir
  match rinode with
  | none =>
    match ← w.live_iop dir with
    | some t =>
      match t.unlink with
      | some fn =>
        let r := env.call fn [dir, dentry] w.ext
        return (r.1, { w with ext := r.2 })
      | none => return (-EPERM, w)
    | none => return (-EPERM, w)
  | some rid =>
    let some r := w.rinodes rid | throw .use_after_free
    let chain := r.ri_chain
    let w := chain_get w chain
    let a : rfs_op_args := { dir := dir, dentry := dentry }
    let cont : context := { data_list := [] }
    if !S_ISDIR (w.inodes dir).i_mode then throw .BUG
    let s : Call E :=
      { cont := cont, args := { id := .RFS_DIR_IOP_UNLINK, args := a, retv := env.stack },
        ext := w.ext }
    let pre := rfs_precall_flts env w 0 chain s
    let s := pre.2
    let s :=
      if !pre.1 then
        s.ret
          (match old_iop r (·.unlink) with
           | some fn =>
             env.call fn [s.args.args.dir, s.args.args.dentry] s.ext
           | none => (-EPERM, s.ext))
      else s
    let s := rfs_postcall_flts env w 0 chain s
    let rv := s.args.retv
    let w := { w with ext := s.ext }
    let w := chain_put w chain
    let w ← rinode_put w (some rid)
    if s.cont.data_list ≠ [] then throw .BUG
    return (rv, w)

/-- Lines 213-261. -/
def rfs_rmdir {E : Type} (env : Env E) (w : World E) (dir dentry : Nat) :
    Except Fault (Int × World E) := do
  let (rinode, w) ← rinode_find w dir
  match rinode with
  | none =>
    match ← w.live_iop dir with
    | some t =>
      match t.rmdir with
      | some fn =>
        let r := env.call fn [dir, dentry] w.ext
        return (r.1, { w with ext := r.2 })
      | none => return (-EPERM, w)
    | none => return (-EPERM, w)
  | some rid =>
    let some r := w.rinodes rid | throw .use_after_free
    let chain := r.ri_chain
    let w := chain_get w chain
    let a : rfs_op_args := { dir := dir, dentry := dentry }
    let cont : context := { data_list := [] }
    if !S_ISDIR (w.inodes dir).i_mode then throw .BUG
    let s : Call E :=
      { cont := cont, args := { id := .RFS_DIR_IOP_RMDIR, args := a, retv := env.stack },
        ext := w.ext }
    let pre := rfs_precall_flts env w 0 chain s
    let s := pre.2
    let s :=
      if !pre.1 then
        s.ret
          (match old_iop r (·.rmdir) with
           | some fn =>
             env.call fn [s.args.args.dir, s.args.args.dentry] s.ext
           | none => (-EPERM, s.ext))
      else s
    let s := rfs_postcall_flts env w 0 chain s
    let rv := s.args.retv
    let w := { w with ext := s.ext }
    let w := chain_put w chain
    let w ← rinode_put w (some rid)
    if s.cont.data_list ≠ [] then throw .BUG
    return (rv, w)

/-- The propagation of the pending configuration to the child: lines 318-352 of
`rfs_mkdir`, and the same statements in `rfs_create` (424-458), `rfs_link`
(530-564), `rfs_symlink` (635-669), `rfs_lookup` (740-774) and `rfs_mknod`
(846-880). The result holds the value of the local `rdentry` at the label `exit`. -/
def rfs_propagate {E : Type} (env : Env E) (w : World E) (dentry : Nat)
    (path_set chain_set ops_set : Option Nat) : Except Fault (Option Nat × World E) := do
  match chain_set with
  | none => return (none, w)
  | some _ =>
    let added := env.rdentry_add dentry w
    let w := added.2
    let some rd := added.1 | throw .BUG
    let some e := w.rdentries rd | throw .use_after_free
    let w := path_put w e.rd_path
    let w := chain_put w e.rd_chain
    let w := ops_put w e.rd_ops
    let w := path_get w path_set
    let w := chain_get w chain_set
    let w := ops_get w ops_set
    let w := w.set_rdentry rd
      (some { e with rd_path := path_set, rd_chain := chain_set, rd_ops := ops_set })
    let w ← rdentry_set_ops w rd ops_set
    let some e := w.rdentries rd | throw .use_after_free
    match e.rd_rinode with
    | none => return (some rd, w)
    | some rid =>
      let some r := w.rinodes rid | throw .use_after_free
      let w := path_put w r.ri_path_set
      let w := chain_put w r.ri_chain_set
      let w := ops_put w r.ri_ops_set
      let w := path_put w r.ri_path
      let w := chain_put w r.ri_chain
      let w := path_get w path_set
      let w := chain_get w chain_set
      let w := ops_get w ops_set
      let w := path_get w path_set
      let w := chain_get w chain_set
      let w := w.set_rinode rid
        (some { r with ri_path_set := path_set, ri_chain_set := chain_set,
                       ri_ops_set := ops_set, ri_path := path_set, ri_chain := chain_set })
      let w ← rinode_set_ops w rid ops_set
      return (some rd, w)

/-- The releases at the label `exit`: lines 354-361 of `rfs_mkdir`, and the same
statements in the other five wrappers that propagate. -/
def rfs_release {E : Type} (w : World E) (rdentry : Option Nat) (parent : Nat)
    (path_set chain_set ops_set path chain : Option Nat) : Except Fault (World E) := do
  let w ← rdentry_put w rdentry
  let w ← rinode_put w (some parent)
  let w := path_put w path_set
  let w := chain_put w chain_set
  let w := ops_put w ops_set
  let w := path_put w path
  let w := chain_put w chain
  return w

/-- The snapshot taken under `ri_lock` by the six wrappers that propagate (lines
285-291 of `rfs_mkdir`): a reference on each of the five handles of the parent. -/
def rfs_snapshot {E : Type} (w : World E) (parent : rinode) : World E :=
  let w := path_get w parent.ri_path_set
  let w := chain_get w parent.ri_chain_set
  let w := ops_get w parent.ri_ops_set
  let w := path_get w parent.ri_path
  chain_get w parent.ri_chain

/-- Lines 263-366. -/
def rfs_mkdir {E : Type} (env : Env E) (w : World E) (dir dentry : Nat) (mode : Int) :
    Except Fault (Int × World E) := do
  let (parent, w) ← rinode_find w dir
  match parent with
  | none =>
    match ← w.live_iop dir with
    | some t =>
      match t.mkdir with
      | some fn =>
        let r := env.call fn [dir, dentry, mode] w.ext
        return (r.1, { w with ext := r.2 })
      | none => return (-EPERM, w)
    | none => return (-EPERM, w)
  | some pid =>
    let some p := w.rinodes pid | throw .use_after_free
    let w := rfs_snapshot w p
    let a : rfs_op_args := { dir := dir, dentry := dentry, mode := mode }
    let cont : context := { data_list := [] }
    if !S_ISDIR (w.inodes dir).i_mode then throw .BUG
    let s : Call E :=
      { cont := cont, args := { id := .RFS_DIR_IOP_MKDIR, args := a, retv := env.stack },
        ext := w.ext }
    let pre := rfs_precall_flts env w 0 p.ri_chain s
    let s := pre.2
    let s :=
      if !pre.1 then
        s.ret
          (match old_iop p (·.mkdir) with
           | some fn =>
             env.call fn [s.args.args.dir, s.args.args.dentry, s.args.args.mode] s.ext
           | none => (-EPERM, s.ext))
      else s
    let s := rfs_postcall_flts env w 0 p.ri_chain s
    let rv := s.args.retv
    let w := { w with ext := s.ext }
    let (rdentry, w) ← rfs_propagate env w dentry p.ri_path_set p.ri_chain_set p.ri_ops_set
    let w ← rfs_release w rdentry pid p.ri_path_set p.ri_chain_set p.ri_ops_set p.ri_path
      p.ri_chain
    if s.cont.data_list ≠ [] then throw .BUG
    return (rv, w)

/-- Lines 368-472. -/
def rfs_create {E : Type} (env : Env E) (w : World E) (dir dentry : Nat) (mode nd : Int) :
    Except Fault (Int × World E) := do
  let (parent, w) ← rinode_find w dir
  match parent with
  | none =>
    match ← w.live_iop dir with
    | some t =>
      match t.create with
      | some fn =>
        let r := env.call fn [dir, dentry, mode, nd] w.ext
        return (r.1, { w with ext := r.2 })
      | none => return (-EACCES, w)
    | none => return (-EACCES, w)
  | some pid =>
    let some p := w.rinodes pid | throw .use_after_free
    let w := rfs_snapshot w p
    let a : rfs_op_args := { dir := dir, dentry := dentry, mode := mode, nd := nd }
    let cont : context := { data_list := [] }
    if !S_ISDIR (w.inodes dir).i_mode then throw .BUG
    let s : Call E :=
      { cont := cont, args := { id := .RFS_DIR_IOP_CREATE, args := a, retv := env.stack },
        ext := w.ext }
    let pre := rfs_precall_flts env w 0 p.ri_chain s
    let s := pre.2
    let s :=
      if !pre.1 then
        s.ret
          (match old_iop p (·.create) with
           | some fn =>
             env.call fn
               [s.args.args.dir, s.args.args.dentry, s.args.args.mode, s.args.args.nd] s.ext
           | none => (-EACCES, s.ext))
      else s
    let s := rfs_postcall_flts env w 0 p.ri_chain s
    let rv := s.args.retv
    let w := { w with ext := s.ext }
    let (rdentry, w) ← rfs_propagate env w dentry p.ri_path_set p.ri_chain_set p.ri_ops_set
    let w ← rfs_release w rdentry pid p.ri_path_set p.ri_chain_set p.ri_ops_set p.ri_path
      p.ri_chain
    if s.cont.data_list ≠ [] then throw .BUG
    return (rv, w)

/-- Lines 474-578. -/
def rfs_link {E : Type} (env : Env E) (w : World E) (old_dentry : Int) (dir dentry : Nat) :
    Except Fault (Int × World E) := do
  let (parent, w) ← rinode_find w dir
  match parent with
  | none =>
    match ← w.live_iop dir with
    | some t =>
      match t.link with
      | some fn =>
        let r := env.call fn [old_dentry, dir, dentry] w.ext
        return (r.1, { w with ext := r.2 })
      | none => return (-EPERM, w)
    | none => return (-EPERM, w)
  | some pid =>
    let some p := w.rinodes pid | throw .use_after_free
    let w := rfs_snapshot w p
    let a : rfs_op_args := { old_dentry := old_dentry, dir := dir, dentry := dentry }
    let cont : context := { data_list := [] }
    if !S_ISDIR (w.inodes dir).i_mode then throw .BUG
    let s : Call E :=
      { cont := cont, args := { id := .RFS_DIR_IOP_LINK, args := a, retv := env.stack },
        ext := w.ext }
    let pre := rfs_precall_flts env w 0 p.ri_chain s
    let s := pre.2
    let s :=
      if !pre.1 then
        s.ret
          (match old_iop p (·.link) with
           | some fn =>
             env.call fn [s.args.args.old_dentry, s.args.args.dir, s.args.args.dentry] s.ext
           | none => (-EPERM, s.ext))
      else s
    let s := rfs_postcall_flts env w 0 p.ri_chain s
    let rv := s.args.retv
    let w := { w with ext := s.ext }
    let (rdentry, w) ← rfs_propagate env w dentry p.ri_path_set p.ri_chain_set p.ri_ops_set
    let w ← rfs_release w rdentry pid p.ri_path_set p.ri_chain_set p.ri_ops_set p.ri_path
      p.ri_chain
    if s.cont.data_list ≠ [] then throw .BUG
    return (rv, w)

/-- Lines 580-683. The original step tests the `link` slot of the saved table and
calls its `symlink` slot; calling a null slot is a fault. -/
def rfs_symlink {E : Type} (env : Env E) (w : World E) (dir dentry : Nat) (oldname : Int) :
    Except Fault (Int × World E) := do
  let (parent, w) ← rinode_find w dir
  match parent with
  | none =>
    match ← w.live_iop dir with
    | some t =>
      match t.symlink with
      | some fn =>
        let r := env.call fn [dir, dentry, oldname] w.ext
        return (r.1, { w with ext := r.2 })
      | none => return (-EPERM, w)
    | none => return (-EPERM, w)
  | some pid =>
    let some p := w.rinodes pid | throw .use_after_free
    let w := rfs_snapshot w p
    let a : rfs_op_args := { dir := dir, dentry := dentry, oldname := oldname }
    let cont : context := { data_list := [] }
    if !S_ISDIR (w.inodes dir).i_mode then throw .BUG
    let s : Call E :=
      { cont := cont, args := { id := .RFS_DIR_IOP_SYMLINK, args := a, retv := env.stack },
        ext := w.ext }
    let pre := rfs_precall_flts env w 0 p.ri_chain s
    let s := pre.2
    let s ←
      if !pre.1 then
        match old_iop p (·.link) with
        | some _ =>
          match old_iop p (·.symlink) with
          | some fn =>
            pure (s.ret (env.call fn
              [s.args.args.dir, s.args.args.dentry, s.args.args.oldname] s.ext))
          | none => throw .null_deref
        | none => pure (s.ret (-EPERM, s.ext))
      else pure s
    let s := rfs_postcall_flts env w 0 p.ri_chain s
    let rv := s.args.retv
    let w := { w with ext := s.ext }
    let (rdentry, w) ← rfs_propagate env w dentry p.ri_path_set p.ri_chain_set p.ri_ops_set
    let w ← rfs_release w rdentry pid p.ri_path_set p.ri_chain_set p.ri_ops_set p.ri_path
      p.ri_chain
    if s.cont.data_list ≠ [] then throw .BUG
    return (rv, w)

/-- Lines 685-788. The result is a dentry pointer or an error pointer; both are
kept as the integer in the return slot. -/
def rfs_lookup {E : Type} (env : Env E) (w : World E) (dir dentry : Nat) (nd : Int) :
    Except Fault (Int × World E) := do
  let (parent, w) ← rinode_find w dir
  match parent with
  | none =>
    match ← w.live_iop dir with
    | some t =>
      match t.lookup with
      | some fn =>
        let r := env.call fn [dir, dentry, nd] w.ext
        return (r.1, { w with ext := r.2 })
      | none => return (-ENOSYS, w)
    | none => return (-ENOSYS, w)
  | some pid =>
    let some p := w.rinodes pid | throw .use_after_free
    let w := rfs_snapshot w p
    let a : rfs_op_args := { dir := dir, dentry := dentry, nd := nd }
    let cont : context := { data_list := [] }
    if !S_ISDIR (w.inodes dir).i_mode then throw .BUG
    let s : Call E :=
      { cont := cont, args := { id := .RFS_DIR_IOP_LOOKUP, args := a, retv := env.stack },
        ext := w.ext }
    let pre := rfs_precall_flts env w 0 p.ri_chain s
    let s := pre.2
    let s :=
      if !pre.1 then
        s.ret
          (match old_iop p (·.lookup) with
           | some fn =>
             env.call fn [s.args.args.dir, s.args.args.dentry, s.args.args.nd] s.ext
           | none => (-ENOSYS, s.ext))
      else s
    let s := rfs_postcall_flts env w 0 p.ri_chain s
    let rv := s.args.retv
    let w := { w with ext := s.ext }
    let (rdentry, w) ← rfs_propagate env w dentry p.ri_path_set p.ri_chain_set p.ri_ops_set
    let w ← rfs_release w rdentry pid p.ri_path_set p.ri_chain_set p.ri_ops_set p.ri_path
      p.ri_chain
    if s.cont.data_list ≠ [] then throw .BUG
    return (rv, w)

/-- Lines 790-894. -/
def rfs_mknod {E : Type} (env : Env E) (w : World E) (dir dentry : Nat) (mode rdev : Int) :
    Except Fault (Int × World E) := do
  let (parent, w) ← rinode_find w dir
  match parent with
  | none =>
    match ← w.live_iop dir with
    | some t =>
      match t.mknod with
      | some fn =>
        let r := env.call fn [dir, dentry, mode, rdev] w.ext
        return (r.1, { w with ext := r.2 })
      | none => return (-EPERM, w)
    | none => return (-EPERM, w)
  | some pid =>
    let some p := w.rinodes pid | throw .use_after_free
    let w := rfs_snapshot w p
    let a : rfs_op_args := { dir := dir, dentry := dentry, mode := mode, rdev := rdev }
    let cont : context := { data_list := [] }
    if !S_ISDIR (w.inodes dir).i_mode then throw .BUG
    let s : Call E :=
      { cont := cont, args := { id := .RFS_DIR_IOP_MKNOD, args := a, retv := env.stack },
        ext := w.ext }
    let pre := rfs_precall_flts env w 0 p.ri_chain s
    let s := pre.2
    let s :=
      if !pre.1 then
        s.ret
          (match old_iop p (·.mknod) with
           | some fn =>
             env.call fn
               [s.args.args.dir, s.args.args.dentry, s.args.args.mode, s.args.args.rdev] s.ext
           | none => (-EPERM, s.ext))
      else s
    let s := rfs_postcall_flts env w 0 p.ri_chain s
    let rv := s.args.retv
    let w := { w with ext := s.ext }
    let (rdentry, w) ← rfs_propagate env w dentry p.ri_path_set p.ri_chain_set p.ri_ops_set
    let w ← rfs_release w rdentry pid p.ri_path_set p.ri_chain_set p.ri_ops_set p.ri_path
      p.ri_chain
    if s.cont.data_list ≠ [] then throw .BUG
    return (rv, w)

/-- The operation identifier chosen by `rfs_permission` (lines 923-936). -/
def permission_id (mode : Nat) : rfs_op_id :=
  if S_ISREG mode then .RFS_REG_IOP_PERMISSION
  else if S_ISDIR mode then .RFS_DIR_IOP_PERMISSION
  else if S_ISLNK mode then .RFS_LNK_IOP_PERMISSION
  else if S_ISCHR mode then .RFS_CHR_IOP_PERMISSION
  else if S_ISBLK mode then .RFS_BLK_IOP_PERMISSION
  else if S_ISFIFO mode then .RFS_FIFO_IOP_PERMISSION
  else .RFS_SOCK_IOP_PERMISSION

/-- The operation identifier chosen by `rfs_setattr` (lines 986-999). -/
def setattr_id (mode : Nat) : rfs_op_id :=
  if S_ISREG mode then .RFS_REG_IOP_SETATTR
  else if S_ISDIR mode then .RFS_DIR_IOP_SETATTR
  else if S_ISLNK mode then .RFS_LNK_IOP_SETATTR
  else if S_ISCHR mode then .RFS_CHR_IOP_SETATTR
  else if S_ISBLK mode then .RFS_BLK_IOP_SETATTR
  else if S_ISFIFO mode then .RFS_FIFO_IOP_SETATTR
  else .RFS_SOCK_IOP_SETATTR

/-- The value of `mask & ~MAY_APPEND`. -/
def submask (mask : Int) : Int := Int.land mask (Int.lnot MAY_APPEND)

/-- Lines 896-958. -/
def rfs_permission {E : Type} (env : Env E) (w : World E) (i : Nat) (mask nd : Int) :
    Except Fault (Int × World E) := do
  let (rinode, w) ← rinode_find w i
  match rinode with
  | none =>
    match ← w.live_iop i with
    | some t =>
      match t.permission with
      | some fn =>
        let r := env.call fn [i, mask, nd] w.ext
        return (r.1, { w with ext := r.2 })
      | none =>
        let r := env.generic_permission i (submask mask) w.ext
        return (r.1, { w with ext := r.2 })
    | none =>
      let r := env.generic_permission i (submask mask) w.ext
      return (r.1, { w with ext := r.2 })
  | some rid =>
    let some r := w.rinodes rid | throw .use_after_free
    let chain := r.ri_chain
    let w := chain_get w chain
    let a : rfs_op_args := { ino := i, mask := mask, nd := nd }
    let cont : context := { data_list := [] }
    let s : Call E :=
      { cont := cont,
        args := { id := permission_id (w.inodes i).i_mode, args := a, retv := env.stack },
        ext := w.ext }
    let pre := rfs_precall_flts env w 0 chain s
    let s := pre.2
    let s :=
      if !pre.1 then
        s.ret
          (match old_iop r (·.permission) with
           | some fn =>
             env.call fn [s.args.args.ino, s.args.args.mask, s.args.args.nd] s.ext
           | none => (env.generic_permission s.args.args.ino (submask s.args.args.mask) s.ext))
      else s
    let s := rfs_postcall_flts env w 0 chain s
    let rv := s.args.retv
    let w := { w with ext := s.ext }
    let w ← rinode_put w (some rid)
    let w := chain_put w chain
    if s.cont.data_list ≠ [] then throw .BUG
    return (rv, w)

/-- Lines 960-1017. `rinode_find` dereferences `dentry->d_inode` before the test
for null of line 971. -/
def rfs_setattr {E : Type} (env : Env E) (w : World E) (dentry : Nat) (iattr : Int) :
    Except Fault (Int × World E) := do
  let some i := w.d_inode dentry | throw .null_deref
  let (rinode, w) ← rinode_find w i
  match rinode with
  | none =>
    match ← w.live_iop i with
    | some t =>
      match t.setattr with
      | some fn =>
        let r := env.call fn [dentry, iattr] w.ext
        return (r.1, { w with ext := r.2 })
      | none => return (0, w)
    | none => return (0, w)
  | some rid =>
    let some r := w.rinodes rid | throw .use_after_free
    let chain := r.ri_chain
    let w := chain_get w chain
    let a : rfs_op_args := { dentry := dentry, iattr := iattr }
    let cont : context := { data_list := [] }
    let s : Call E :=
      { cont := cont,
        args := { id := setattr_id (w.inodes i).i_mode, args := a, retv := env.stack },
        ext := w.ext }
    let pre := rfs_precall_flts env w 0 chain s
    let s := pre.2
    let s :=
      if !pre.1 then
        s.ret
          (match old_iop r (·.setattr) with
           | some fn =>
             env.call fn [s.args.args.dentry, s.args.args.iattr] s.ext
           | none => (0, s.ext))
      else s
    let s := rfs_postcall_flts env w 0 chain s
    let rv := s.args.retv
    let w := { w with ext := s.ext }
    let w := chain_put w chain
    let w ← rinode_put w (some rid)
    if s.cont.data_list ≠ [] then throw .BUG
    return (rv, w)

/-- The start index of a re-entrant call (lines 1052-1059 and 1126-1133):
`chain->c_flts_nr` dereferences the chain. -/
def idx_start_of {E : Type} (w : World E) (chain : Option Nat) (flt : Option Nat) :
    Except Fault Int :=
  match flt with
  | none => .ok 0
  | some f =>
    let idx_start := chain_find_flt w chain f
    if idx_start = -1 then
      match chain with
      | none => .error .null_deref
      | some c => .ok ((w.chain_flts c).length : Int)
    else .ok (idx_start + 1)

/-- Lines 1019-1080. -/
def rfs_readpage_call {E : Type} (env : Env E) (w : World E) (flt : Option Nat) (file : Int)
    (page : Nat) : Except Fault (Int × World E) := do
  let some i := w.page_host page | throw .null_deref
  let (rinode, w) ← rinode_find w i
  match rinode with
  | none =>
    match ← w.live_aop i with
    | some t =>
      match t.readpage with
      | some fn =>
        let r := env.call fn [file, page] w.ext
        return (r.1, { w with ext := r.2 })
      | none => return (-EINVAL, w)
    | none => return (-EINVAL, w)
  | some rid =>
    let some r := w.rinodes rid | throw .use_after_free
    let chain := r.ri_chain
    let w := chain_get w chain
    let a : rfs_op_args := { file := file, page := page }
    let cont : context := { data_list := [] }
    if !S_ISREG (w.inodes i).i_mode then throw .BUG
    let s : Call E :=
      { cont := cont, args := { id := .RFS_REG_AOP_READPAGE, args := a, retv := env.stack },
        ext := w.ext }
    let idx_start ← idx_start_of w chain flt
    let pre := rfs_precall_flts env w idx_start chain s
    let s := pre.2
    let s :=
      if !pre.1 then
        s.ret
          (match old_aop r (·.readpage) with
           | some fn =>
             env.call fn [s.args.args.file, s.args.args.page] s.ext
           | none => (-EINVAL, s.ext))
      else s
    let s := rfs_postcall_flts env w idx_start chain s
    let rv := s.args.retv
    let w := { w with ext := s.ext }
    let w := chain_put w chain
    let w ← rinode_put w (some rid)
    if s.cont.data_list ≠ [] then throw .BUG
    return (rv, w)

/-- Lines 1082-1085. -/
def rfs_readpage_subcall {E : Type} (env : Env E) (w : World E) (flt : Option Nat)
    (args : rfs_op_args) : Except Fault (Int × World E) :=
  rfs_readpage_call env w flt args.file args.page.toNat

/-- Lines 1087-1090. -/
def rfs_readpage {E : Type} (env : Env E) (w : World E) (file : Int) (page : Nat) :
    Except Fault (Int × World E) :=
  rfs_readpage_call env w none file page

/-- Lines 1093-1154. -/
def rfs_writepage_call {E : Type} (env : Env E) (w : World E) (flt : Option Nat) (page : Nat)
    (wbc : Int) : Except Fault (Int × World E) := do
  let some i := w.page_host page | throw .null_deref
  let (rinode, w) ← rinode_find w i
  match rinode with
  | none =>
    match ← w.live_aop i with
    | some t =>
      match t.writepage with
      | some fn =>
        let r := env.call fn [page, wbc] w.ext
        return (r.1, { w with ext := r.2 })
      | none => return (-EINVAL, w)
    | none => return (-EINVAL, w)
  | some rid =>
    let some r := w.rinodes rid | throw .use_after_free
    let chain := r.ri_chain
    let w := chain_get w chain
    let a : rfs_op_args := { page := page, wbc := wbc }
    let cont : context := { data_list := [] }
    if !S_ISREG (w.inodes i).i_mode then throw .BUG
    let s : Call E :=
      { cont := cont, args := { id := .RFS_REG_AOP_WRITEPAGE, args := a, retv := env.stack },
        ext := w.ext }
    let idx_start ← idx_start_of w chain flt
    let pre := rfs_precall_flts env w idx_start chain s
    let s := pre.2
    let s :=
      if !pre.1 then
        s.ret
          (match old_aop r (·.writepage) with
           | some fn =>
             env.call fn [s.args.args.page, s.args.args.wbc] s.ext
           | none => (-EINVAL, s.ext))
      else s
    let s := rfs_postcall_flts env w idx_start chain s
    let rv := s.args.retv
    let w := { w with ext := s.ext }
    let w := chain_put w chain
    let w ← rinode_put w (some rid)
    if s.cont.data_list ≠ [] then throw .BUG
    return (rv, w)

/-- Lines 1156-1159. -/
def rfs_writepage_subcall {E : Type} (env : Env E) (w : World E) (flt : Option Nat)
    (args : rfs_op_args) : Except Fault (Int × World E) :=
  rfs_writepage_call env w flt args.page.toNat args.wbc

/-- Lines 1161-1164. -/
def rfs_writepage {E : Type} (env : Env E) (w : World E) (page : Nat) (wbc : Int) :
    Except Fault (Int × World E) :=
  rfs_writepage_call env w none page wbc

/-! ## Private data (lines 1328-1436)

An output parameter is given as the content of the cell it points to (`none` for
a null pointer to the cell) and returned as the content after the call. -/

/-- The result of a private-data call: the status, the content of the output
cell and the state. -/
structure DataResult (E : Type) where
  rv : Int
  out : Option Nat
  w : World E

/-- Lines 1328-1368. `exist` is `some c` for a cell holding `c`. -/
def rfs_attach_data_inode {E : Type} (w : World E) (filter : Option Nat) (i : Option Nat)
    (data : Option Nat) (exist : Option (Option Nat)) : Except Fault (DataResult E) :=
  match filter, i, data, exist with
  | some flt, some i, some data, some cell =>
    match rinode_find w i with
    | .error f => .error f
    | .ok (none, w) => .ok { rv := -ENODATA, out := cell, w := w }
    | .ok (some rid, w) =>
      match w.rinodes rid with
      | none => .error .use_after_free
      | some r =>
        if chain_find_flt w r.ri_chain flt = -1 then
          match rinode_put w (some rid) with
          | .error f => .error f
          | .ok w => .ok { rv := -ENOENT, out := cell, w := w }
        else
          match rfs_find_data w r.ri_data flt with
          | some found =>
            let w := rfs_get_data w found
            match rinode_put w (some rid) with
            | .error f => .error f
            | .ok w => .ok { rv := -EEXIST, out := some found, w := w }
          | none =>
            let w := rfs_get_data w data
            let w := w.set_rinode rid (some { r with ri_data := r.ri_data ++ [data] })
            match rinode_put w (some rid) with
            | .error f => .error f
            | .ok w => .ok { rv := 0, out := none, w := w }
  | _, _, _, _ => .ok { rv := -EINVAL, out := exist.join, w := w }

/-- Lines 1370-1403. `data` is `some c` for a cell holding `c`. -/
def rfs_detach_data_inode {E : Type} (w : World E) (filter : Option Nat) (i : Option Nat)
    (data : Option (Option Nat)) : Except Fault (DataResult E) :=
  match filter, i, data with
  | some flt, some i, some cell =>
    match rinode_find w i with
    | .error f => .error f
    | .ok (none, w) => .ok { rv := -ENODATA, out := cell, w := w }
    | .ok (some rid, w) =>
      match w.rinodes rid with
      | none => .error .use_after_free
      | some r =>
        match rfs_find_data w r.ri_data flt with
        | none =>
          match rinode_put w (some rid) with
          | .error f => .error f
          | .ok w => .ok { rv := -ENODATA, out := cell, w := w }
        | some found =>
          let w := w.set_rinode rid (some { r with ri_data := r.ri_data.erase found })
          match rinode_put w (some rid) with
          | .error f => .error f
          | .ok w => .ok { rv := 0, out := some found, w := w }
  | _, _, _ => .ok { rv := -EINVAL, out := data.join, w := w }

/-- Lines 1405-1436. -/
def rfs_get_data_inode {E : Type} (w : World E) (filter : Option Nat) (i : Option Nat)
    (data : Option (Option Nat)) : Except Fault (DataResult E) :=
  match filter, i, data with
  | some flt, some i, some cell =>
    match rinode_find w i with
    | .error f => .error f
    | .ok (none, w) => .ok { rv := -ENODATA, out := cell, w := w }
    | .ok (some rid, w) =>
      match w.rinodes rid with
      | none => .error .use_after_free
      | some r =>
        match rfs_find_data w r.ri_data flt with
        | none =>
          match rinode_put w (some rid) with
          | .error f => .error f
          | .ok w => .ok { rv := -ENODATA, out := cell, w := w }
        | some found =>
          let w := rfs_get_data w found
          match rinode_put w (some rid) with
          | .error f => .error f
          | .ok w => .ok { rv := 0, out := some found, w := w }
  | _, _, _ => .ok { rv := -EINVAL, out := data.join, w := w }

/-! ## The protocol as the specification words it -/

/-- The filters of a chain handle; a null chain has none. -/
def chain_list {E : Type} (w : World E) (chain : Option Nat) : List Nat :=
  match chain with
  | none => []
  | some c => w.chain_flts c

/-- PRE over the filters `flts` in order, then the original step `orig` unless a
filter asked to skip it, its result stored in the return slot, then POST over the
same filters in order. -/
def run_protocol {E : Type} (env : Env E) (flts : List Nat) (orig : Call E → Int × E)
    (s : Call E) : Call E :=
  let pre := precall_list env flts s
  postcall_list env flts (if !pre.1 then pre.2.ret (orig pre.2) else pre.2)

/-- The original step of a wrapper: the saved implementation in `slot` called on
the arguments `argv` picks from the call, or the default `dflt` when the saved
table has no such implementation. -/
def orig_step {E : Type} (env : Env E) (slot : Option Fn) (argv : rfs_op_args → List Int)
    (dflt : Call E → Int × E) (s : Call E) : Int × E :=
  match slot with
  | some fn => env.call fn (argv s.args.args) s.ext
  | none => dflt s

/-- The call state a wrapper starts the protocol with. -/
def call_init {E : Type} (env : Env E) (w : World E) (id : rfs_op_id) (a : rfs_op_args) :
    Call E :=
  { cont := { data_list := [] }, args := { id := id, args := a, retv := env.stack },
    ext := w.ext }

/-- Discovery finds the shadow `rid` of the node `i`, and `r` is its content. -/
def wrapped {E : Type} (w : World E) (i rid : Nat) (r : rinode) : Prop :=
  (∃ w1, rinode_find w i = .ok (some rid, w1)) ∧ w.rinodes rid = some r

/-- The state in which a wrapper that propagates reaches line 318: the reference
on the parent taken by discovery, the five references of the snapshot, and the
state `e` that the filters and the original left outside the layer. -/
def propagate_start {E : Type} (w : World E) (pid : Nat) (p : rinode) (e : E) : World E :=
  { rfs_snapshot (w.set_rinode pid (some { p with ri_count := p.ri_count + 1 })) p with
    ext := e }

/-- The propagation followed by the releases at the label `exit`. -/
def rfs_tail {E : Type} (env : Env E) (w : World E) (dentry pid : Nat) (p : rinode) :
    Except Fault (World E) := do
  let (rdentry, w) ← rfs_propagate env w dentry p.ri_path_set p.ri_chain_set p.ri_ops_set
  rfs_release w rdentry pid p.ri_path_set p.ri_chain_set p.ri_ops_set p.ri_path p.ri_chain

/-- The result and the state outside the layer that a wrapper leaves, if it
returns. -/
def outcome {E : Type} (x : Except Fault (Int × World E)) : Option (Int × E) :=
  match x with
  | .ok (rv, w) => some (rv, w.ext)
  | .error _ => none

/-- A call of one of the six wrappers that propagate, with its arguments beyond
`dir` and `dentry`. -/
inductive prop_call where
  | mkdir (mode : Int)
  | create (mode nd : Int)
  | link (old_dentry : Int)
  | symlink (oldname : Int)
  | lookup (nd : Int)
  | mknod (mode rdev : Int)
  deriving DecidableEq, Repr

/-- The wrapper behind a `prop_call`. -/
def prop_call.run {E : Type} (env : Env E) (w : World E) (dir dentry : Nat) :
    prop_call → Except Fault (Int × World E)
  | .mkdir mode => rfs_mkdir env w dir dentry mode
  | .create mode nd => rfs_create env w dir dentry mode nd
  | .link old_dentry => rfs_link env w old_dentry dir dentry
  | .symlink oldname => rfs_symlink env w dir dentry oldname
  | .lookup nd => rfs_lookup env w dir dentry nd
  | .mknod mode rdev => rfs_mknod env w dir dentry mode rdev

/-- The protocol run of a `prop_call` on a parent with the shadow `p`: PRE over the
active chain, the original step, POST. The original step of symlink calls the
saved `symlink` when the saved table has a `link`. -/
def prop_call.fin {E : Type} (env : Env E) (w : World E) (p : rinode) (dir dentry : Nat) :
    prop_call → Call E
  | .mkdir mode =>
    run_protocol env (chain_list w p.ri_chain)
      (orig_step env (p.ri_op_old.bind (·.mkdir)) (fun a => [a.dir, a.dentry, a.mode])
        (fun s => (-EPERM, s.ext)))
      (call_init env w .RFS_DIR_IOP_MKDIR { dir := dir, dentry := dentry, mode := mode })
  | .create mode nd =>
    run_protocol env (chain_list w p.ri_chain)
      (orig_step env (p.ri_op_old.bind (·.create)) (fun a => [a.dir, a.dentry, a.mode, a.nd])
        (fun s => (-EACCES, s.ext)))
      (call_init env w .RFS_DIR_IOP_CREATE
        { dir := dir, dentry := dentry, mode := mode, nd := nd })
  | .link old_dentry =>
    run_protocol env (chain_list w p.ri_chain)
      (orig_step env (p.ri_op_old.bind (·.link)) (fun a => [a.old_dentry, a.dir, a.dentry])
        (fun s => (-EPERM, s.ext)))
      (call_init env w .RFS_DIR_IOP_LINK
        { old_dentry := old_dentry, dir := dir, dentry := dentry })
  | .symlink oldname =>
    run_protocol env (chain_list w p.ri_chain)
      (orig_step env ((p.ri_op_old.bind (·.link)).bind fun _ => p.ri_op_old.bind (·.symlink))
        (fun a => [a.dir, a.dentry, a.oldname]) (fun s => (-EPERM, s.ext)))
      (call_init env w .RFS_DIR_IOP_SYMLINK
        { dir := dir, dentry := dentry, oldname := oldname })
  | .lookup nd =>
    run_protocol env (chain_list w p.ri_chain)
      (orig_step env (p.ri_op_old.bind (·.lookup)) (fun a => [a.dir, a.dentry, a.nd])
        (fun s => (-ENOSYS, s.ext)))
      (call_init env w .RFS_DIR_IOP_LOOKUP { dir := dir, dentry := dentry, nd := nd })
  | .mknod mode rdev =>
    run_protocol env (chain_list w p.ri_chain)
      (orig_step env (p.ri_op_old.bind (·.mknod)) (fun a => [a.dir, a.dentry, a.mode, a.rdev])
        (fun s => (-EPERM, s.ext)))
      (call_init env w .RFS_DIR_IOP_MKNOD
        { dir := dir, dentry := dentry, mode := mode, rdev := rdev })

/-- The original step of the call does not call a null pointer: for symlink, a
saved table with a `link` has a `symlink`. -/
def prop_call.sound (p : rinode) : prop_call → Prop
  | .symlink _ =>
    (p.ri_op_old.bind (·.link)).isSome = true → (p.ri_op_old.bind (·.symlink)).isSome = true
  | _ => True

/-- A call of one of the six wrappers that do not propagate, with its arguments
beyond the inode. The paged ones are `rfs_readpage_call` and `rfs_writepage_call`,
which the entry points and the subcalls share. -/
inductive plain_call where
  | unlink (dentry : Nat)
  | rmdir (dentry : Nat)
  | permission (mask nd : Int)
  | setattr (dentry : Nat) (iattr : Int)
  | readpage (flt : Option Nat) (file : Int) (page : Nat)
  | writepage (flt : Option Nat) (page : Nat) (wbc : Int)
  deriving DecidableEq, Repr

/-- The wrapper behind a `plain_call` on the inode `i`. -/
def plain_call.run {E : Type} (env : Env E) (w : World E) (i : Nat) :
    plain_call → Except Fault (Int × World E)
  | .unlink dentry => rfs_unlink env w i dentry
  | .rmdir dentry => rfs_rmdir env w i dentry
  | .permission mask nd => rfs_permission env w i mask nd
  | .setattr dentry iattr => rfs_setattr env w dentry iattr
  | .readpage flt file page => rfs_readpage_call env w flt file page
  | .writepage flt page wbc => rfs_writepage_call env w flt page wbc

/-- What a `plain_call` on the inode `i` with the shadow `r` needs in order not to
stop at `BUG()` or at a null pointer: a directory for unlink and rmdir, a dentry
of the inode for setattr, and for the paged calls a page of the inode, a regular
file and a start index. -/
def plain_call.ready {E : Type} (w : World E) (i : Nat) (r : rinode) : plain_call → Prop
  | .unlink _ => S_ISDIR (w.inodes i).i_mode = true
  | .rmdir _ => S_ISDIR (w.inodes i).i_mode = true
  | .permission _ _ => True
  | .setattr dentry _ => w.d_inode dentry = some i
  | .readpage flt _ page =>
    w.page_host page = some i ∧ S_ISREG (w.inodes i).i_mode = true ∧
      ∃ idx, idx_start_of w r.ri_chain flt = .ok idx
  | .writepage flt page _ =>
    w.page_host page = some i ∧ S_ISREG (w.inodes i).i_mode = true ∧
      ∃ idx, idx_start_of w r.ri_chain flt = .ok idx

/-- The start index of a paged call as a position in the chain; 0 where
`idx_start_of` faults. -/
def idx_start_nat {E : Type} (w : World E) (chain flt : Option Nat) : Nat :=
  match idx_start_of w chain flt with
  | .ok idx => idx.toNat
  | .error _ => 0

/-- The protocol run of a `plain_call` on the inode `i` with the shadow `r`. -/
def plain_call.fin {E : Type} (env : Env E) (w : World E) (r : rinode) (i : Nat) :
    plain_call → Call E
  | .unlink dentry =>
    run_protocol env (chain_list w r.ri_chain)
      (orig_step env (r.ri_op_old.bind (·.unlink)) (fun a => [a.dir, a.dentry])
        (fun s => (-EPERM, s.ext)))
      (call_init env w .RFS_DIR_IOP_UNLINK { dir := i, dentry := dentry })
  | .rmdir dentry =>
    run_protocol env (chain_list w r.ri_chain)
      (orig_step env (r.ri_op_old.bind (·.rmdir)) (fun a => [a.dir, a.dentry])
        (fun s => (-EPERM, s.ext)))
      (call_init env w .RFS_DIR_IOP_RMDIR { dir := i, dentry := dentry })
  | .permission mask nd =>
    run_protocol env (chain_list w r.ri_chain)
      (orig_step env (r.ri_op_old.bind (·.permission)) (fun a => [a.ino, a.mask, a.nd])
        (fun s => env.generic_permission s.args.args.ino (submask s.args.args.mask) s.ext))
      (call_init env w (permission_id (w.inodes i).i_mode) { ino := i, mask := mask, nd := nd })
  | .setattr dentry iattr =>
    run_protocol env (chain_list w r.ri_chain)
      (orig_step env (r.ri_op_old.bind (·.setattr)) (fun a => [a.dentry, a.iattr])
        (fun s => (0, s.ext)))
      (call_init env w (setattr_id (w.inodes i).i_mode) { dentry := dentry, iattr := iattr })
  | .readpage flt file page =>
    run_protocol env ((chain_list w r.ri_chain).drop (idx_start_nat w r.ri_chain flt))
      (orig_step env (r.ri_aop_old.bind (·.readpage)) (fun a => [a.file, a.page])
        (fun s => (-EINVAL, s.ext)))
      (call_init env w .RFS_REG_AOP_READPAGE { file := file, page := page })
  | .writepage flt page wbc =>
    run_protocol env ((chain_list w r.ri_chain).drop (idx_start_nat w r.ri_chain flt))
      (orig_step env (r.ri_aop_old.bind (·.writepage)) (fun a => [a.page, a.wbc])
        (fun s => (-EINVAL, s.ext)))
      (call_init env w .RFS_REG_AOP_WRITEPAGE { page := page, wbc := wbc })

def demo_env : Env (List Nat) where
  f_pre f s := (f == 9, { s with ext := s.ext ++ [100 + f] })
  f_post f s := { s with ext := s.ext ++ [200 + f] }
  call fn _ ext :=
    match fn with
    | .native n => (n, ext ++ [300 + n])
    | _ => (0, ext ++ [300])
  generic_permission _ _ ext := (0, ext ++ [400])
  rdentry_add d w :=
    match w.rdentries d with
    | some e => (some d, w.set_rdentry d (some { e with rd_count := e.rd_count + 1 }))
    | none =>
      (some d, w.set_rdentry d (some
        { rd_path := none, rd_chain := none, rd_ops := none, rd_rinode := none,
          rd_count := 2, rd_op_new := none }))
  stack := 77

/-- A table of the underlying filesystem with `lookup`, `link`, `mkdir` and
`symlink` only. -/
def demo_iops : inode_operations :=
  { lookup := some (.native 5), link := some (.native 4), mkdir := some (.native 6),
    symlink := some (.native 7) }

/-- A table of the underlying filesystem with every operation. -/
def demo_full_iops : inode_operations :=
  { create := some (.native 1), lookup := some (.native 5), link := some (.native 4),
    unlink := some (.native 3), symlink := some (.native 7), mkdir := some (.native 6),
    rmdir := some (.native 2), mknod := some (.native 8), permission := some (.native 9),
    setattr := some (.native 10) }

/-- A page-cache table of the underlying filesystem with both operations. -/
def demo_full_aops : address_space_operations :=
  { readpage := some (.native 11), writepage := some (.native 12) }

/-- The shadow of inode 0, a directory: active chain 0, pending configuration
(path 1, chain 0, operation set 0). -/
def demo_rdir : rinode :=
  { ri_inode := 0
    ri_op_old := some demo_iops
    ri_fop_old := none
    ri_aop_old := none
    ri_op_new := { demo_iops with lookup := some .rfs_lookup }
    ri_aop_new := {}
    ri_path := some 0
    ri_chain := some 0
    ri_path_set := some 1
    ri_chain_set := some 0
    ri_ops_set := some 0
    ri_count := 1
    ri_nlink := 1
    ri_data := [4]
    ri_rdentries := [] }

/-- The shadow of inode 1, a regular file without original tables. -/
def demo_rreg : rinode :=
  { ri_inode := 1
    ri_op_old := none
    ri_fop_old := none
    ri_aop_old := none
    ri_op_new := { lookup := some .rfs_lookup }
    ri_aop_new := {}
    ri_path := none
    ri_chain := some 0
    ri_path_set := none
    ri_chain_set := none
    ri_ops_set := none
    ri_count := 1
    ri_nlink := 1
    ri_data := []
    ri_rdentries := [] }

/-- The operation set that holds create and lookup only. -/
def demo_ops : rfs_op_id → Bool
  | .RFS_DIR_IOP_CREATE => true
  | .RFS_DIR_IOP_LOOKUP => true
  | _ => false

/-- Inode 0 is a wrapped directory and inode 1 a wrapped regular file; inode 2 is
an unwrapped directory without any operation, inode 4 an unwrapped directory and
inode 5 an unwrapped regular file with every operation, and every other inode an
unwrapped regular file without any operation. Chain 0 is [1, 2, 3]. Dentry 8
resolves to inode 1 and has a shadow bound to the shadow of inode 1, dentry 9
resolves to inode 4; page 0 belongs to inode 1, page 2 to inode 5 and every other
page to inode 3. -/
def demo_world : World (List Nat) where
  ext := []
  inodes i :=
    match i with
    | 0 => { i_mode := S_IFDIR, i_op := .ri_op_new 0, i_fop := none,
             i_mapping := some { a_ops := .null } }
    | 1 => { i_mode := S_IFREG, i_op := .ri_op_new 1, i_fop := none,
             i_mapping := some { a_ops := .ri_aop_new 1 } }
    | 2 => { i_mode := S_IFDIR, i_op := .table {}, i_fop := none,
             i_mapping := some { a_ops := .null } }
    | 4 => { i_mode := S_IFDIR, i_op := .table demo_full_iops, i_fop := none,
             i_mapping := some { a_ops := .null } }
    | 5 => { i_mode := S_IFREG, i_op := .table demo_full_iops, i_fop := none,
             i_mapping := some { a_ops := .table demo_full_aops } }
    | _ => { i_mode := S_IFREG, i_op := .null, i_fop := none,
             i_mapping := some { a_ops := .table {} } }
  d_inode d := if d = 8 then some 1 else if d = 9 then some 4 else none
  page_host pg := if pg = 0 then some 1 else if pg = 2 then some 5 else some 3
  rinodes r :=
    match r with
    | 0 => some demo_rdir
    | 1 => some demo_rreg
    | _ => none
  rdentries d :=
    if d = 8 then
      some { rd_path := none, rd_chain := none, rd_ops := none, rd_rinode := some 1,
             rd_count := 1, rd_op_new := none }
    else none
  chain_flts c := if c = 0 then [1, 2, 3] else []
  chain_cnt _ := 1
  path_cnt _ := 1
  ops_bits _ := demo_ops
  ops_cnt _ := 1
  data_flt d := d - 3
  data_cnt _ := 1
  rinode_cnt := 2
  rinodes_freed := false
  rcu_pending := []

/-- The state `demo_world` with no pending configuration on the shadow of the
directory 0. -/
def demo_idle_world : World (List Nat) :=
  { demo_world with
    rinodes := fun r =>
      match r with
      | 0 => some { demo_rdir with ri_path_set := none, ri_chain_set := none, ri_ops_set := none }
      | 1 => some demo_rreg
      | _ => none }

/-- The state `demo_world` with a saved original table of the directory 0 that has
a `symlink` and no `link`. -/
def demo_nolink_world : World (List Nat) :=
  { demo_world with
    rinodes := fun r =>
      match r with
      | 0 => some { demo_rdir with ri_op_old := some { symlink := some (.native 7) } }
      | 1 => some demo_rreg
      | _ => none }

/-- The state `demo_world` in which the shadow of the directory 0 also holds the
data 12 of filter 9, a filter that is not in the chain [1, 2, 3]. -/
def demo_stale_world : World (List Nat) :=
  demo_world.set_rinode 0 (some { demo_rdir with ri_data := [4, 12] })

/-- The state `demo_world` with a saved original table of the directory 0 that has
a `link` and no `symlink`. -/
def demo_nosymlink_world : World (List Nat) :=
  demo_world.set_rinode 0 (some { demo_rdir with ri_op_old := some { link := some (.native 4) } })

/-- The state `demo_world` in which the shadow of the regular file 1 has a saved
page-cache table with both operations. -/
def demo_paged_world : World (List Nat) :=
  demo_world.set_rinode 1 (some { demo_rreg with ri_aop_old := some demo_full_aops })

/-- The state `demo_world` in which the shadow of the regular file 1 has a null
active chain, as `rinode_alloc` leaves it. -/
def demo_nochain_world : World (List Nat) :=
  demo_world.set_rinode 1 (some { demo_rreg with ri_chain := none })

/-- A shadow with the external-link count 1 and one reference, whose saved
primary and page-cache tables have every operation and whose saved file table
is 3. -/
def demo_del_shadow (i : Nat) : rinode :=
  { ri_inode := i
    ri_op_old := some demo_full_iops
    ri_fop_old := some 3
    ri_aop_old := some demo_full_aops
    ri_op_new := { demo_full_iops with lookup := some .rfs_lookup }
    ri_aop_new := demo_full_aops
    ri_path := none
    ri_chain := none
    ri_path_set := none
    ri_chain_set := none
    ri_ops_set := none
    ri_count := 1
    ri_nlink := 1
    ri_data := []
    ri_rdentries := [] }

/-- The state `demo_world` with two more wrapped nodes: the socket 6 with the
shadow 2 and the regular file 7 with the shadow 3. The live file table of both is
9, and their live page-cache pointers point into their shadows. -/
def demo_del_world : World (List Nat) :=
  { demo_world with
    inodes := fun i =>
      if i = 6 then
        { i_mode := S_IFSOCK, i_op := .ri_op_new 2, i_fop := some 9,
          i_mapping := some { a_ops := .ri_aop_new 2 } }
      else if i = 7 then
        { i_mode := S_IFREG, i_op := .ri_op_new 3, i_fop := some 9,
          i_mapping := some { a_ops := .ri_aop_new 3 } }
      else demo_world.inodes i
    rinodes := fun r =>
      if r = 2 then some (demo_del_shadow 6)
      else if r = 3 then some (demo_del_shadow 7)
      else demo_world.rinodes r }

/-! ## Lemmas -/

/-- Two states with the same components are equal. -/
theorem World.eq_of_fields {E : Type} (a b : World E)
    (h0 : a.ext = b.ext)
    (h1 : a.inodes = b.inodes)
    (h2 : a.d_inode = b.d_inode)
    (h3 : a.page_host = b.page_host)
    (h4 : a.rinodes = b.rinodes)
    (h5 : a.rdentries = b.rdentries)
    (h6 : a.chain_flts = b.chain_flts)
    (h7 : a.chain_cnt = b.chain_cnt)
    (h8 : a.path_cnt = b.path_cnt)
    (h9 : a.ops_bits = b.ops_bits)
    (h10 : a.ops_cnt = b.ops_cnt)
    (h11 : a.data_flt = b.data_flt)
    (h12 : a.data_cnt = b.data_cnt)
    (h13 : a.rinode_cnt = b.rinode_cnt)
    (h14 : a.rinodes_freed = b.rinodes_freed)
    (h15 : a.rcu_pending = b.rcu_pending) : a = b := by
  cases a; cases b; simp_all

/-! ### Projections of the state transformers -/

@[simp] theorem cnt_inc_none (f : Nat → Int) : cnt_inc f none = f := rfl

@[simp] theorem cnt_dec_none (f : Nat → Int) : cnt_dec f none = f := rfl

theorem cnt_dec_inc (f : Nat → Int) (a : Option Nat) : cnt_dec (cnt_inc f a) a = f := by
  cases a with
  | none => rfl
  | some a =>
    funext x
    by_cases hxa : x = a
    · subst hxa; simp [cnt_inc, cnt_dec]
    · simp [cnt_inc, cnt_dec, Function.update_apply, hxa]

theorem cnt_dec_comm (f : Nat → Int) (a b : Option Nat) :
    cnt_dec (cnt_dec f a) b = cnt_dec (cnt_dec f b) a := by
  cases a with
  | none => rfl
  | some a =>
    cases b with
    | none => rfl
    | some b =>
      funext x
      by_cases hab : a = b
      · subst hab; rfl
      · have hba : ¬ b = a := fun h => hab h.symm
        by_cases hxa : x = a
        · subst hxa; simp [cnt_dec, Function.update_apply, hab, hba]
        · by_cases hxb : x = b
          · subst hxb; simp [cnt_dec, Function.update_apply, hab, hba]
          · simp [cnt_dec, Function.update_apply, hxa, hxb]

theorem cnt_dec_inc_comm (f : Nat → Int) (a b : Option Nat) :
    cnt_dec (cnt_inc f a) b = cnt_inc (cnt_dec f b) a := by
  cases a with
  | none => rfl
  | some a =>
    cases b with
    | none => rfl
    | some b =>
      funext x
      by_cases hab : a = b
      · subst hab
        by_cases hxa : x = a
        · subst hxa; simp [cnt_dec, cnt_inc]
        · simp [cnt_dec, cnt_inc, Function.update_apply, hxa]
      · have hba : ¬ b = a := fun h => hab h.symm
        by_cases hxa : x = a
        · subst hxa; simp [cnt_dec, cnt_inc, Function.update_apply, hab, hba]
        · by_cases hxb : x = b
          · subst hxb; simp [cnt_dec, cnt_inc, Function.update_apply, hab, hba]
          · simp [cnt_dec, cnt_inc, Function.update_apply, hxa, hxb]

theorem cnt_cancel2 (f : Nat → Int) (a b : Option Nat) :
    cnt_dec (cnt_dec (cnt_inc (cnt_inc f a) b) a) b = f := by
  rw [cnt_dec_comm, cnt_dec_inc, cnt_dec_inc]

@[simp] theorem chain_get_chain_cnt {E : Type} (w : World E) (c : Option Nat) :
    (chain_get w c).chain_cnt = cnt_inc w.chain_cnt c := rfl

@[simp] theorem chain_get_ext {E : Type} (w : World E) (c : Option Nat) :
    (chain_get w c).ext = w.ext := rfl

@[simp] theorem chain_get_inodes {E : Type} (w : World E) (c : Option Nat) :
    (chain_get w c).inodes = w.inodes := rfl

@[simp] theorem chain_get_d_inode {E : Type} (w : World E) (c : Option Nat) :
    (chain_get w c).d_inode = w.d_inode := rfl

@[simp] theorem chain_get_page_host {E : Type} (w : World E) (c : Option Nat) :
    (chain_get w c).page_host = w.page_host := rfl

@[simp] theorem chain_get_rinodes {E : Type} (w : World E) (c : Option Nat) :
    (chain_get w c).rinodes = w.rinodes := rfl

@[simp] theorem chain_get_rdentries {E : Type} (w : World E) (c : Option Nat) :
    (chain_get w c).rdentries = w.rdentries := rfl

@[simp] theorem chain_get_chain_flts {E : Type} (w : World E) (c : Option Nat) :
    (chain_get w c).chain_flts = w.chain_flts := rfl

@[simp] theorem chain_get_path_cnt {E : Type} (w : World E) (c : Option Nat) :
    (chain_get w c).path_cnt = w.path_cnt := rfl

@[simp] theorem chain_get_ops_bits {E : Type} (w : World E) (c : Option Nat) :
    (chain_get w c).ops_bits = w.ops_bits := rfl

@[simp] theorem chain_get_ops_cnt {E : Type} (w : World E) (c : Option Nat) :
    (chain_get w c).ops_cnt = w.ops_cnt := rfl

@[simp] theorem chain_get_data_flt {E : Type} (w : World E) (c : Option Nat) :
    (chain_get w c).data_flt = w.data_flt := rfl

@[simp] theorem chain_get_data_cnt {E : Type} (w : World E) (c : Option Nat) :
    (chain_get w c).data_cnt = w.data_cnt := rfl

@[simp] theorem chain_get_rinode_cnt {E : Type} (w : World E) (c : Option Nat) :
    (chain_get w c).rinode_cnt = w.rinode_cnt := rfl

@[simp] theorem chain_get_rinodes_freed {E : Type} (w : World E) (c : Option Nat) :
    (chain_get w c).rinodes_freed = w.rinodes_freed := rfl

@[simp] theorem chain_get_rcu_pending {E : Type} (w : World E) (c : Option Nat) :
    (chain_get w c).rcu_pending = w.rcu_pending := rfl

@[simp] theorem chain_put_chain_cnt {E : Type} (w : World E) (c : Option Nat) :
    (chain_put w c).chain_cnt = cnt_dec w.chain_cnt c := rfl

@[simp] theorem chain_put_ext {E : Type} (w : World E) (c : Option Nat) :
    (chain_put w c).ext = w.ext := rfl

@[simp] theorem chain_put_inodes {E : Type} (w : World E) (c : Option Nat) :
    (chain_put w c).inodes = w.inodes := rfl

@[simp] theorem chain_put_d_inode {E : Type} (w : World E) (c : Option Nat) :
    (chain_put w c).d_inode = w.d_inode := rfl

@[simp] theorem chain_put_page_host {E : Type} (w : World E) (c : Option Nat) :
    (chain_put w c).page_host = w.page_host := rfl

@[simp] theorem chain_put_rinodes {E : Type} (w : World E) (c : Option Nat) :
    (chain_put w c).rinodes = w.rinodes := rfl

@[simp] theorem chain_put_rdentries {E : Type} (w : World E) (c : Option Nat) :
    (chain_put w c).rdentries = w.rdentries := rfl

@[simp] theorem chain_put_chain_flts {E : Type} (w : World E) (c : Option Nat) :
    (chain_put w c).chain_flts = w.chain_flts := rfl

@[simp] theorem chain_put_path_cnt {E : Type} (w : World E) (c : Option Nat) :
    (chain_put w c).path_cnt = w.path_cnt := rfl

@[simp] theorem chain_put_ops_bits {E : Type} (w : World E) (c : Option Nat) :
    (chain_put w c).ops_bits = w.ops_bits := rfl

@[simp] theorem chain_put_ops_cnt {E : Type} (w : World E) (c : Option Nat) :
    (chain_put w c).ops_cnt = w.ops_cnt := rfl

@[simp] theorem chain_put_data_flt {E : Type} (w : World E) (c : Option Nat) :
    (chain_put w c).data_flt = w.data_flt := rfl

@[simp] theorem chain_put_data_cnt {E : Type} (w : World E) (c : Option Nat) :
    (chain_put w c).data_cnt = w.data_cnt := rfl

@[simp] theorem chain_put_rinode_cnt {E : Type} (w : World E) (c : Option Nat) :
    (chain_put w c).rinode_cnt = w.rinode_cnt := rfl

@[simp] theorem chain_put_rinodes_freed {E : Type} (w : World E) (c : Option Nat) :
    (chain_put w c).rinodes_freed = w.rinodes_freed := rfl

@[simp] theorem chain_put_rcu_pending {E : Type} (w : World E) (c : Option Nat) :
    (chain_put w c).rcu_pending = w.rcu_pending := rfl

@[simp] theorem path_get_path_cnt {E : Type} (w : World E) (c : Option Nat) :
    (path_get w c).path_cnt = cnt_inc w.path_cnt c := rfl

@[simp] theorem path_get_ext {E : Type} (w : World E) (c : Option Nat) :
    (path_get w c).ext = w.ext := rfl

@[simp] theorem path_get_inodes {E : Type} (w : World E) (c : Option Nat) :
    (path_get w c).inodes = w.inodes := rfl

@[simp] theorem path_get_d_inode {E : Type} (w : World E) (c : Option Nat) :
    (path_get w c).d_inode = w.d_inode := rfl

@[simp] theorem path_get_page_host {E : Type} (w : World E) (c : Option Nat) :
    (path_get w c).page_host = w.page_host := rfl

@[simp] theorem path_get_rinodes {E : Type} (w : World E) (c : Option Nat) :
    (path_get w c).rinodes = w.rinodes := rfl

@[simp] theorem path_get_rdentries {E : Type} (w : World E) (c : Option Nat) :
    (path_get w c).rdentries = w.rdentries := rfl

@[simp] theorem path_get_chain_flts {E : Type} (w : World E) (c : Option Nat) :
    (path_get w c).chain_flts = w.chain_flts := rfl

@[simp] theorem path_get_chain_cnt {E : Type} (w : World E) (c : Option Nat) :
    (path_get w c).chain_cnt = w.chain_cnt := rfl

@[simp] theorem path_get_ops_bits {E : Type} (w : World E) (c : Option Nat) :
    (path_get w c).ops_bits = w.ops_bits := rfl

@[simp] theorem path_get_ops_cnt {E : Type} (w : World E) (c : Option Nat) :
    (path_get w c).ops_cnt = w.ops_cnt := rfl

@[simp] theorem path_get_data_flt {E : Type} (w : World E) (c : Option Nat) :
    (path_get w c).data_flt = w.data_flt := rfl

@[simp] theorem path_get_data_cnt {E : Type} (w : World E) (c : Option Nat) :
    (path_get w c).data_cnt = w.data_cnt := rfl

@[simp] theorem path_get_rinode_cnt {E : Type} (w : World E) (c : Option Nat) :
    (path_get w c).rinode_cnt = w.rinode_cnt := rfl

@[simp] theorem path_get_rinodes_freed {E : Type} (w : World E) (c : Option Nat) :
    (path_get w c).rinodes_freed = w.rinodes_freed := rfl

@[simp] theorem path_get_rcu_pending {E : Type} (w : World E) (c : Option Nat) :
    (path_get w c).rcu_pending = w.rcu_pending := rfl

@[simp] theorem path_put_path_cnt {E : Type} (w : World E) (c : Option Nat) :
    (path_put w c).path_cnt = cnt_dec w.path_cnt c := rfl

@[simp] theorem path_put_ext {E : Type} (w : World E) (c : Option Nat) :
    (path_put w c).ext = w.ext := rfl

@[simp] theorem path_put_inodes {E : Type} (w : World E) (c : Option Nat) :
    (path_put w c).inodes = w.inodes := rfl

@[simp] theorem path_put_d_inode {E : Type} (w : World E) (c : Option Nat) :
    (path_put w c).d_inode = w.d_inode := rfl

@[simp] theorem path_put_page_host {E : Type} (w : World E) (c : Option Nat) :
    (path_put w c).page_host = w.page_host := rfl

@[simp] theorem path_put_rinodes {E : Type} (w : World E) (c : Option Nat) :
    (path_put w c).rinodes = w.rinodes := rfl

@[simp] theorem path_put_rdentries {E : Type} (w : World E) (c : Option Nat) :
    (path_put w c).rdentries = w.rdentries := rfl

@[simp] theorem path_put_chain_flts {E : Type} (w : World E) (c : Option Nat) :
    (path_put w c).chain_flts = w.chain_flts := rfl

@[simp] theorem path_put_chain_cnt {E : Type} (w : World E) (c : Option Nat) :
    (path_put w c).chain_cnt = w.chain_cnt := rfl

@[simp] theorem path_put_ops_bits {E : Type} (w : World E) (c : Option Nat) :
    (path_put w c).ops_bits = w.ops_bits := rfl

@[simp] theorem path_put_ops_cnt {E : Type} (w : World E) (c : Option Nat) :
    (path_put w c).ops_cnt = w.ops_cnt := rfl

@[simp] theorem path_put_data_flt {E : Type} (w : World E) (c : Option Nat) :
    (path_put w c).data_flt = w.data_flt := rfl

@[simp] theorem path_put_data_cnt {E : Type} (w : World E) (c : Option Nat) :
    (path_put w c).data_cnt = w.data_cnt := rfl

@[simp] theorem path_put_rinode_cnt {E : Type} (w : World E) (c : Option Nat) :
    (path_put w c).rinode_cnt = w.rinode_cnt := rfl

@[simp] theorem path_put_rinodes_freed {E : Type} (w : World E) (c : Option Nat) :
    (path_put w c).rinodes_freed = w.rinodes_freed := rfl

@[simp] theorem path_put_rcu_pending {E : Type} (w : World E) (c : Option Nat) :
    (path_put w c).rcu_pending = w.rcu_pending := rfl

@[simp] theorem ops_get_ops_cnt {E : Type} (w : World E) (c : Option Nat) :
    (ops_get w c).ops_cnt = cnt_inc w.ops_cnt c := rfl

@[simp] theorem ops_get_ext {E : Type} (w : World E) (c : Option Nat) :
    (ops_get w c).ext = w.ext := rfl

@[simp] theorem ops_get_inodes {E : Type} (w : World E) (c : Option Nat) :
    (ops_get w c).inodes = w.inodes := rfl

@[simp] theorem ops_get_d_inode {E : Type} (w : World E) (c : Option Nat) :
    (ops_get w c).d_inode = w.d_inode := rfl

@[simp] theorem ops_get_page_host {E : Type} (w : World E) (c : Option Nat) :
    (ops_get w c).page_host = w.page_host := rfl

@[simp] theorem ops_get_rinodes {E : Type} (w : World E) (c : Option Nat) :
    (ops_get w c).rinodes = w.rinodes := rfl

@[simp] theorem ops_get_rdentries {E : Type} (w : World E) (c : Option Nat) :
    (ops_get w c).rdentries = w.rdentries := rfl

@[simp] theorem ops_get_chain_flts {E : Type} (w : World E) (c : Option Nat) :
    (ops_get w c).chain_flts = w.chain_flts := rfl

@[simp] theorem ops_get_chain_cnt {E : Type} (w : World E) (c : Option Nat) :
    (ops_get w c).chain_cnt = w.chain_cnt := rfl

@[simp] theorem ops_get_path_cnt {E : Type} (w : World E) (c : Option Nat) :
    (ops_get w c).path_cnt = w.path_cnt := rfl

@[simp] theorem ops_get_ops_bits {E : Type} (w : World E) (c : Option Nat) :
    (ops_get w c).ops_bits = w.ops_bits := rfl

@[simp] theorem ops_get_data_flt {E : Type} (w : World E) (c : Option Nat) :
    (ops_get w c).data_flt = w.data_flt := rfl

@[simp] theorem ops_get_data_cnt {E : Type} (w : World E) (c : Option Nat) :
    (ops_get w c).data_cnt = w.data_cnt := rfl

@[simp] theorem ops_get_rinode_cnt {E : Type} (w : World E) (c : Option Nat) :
    (ops_get w c).rinode_cnt = w.rinode_cnt := rfl

@[simp] theorem ops_get_rinodes_freed {E : Type} (w : World E) (c : Option Nat) :
    (ops_get w c).rinodes_freed = w.rinodes_freed := rfl

@[simp] theorem ops_get_rcu_pending {E : Type} (w : World E) (c : Option Nat) :
    (ops_get w c).rcu_pending = w.rcu_pending := rfl

@[simp] theorem ops_put_ops_cnt {E : Type} (w : World E) (c : Option Nat) :
    (ops_put w c).ops_cnt = cnt_dec w.ops_cnt c := rfl

@[simp] theorem ops_put_ext {E : Type} (w : World E) (c : Option Nat) :
    (ops_put w c).ext = w.ext := rfl

@[simp] theorem ops_put_inodes {E : Type} (w : World E) (c : Option Nat) :
    (ops_put w c).inodes = w.inodes := rfl

@[simp] theorem ops_put_d_inode {E : Type} (w : World E) (c : Option Nat) :
    (ops_put w c).d_inode = w.d_inode := rfl

@[simp] theorem ops_put_page_host {E : Type} (w : World E) (c : Option Nat) :
    (ops_put w c).page_host = w.page_host := rfl

@[simp] theorem ops_put_rinodes {E : Type} (w : World E) (c : Option Nat) :
    (ops_put w c).rinodes = w.rinodes := rfl

@[simp] theorem ops_put_rdentries {E : Type} (w : World E) (c : Option Nat) :
    (ops_put w c).rdentries = w.rdentries := rfl

@[simp] theorem ops_put_chain_flts {E : Type} (w : World E) (c : Option Nat) :
    (ops_put w c).chain_flts = w.chain_flts := rfl

@[simp] theorem ops_put_chain_cnt {E : Type} (w : World E) (c : Option Nat) :
    (ops_put w c).chain_cnt = w.chain_cnt := rfl

@[simp] theorem ops_put_path_cnt {E : Type} (w : World E) (c : Option Nat) :
    (ops_put w c).path_cnt = w.path_cnt := rfl

@[simp] theorem ops_put_ops_bits {E : Type} (w : World E) (c : Option Nat) :
    (ops_put w c).ops_bits = w.ops_bits := rfl

@[simp] theorem ops_put_data_flt {E : Type} (w : World E) (c : Option Nat) :
    (ops_put w c).data_flt = w.data_flt := rfl

@[simp] theorem ops_put_data_cnt {E : Type} (w : World E) (c : Option Nat) :
    (ops_put w c).data_cnt = w.data_cnt := rfl

@[simp] theorem ops_put_rinode_cnt {E : Type} (w : World E) (c : Option Nat) :
    (ops_put w c).rinode_cnt = w.rinode_cnt := rfl

@[simp] theorem ops_put_rinodes_freed {E : Type} (w : World E) (c : Option Nat) :
    (ops_put w c).rinodes_freed = w.rinodes_freed := rfl

@[simp] theorem ops_put_rcu_pending {E : Type} (w : World E) (c : Option Nat) :
    (ops_put w c).rcu_pending = w.rcu_pending := rfl

@[simp] theorem rfs_get_data_data_cnt {E : Type} (w : World E) (d : Nat) :
    (rfs_get_data w d).data_cnt = Function.update w.data_cnt d (w.data_cnt d + 1) := rfl

@[simp] theorem rfs_get_data_ext {E : Type} (w : World E) (d : Nat) :
    (rfs_get_data w d).ext = w.ext := rfl

@[simp] theorem rfs_get_data_inodes {E : Type} (w : World E) (d : Nat) :
    (rfs_get_data w d).inodes = w.inodes := rfl

@[simp] theorem rfs_get_data_d_inode {E : Type} (w : World E) (d : Nat) :
    (rfs_get_data w d).d_inode = w.d_inode := rfl

@[simp] theorem rfs_get_data_page_host {E : Type} (w : World E) (d : Nat) :
    (rfs_get_data w d).page_host = w.page_host := rfl

@[simp] theorem rfs_get_data_rinodes {E : Type} (w : World E) (d : Nat) :
    (rfs_get_data w d).rinodes = w.rinodes := rfl

@[simp] theorem rfs_get_data_rdentries {E : Type} (w : World E) (d : Nat) :
    (rfs_get_data w d).rdentries = w.rdentries := rfl

@[simp] theorem rfs_get_data_chain_flts {E : Type} (w : World E) (d : Nat) :
    (rfs_get_data w d).chain_flts = w.chain_flts := rfl

@[simp] theorem rfs_get_data_chain_cnt {E : Type} (w : World E) (d : Nat) :
    (rfs_get_data w d).chain_cnt = w.chain_cnt := rfl

@[simp] theorem rfs_get_data_path_cnt {E : Type} (w : World E) (d : Nat) :
    (rfs_get_data w d).path_cnt = w.path_cnt := rfl

@[simp] theorem rfs_get_data_ops_bits {E : Type} (w : World E) (d : Nat) :
    (rfs_get_data w d).ops_bits = w.ops_bits := rfl

@[simp] theorem rfs_get_data_ops_cnt {E : Type} (w : World E) (d : Nat) :
    (rfs_get_data w d).ops_cnt = w.ops_cnt := rfl

@[simp] theorem rfs_get_data_data_flt {E : Type} (w : World E) (d : Nat) :
    (rfs_get_data w d).data_flt = w.data_flt := rfl

@[simp] theorem rfs_get_data_rinode_cnt {E : Type} (w : World E) (d : Nat) :
    (rfs_get_data w d).rinode_cnt = w.rinode_cnt := rfl

@[simp] theorem rfs_get_data_rinodes_freed {E : Type} (w : World E) (d : Nat) :
    (rfs_get_data w d).rinodes_freed = w.rinodes_freed := rfl

@[simp] theorem rfs_get_data_rcu_pending {E : Type} (w : World E) (d : Nat) :
    (rfs_get_data w d).rcu_pending = w.rcu_pending := rfl

@[simp] theorem rfs_put_data_data_cnt {E : Type} (w : World E) (d : Nat) :
    (rfs_put_data w d).data_cnt = Function.update w.data_cnt d (w.data_cnt d - 1) := rfl

@[simp] theorem rfs_put_data_ext {E : Type} (w : World E) (d : Nat) :
    (rfs_put_data w d).ext = w.ext := rfl

@[simp] theorem rfs_put_data_inodes {E : Type} (w : World E) (d : Nat) :
    (rfs_put_data w d).inodes = w.inodes := rfl

@[simp] theorem rfs_put_data_d_inode {E : Type} (w : World E) (d : Nat) :
    (rfs_put_data w d).d_inode = w.d_inode := rfl

@[simp] theorem rfs_put_data_page_host {E : Type} (w : World E) (d : Nat) :
    (rfs_put_data w d).page_host = w.page_host := rfl

@[simp] theorem rfs_put_data_rinodes {E : Type} (w : World E) (d : Nat) :
    (rfs_put_data w d).rinodes = w.rinodes := rfl

@[simp] theorem rfs_put_data_rdentries {E : Type} (w : World E) (d : Nat) :
    (rfs_put_data w d).rdentries = w.rdentries := rfl

@[simp] theorem rfs_put_data_chain_flts {E : Type} (w : World E) (d : Nat) :
    (rfs_put_data w d).chain_flts = w.chain_flts := rfl

@[simp] theorem rfs_put_data_chain_cnt {E : Type} (w : World E) (d : Nat) :
    (rfs_put_data w d).chain_cnt = w.chain_cnt := rfl

@[simp] theorem rfs_put_data_path_cnt {E : Type} (w : World E) (d : Nat) :
    (rfs_put_data w d).path_cnt = w.path_cnt := rfl

@[simp] theorem rfs_put_data_ops_bits {E : Type} (w : World E) (d : Nat) :
    (rfs_put_data w d).ops_bits = w.ops_bits := rfl

@[simp] theorem rfs_put_data_ops_cnt {E : Type} (w : World E) (d : Nat) :
    (rfs_put_data w d).ops_cnt = w.ops_cnt := rfl

@[simp] theorem rfs_put_data_data_flt {E : Type} (w : World E) (d : Nat) :
    (rfs_put_data w d).data_flt = w.data_flt := rfl

@[simp] theorem rfs_put_data_rinode_cnt {E : Type} (w : World E) (d : Nat) :
    (rfs_put_data w d).rinode_cnt = w.rinode_cnt := rfl

@[simp] theorem rfs_put_data_rinodes_freed {E : Type} (w : World E) (d : Nat) :
    (rfs_put_data w d).rinodes_freed = w.rinodes_freed := rfl

@[simp] theorem rfs_put_data_rcu_pending {E : Type} (w : World E) (d : Nat) :
    (rfs_put_data w d).rcu_pending = w.rcu_pending := rfl

@[simp] theorem set_rinode_rinodes {E : Type} (w : World E) (k : Nat) (v : Option rinode) :
    (w.set_rinode k v).rinodes = Function.update w.rinodes k v := rfl

@[simp] theorem set_rinode_ext {E : Type} (w : World E) (k : Nat) (v : Option rinode) :
    (w.set_rinode k v).ext = w.ext := rfl

@[simp] theorem set_rinode_inodes {E : Type} (w : World E) (k : Nat) (v : Option rinode) :
    (w.set_rinode k v).inodes = w.inodes := rfl

@[simp] theorem set_rinode_d_inode {E : Type} (w : World E) (k : Nat) (v : Option rinode) :
    (w.set_rinode k v).d_inode = w.d_inode := rfl

@[simp] theorem set_rinode_page_host {E : Type} (w : World E) (k : Nat) (v : Option rinode) :
    (w.set_rinode k v).page_host = w.page_host := rfl

@[simp] theorem set_rinode_rdentries {E : Type} (w : World E) (k : Nat) (v : Option rinode) :
    (w.set_rinode k v).rdentries = w.rdentries := rfl

@[simp] theorem set_rinode_chain_flts {E : Type} (w : World E) (k : Nat) (v : Option rinode) :
    (w.set_rinode k v).chain_flts = w.chain_flts := rfl

@[simp] theorem set_rinode_chain_cnt {E : Type} (w : World E) (k : Nat) (v : Option rinode) :
    (w.set_rinode k v).chain_cnt = w.chain_cnt := rfl

@[simp] theorem set_rinode_path_cnt {E : Type} (w : World E) (k : Nat) (v : Option rinode) :
    (w.set_rinode k v).path_cnt = w.path_cnt := rfl

@[simp] theorem set_rinode_ops_bits {E : Type} (w : World E) (k : Nat) (v : Option rinode) :
    (w.set_rinode k v).ops_bits = w.ops_bits := rfl

@[simp] theorem set_rinode_ops_cnt {E : Type} (w : World E) (k : Nat) (v : Option rinode) :
    (w.set_rinode k v).ops_cnt = w.ops_cnt := rfl

@[simp] theorem set_rinode_data_flt {E : Type} (w : World E) (k : Nat) (v : Option rinode) :
    (w.set_rinode k v).data_flt = w.data_flt := rfl

@[simp] theorem set_rinode_data_cnt {E : Type} (w : World E) (k : Nat) (v : Option rinode) :
    (w.set_rinode k v).data_cnt = w.data_cnt := rfl

@[simp] theorem set_rinode_rinode_cnt {E : Type} (w : World E) (k : Nat) (v : Option rinode) :
    (w.set_rinode k v).rinode_cnt = w.rinode_cnt := rfl

@[simp] theorem set_rinode_rinodes_freed {E : Type} (w : World E) (k : Nat) (v : Option rinode) :
    (w.set_rinode k v).rinodes_freed = w.rinodes_freed := rfl

@[simp] theorem set_rinode_rcu_pending {E : Type} (w : World E) (k : Nat) (v : Option rinode) :
    (w.set_rinode k v).rcu_pending = w.rcu_pending := rfl

@[simp] theorem set_rdentry_rdentries {E : Type} (w : World E) (k : Nat) (v : Option rdentry) :
    (w.set_rdentry k v).rdentries = Function.update w.rdentries k v := rfl

@[simp] theorem set_rdentry_ext {E : Type} (w : World E) (k : Nat) (v : Option rdentry) :
    (w.set_rdentry k v).ext = w.ext := rfl

@[simp] theorem set_rdentry_inodes {E : Type} (w : World E) (k : Nat) (v : Option rdentry) :
    (w.set_rdentry k v).inodes = w.inodes := rfl

@[simp] theorem set_rdentry_d_inode {E : Type} (w : World E) (k : Nat) (v : Option rdentry) :
    (w.set_rdentry k v).d_inode = w.d_inode := rfl

@[simp] theorem set_rdentry_page_host {E : Type} (w : World E) (k : Nat) (v : Option rdentry) :
    (w.set_rdentry k v).page_host = w.page_host := rfl

@[simp] theorem set_rdentry_rinodes {E : Type} (w : World E) (k : Nat) (v : Option rdentry) :
    (w.set_rdentry k v).rinodes = w.rinodes := rfl

@[simp] theorem set_rdentry_chain_flts {E : Type} (w : World E) (k : Nat) (v : Option rdentry) :
    (w.set_rdentry k v).chain_flts = w.chain_flts := rfl

@[simp] theorem set_rdentry_chain_cnt {E : Type} (w : World E) (k : Nat) (v : Option rdentry) :
    (w.set_rdentry k v).chain_cnt = w.chain_cnt := rfl

@[simp] theorem set_rdentry_path_cnt {E : Type} (w : World E) (k : Nat) (v : Option rdentry) :
    (w.set_rdentry k v).path_cnt = w.path_cnt := rfl

@[simp] theorem set_rdentry_ops_bits {E : Type} (w : World E) (k : Nat) (v : Option rdentry) :
    (w.set_rdentry k v).ops_bits = w.ops_bits := rfl

@[simp] theorem set_rdentry_ops_cnt {E : Type} (w : World E) (k : Nat) (v : Option rdentry) :
    (w.set_rdentry k v).ops_cnt = w.ops_cnt := rfl

@[simp] theorem set_rdentry_data_flt {E : Type} (w : World E) (k : Nat) (v : Option rdentry) :
    (w.set_rdentry k v).data_flt = w.data_flt := rfl

@[simp] theorem set_rdentry_data_cnt {E : Type} (w : World E) (k : Nat) (v : Option rdentry) :
    (w.set_rdentry k v).data_cnt = w.data_cnt := rfl

@[simp] theorem set_rdentry_rinode_cnt {E : Type} (w : World E) (k : Nat) (v : Option rdentry) :
    (w.set_rdentry k v).rinode_cnt = w.rinode_cnt := rfl

@[simp] theorem set_rdentry_rinodes_freed {E : Type} (w : World E) (k : Nat) (v : Option rdentry) :
    (w.set_rdentry k v).rinodes_freed = w.rinodes_freed := rfl

@[simp] theorem set_rdentry_rcu_pending {E : Type} (w : World E) (k : Nat) (v : Option rdentry) :
    (w.set_rdentry k v).rcu_pending = w.rcu_pending := rfl

@[simp] theorem set_inode_inodes {E : Type} (w : World E) (k : Nat) (v : inode) :
    (w.set_inode k v).inodes = Function.update w.inodes k v := rfl

@[simp] theorem set_inode_ext {E : Type} (w : World E) (k : Nat) (v : inode) :
    (w.set_inode k v).ext = w.ext := rfl

@[simp] theorem set_inode_d_inode {E : Type} (w : World E) (k : Nat) (v : inode) :
    (w.set_inode k v).d_inode = w.d_inode := rfl

@[simp] theorem set_inode_page_host {E : Type} (w : World E) (k : Nat) (v : inode) :
    (w.set_inode k v).page_host = w.page_host := rfl

@[simp] theorem set_inode_rinodes {E : Type} (w : World E) (k : Nat) (v : inode) :
    (w.set_inode k v).rinodes = w.rinodes := rfl

@[simp] theorem set_inode_rdentries {E : Type} (w : World E) (k : Nat) (v : inode) :
    (w.set_inode k v).rdentries = w.rdentries := rfl

@[simp] theorem set_inode_chain_flts {E : Type} (w : World E) (k : Nat) (v : inode) :
    (w.set_inode k v).chain_flts = w.chain_flts := rfl

@[simp] theorem set_inode_chain_cnt {E : Type} (w : World E) (k : Nat) (v : inode) :
    (w.set_inode k v).chain_cnt = w.chain_cnt := rfl

@[simp] theorem set_inode_path_cnt {E : Type} (w : World E) (k : Nat) (v : inode) :
    (w.set_inode k v).path_cnt = w.path_cnt := rfl

@[simp] theorem set_inode_ops_bits {E : Type} (w : World E) (k : Nat) (v : inode) :
    (w.set_inode k v).ops_bits = w.ops_bits := rfl

@[simp] theorem set_inode_ops_cnt {E : Type} (w : World E) (k : Nat) (v : inode) :
    (w.set_inode k v).ops_cnt = w.ops_cnt := rfl

@[simp] theorem set_inode_data_flt {E : Type} (w : World E) (k : Nat) (v : inode) :
    (w.set_inode k v).data_flt = w.data_flt := rfl

@[simp] theorem set_inode_data_cnt {E : Type} (w : World E) (k : Nat) (v : inode) :
    (w.set_inode k v).data_cnt = w.data_cnt := rfl

@[simp] theorem set_inode_rinode_cnt {E : Type} (w : World E) (k : Nat) (v : inode) :
    (w.set_inode k v).rinode_cnt = w.rinode_cnt := rfl

@[simp] theorem set_inode_rinodes_freed {E : Type} (w : World E) (k : Nat) (v : inode) :
    (w.set_inode k v).rinodes_freed = w.rinodes_freed := rfl

@[simp] theorem set_inode_rcu_pending {E : Type} (w : World E) (k : Nat) (v : inode) :
    (w.set_inode k v).rcu_pending = w.rcu_pending := rfl

/-! ### Discovery and release -/

theorem rinode_find_none {E : Type} (w w1 : World E) (i : Nat)
    (h : rinode_find w i = .ok (none, w1)) : w1 = w ∧ ∃ t, w.live_iop i = .ok t := by
  unfold rinode_find at h
  unfold World.live_iop World.iop_deref
  cases hop : (w.inodes i).i_op with
  | null => simp [hop] at h; simp [h]
  | table t =>
    by_cases hl : t.lookup = some Fn.rfs_lookup
    · simp [hop, hl] at h
    · simp [hop, hl] at h; simp [h]
  | ri_op_new rid2 =>
    cases hr : w.rinodes rid2 with
    | none => simp [hop, hr] at h
    | some r =>
      by_cases hl : r.ri_op_new.lookup = some Fn.rfs_lookup
      · by_cases hc : r.ri_count = 0
        · simp [hop, hr, hl, rinode_get, hc] at h
        · simp [hop, hr, hl, rinode_get, hc] at h
      · simp [hop, hr, hl] at h; subst h; simp [hr]

theorem rinode_find_some {E : Type} (w w1 : World E) (i rid : Nat)
    (h : rinode_find w i = .ok (some rid, w1)) :
    ∃ r0, (w.inodes i).i_op = .ri_op_new rid ∧ w.rinodes rid = some r0 ∧ r0.ri_count ≠ 0 ∧
      r0.ri_op_new.lookup = some Fn.rfs_lookup ∧
      w1 = w.set_rinode rid (some { r0 with ri_count := r0.ri_count + 1 }) := by
  unfold rinode_find at h
  cases hop : (w.inodes i).i_op with
  | null => simp [hop] at h
  | table t =>
    by_cases hl : t.lookup = some Fn.rfs_lookup
    · simp [hop, hl] at h
    · simp [hop, hl] at h
  | ri_op_new rid2 =>
    cases hr : w.rinodes rid2 with
    | none => simp [hop, hr] at h
    | some r =>
      by_cases hl : r.ri_op_new.lookup = some Fn.rfs_lookup
      · by_cases hc : r.ri_count = 0
        · simp [hop, hr, hl, rinode_get, hc] at h
        · simp [hop, hr, hl, rinode_get, hc] at h
          obtain ⟨h1, h2⟩ := h
          subst h1
          exact ⟨r, rfl, hr, hc, hl, h2.symm⟩
      · simp [hop, hr, hl] at h

theorem rinode_put_shared {E : Type} (w : World E) (rid : Nat) (r : rinode)
    (h : w.rinodes rid = some r) (hc : 2 ≤ r.ri_count) :
    rinode_put w (some rid) = .ok (w.set_rinode rid (some { r with ri_count := r.ri_count - 1 })) := by
  unfold rinode_put
  simp only [h]
  have h1 : r.ri_count ≠ 0 := by omega
  have h2 : r.ri_count - 1 ≠ 0 := by omega
  simp [h1, h2]

theorem precall_zero {E : Type} (env : Env E) (w : World E) (chain : Option Nat) (s : Call E) :
    rfs_precall_flts env w 0 chain s = precall_list env (chain_list w chain) s := by
  cases chain <;> simp [rfs_precall_flts, chain_list, precall_list]

theorem postcall_zero {E : Type} (env : Env E) (w : World E) (chain : Option Nat) (s : Call E) :
    rfs_postcall_flts env w 0 chain s = postcall_list env (chain_list w chain) s := by
  cases chain <;> simp [rfs_postcall_flts, chain_list, postcall_list]

/-! ### Slots after re-derivation -/

theorem set_ops_mode_of_kind (m : Nat) (r : rinode) (S : rfs_op_id → Bool) :
    (S_ISREG m = true → rinode_set_ops_mode m r S =
      (rinode_set_reg_ops r S).set_iop fun t => { t with lookup := some Fn.rfs_lookup }) ∧
    (S_ISDIR m = true → rinode_set_ops_mode m r S =
      (rinode_set_dir_ops r S).set_iop fun t => { t with lookup := some Fn.rfs_lookup }) ∧
    (S_ISLNK m = true → rinode_set_ops_mode m r S =
      (rinode_set_lnk_ops r S).set_iop fun t => { t with lookup := some Fn.rfs_lookup }) ∧
    (S_ISCHR m = true → rinode_set_ops_mode m r S =
      (rinode_set_chr_ops r S).set_iop fun t => { t with lookup := some Fn.rfs_lookup }) ∧
    (S_ISBLK m = true → rinode_set_ops_mode m r S =
      (rinode_set_blk_ops r S).set_iop fun t => { t with lookup := some Fn.rfs_lookup }) ∧
    (S_ISFIFO m = true → rinode_set_ops_mode m r S =
      (rinode_set_fifo_ops r S).set_iop fun t => { t with lookup := some Fn.rfs_lookup }) ∧
    (S_ISSOCK m = true → rinode_set_ops_mode m r S =
      (rinode_set_sock_ops r S).set_iop fun t => { t with lookup := some Fn.rfs_lookup }) := by
  refine ⟨?_, ?_, ?_, ?_, ?_, ?_, ?_⟩ <;> intro h <;>
    simp only [S_ISREG, S_ISDIR, S_ISLNK, S_ISCHR, S_ISBLK, S_ISFIFO, S_ISSOCK, beq_iff_eq] at h <;>
    simp [rinode_set_ops_mode, S_ISREG, S_ISDIR, S_ISLNK, S_ISCHR, S_ISBLK, S_ISFIFO, S_ISSOCK, h,
      S_IFREG, S_IFDIR, S_IFLNK, S_IFCHR, S_IFBLK, S_IFIFO, S_IFSOCK]

@[simp] theorem set_iop_op_new (r : rinode) (f : inode_operations → inode_operations) :
    (r.set_iop f).ri_op_new = f r.ri_op_new := rfl

@[simp] theorem set_iop_aop_new (r : rinode) (f : inode_operations → inode_operations) :
    (r.set_iop f).ri_aop_new = r.ri_aop_new := rfl

@[simp] theorem set_iop_op_old (r : rinode) (f : inode_operations → inode_operations) :
    (r.set_iop f).ri_op_old = r.ri_op_old := rfl

@[simp] theorem set_iop_aop_old (r : rinode) (f : inode_operations → inode_operations) :
    (r.set_iop f).ri_aop_old = r.ri_aop_old := rfl

@[simp] theorem set_aop_op_new (r : rinode)
    (f : address_space_operations → address_space_operations) :
    (r.set_aop f).ri_op_new = r.ri_op_new := rfl

@[simp] theorem set_aop_aop_new (r : rinode)
    (f : address_space_operations → address_space_operations) :
    (r.set_aop f).ri_aop_new = f r.ri_aop_new := rfl

@[simp] theorem set_aop_op_old (r : rinode)
    (f : address_space_operations → address_space_operations) :
    (r.set_aop f).ri_op_old = r.ri_op_old := rfl

@[simp] theorem set_aop_aop_old (r : rinode)
    (f : address_space_operations → address_space_operations) :
    (r.set_aop f).ri_aop_old = r.ri_aop_old := rfl

theorem old_iop_eq (r : rinode) (f : inode_operations → Option Fn) :
    old_iop r f = r.ri_op_old.bind f := by
  cases h : r.ri_op_old <;> simp [old_iop, h]

theorem old_aop_eq (r : rinode) (f : address_space_operations → Option Fn) :
    old_aop r f = r.ri_aop_old.bind f := by
  cases h : r.ri_aop_old <;> simp [old_aop, h]

theorem perm_attr_slots (p a : rfs_op_id) (r : rinode) (S : rfs_op_id → Bool) :
    (rinode_set_perm_attr p a r S).ri_op_new.permission =
        (if S p then some Fn.rfs_permission else r.ri_op_old.bind (·.permission)) ∧
    (rinode_set_perm_attr p a r S).ri_op_new.setattr =
        (if S a then some Fn.rfs_setattr else r.ri_op_old.bind (·.setattr)) := by
  simp [rinode_set_perm_attr, old_iop_eq]

theorem reg_slots (r : rinode) (S : rfs_op_id → Bool) :
    (rinode_set_reg_ops r S).ri_op_new.permission =
        (if S .RFS_REG_IOP_PERMISSION then some Fn.rfs_permission
         else r.ri_op_old.bind (·.permission)) ∧
    (rinode_set_reg_ops r S).ri_op_new.setattr =
        (if S .RFS_REG_IOP_SETATTR then some Fn.rfs_setattr else r.ri_op_old.bind (·.setattr)) ∧
    (rinode_set_reg_ops r S).ri_aop_new.readpage =
        (if S .RFS_REG_AOP_READPAGE then some Fn.rfs_readpage
         else r.ri_aop_old.bind (·.readpage)) ∧
    (rinode_set_reg_ops r S).ri_aop_new.writepage =
        (if S .RFS_REG_AOP_WRITEPAGE then some Fn.rfs_writepage
         else r.ri_aop_old.bind (·.writepage)) := by
  simp [rinode_set_reg_ops, old_iop_eq, old_aop_eq]

theorem dir_slots (r : rinode) (S : rfs_op_id → Bool) :
    (rinode_set_dir_ops r S).ri_op_new.unlink =
        (if S .RFS_DIR_IOP_UNLINK then some Fn.rfs_unlink else r.ri_op_old.bind (·.unlink)) ∧
    (rinode_set_dir_ops r S).ri_op_new.permission =
        (if S .RFS_DIR_IOP_PERMISSION then some Fn.rfs_permission
         else r.ri_op_old.bind (·.permission)) ∧
    (rinode_set_dir_ops r S).ri_op_new.setattr =
        (if S .RFS_DIR_IOP_SETATTR then some Fn.rfs_setattr else r.ri_op_old.bind (·.setattr)) ∧
    (rinode_set_dir_ops r S).ri_op_new.rmdir =
        (if S .RFS_DIR_IOP_RMDIR then some Fn.rfs_rmdir else r.ri_op_old.bind (·.rmdir)) ∧
    (rinode_set_dir_ops r S).ri_op_new.mkdir = some Fn.rfs_mkdir ∧
    (rinode_set_dir_ops r S).ri_op_new.create = some Fn.rfs_create ∧
    (rinode_set_dir_ops r S).ri_op_new.link = some Fn.rfs_link ∧
    (rinode_set_dir_ops r S).ri_op_new.mknod = some Fn.rfs_mknod ∧
    (rinode_set_dir_ops r S).ri_op_new.symlink = some Fn.rfs_symlink := by
  simp [rinode_set_dir_ops, old_iop_eq]

/-! ## C8, C9: re-derivation of the substituted tables -/

/-- C8, refuted as stated: for the directory shadow `demo_rdir` and the operation
set that holds create and lookup only, the `mkdir` slot of the substituted table is
the wrapper `rfs_mkdir` although mkdir is not in the set, and it differs from the
slot of the saved original table. -/
theorem set_ops_exposes_mkdir_outside_set :
    S_ISDIR S_IFDIR = true ∧ demo_ops .RFS_DIR_IOP_MKDIR = false ∧
    (rinode_set_ops_mode S_IFDIR demo_rdir demo_ops).ri_op_new.mkdir = some Fn.rfs_mkdir ∧
    demo_rdir.ri_op_old.bind (·.mkdir) = some (Fn.native 6) := by
  decide

/-- C8, amended: after `rinode_set_ops` with the operation set `S`, the slots for
permission and setattr (every kind), readpage and writepage (regular file), unlink
and rmdir (directory) hold the wrapper when the identifier of the operation for
that kind is in `S` and otherwise the slot of the saved original table, null when
there is none; the directory slots for mkdir, create, link, mknod and symlink hold
the wrapper whatever `S` is. -/
theorem rinode_set_ops_slots (mode : Nat) (r : rinode) (S : rfs_op_id → Bool) :
    (S_ISREG mode = true →
      (rinode_set_ops_mode mode r S).ri_op_new.permission =
        (if S .RFS_REG_IOP_PERMISSION then some Fn.rfs_permission
         else r.ri_op_old.bind (·.permission)) ∧
      (rinode_set_ops_mode mode r S).ri_op_new.setattr =
        (if S .RFS_REG_IOP_SETATTR then some Fn.rfs_setattr
         else r.ri_op_old.bind (·.setattr)) ∧
      (rinode_set_ops_mode mode r S).ri_aop_new.readpage =
        (if S .RFS_REG_AOP_READPAGE then some Fn.rfs_readpage
         else r.ri_aop_old.bind (·.readpage)) ∧
      (rinode_set_ops_mode mode r S).ri_aop_new.writepage =
        (if S .RFS_REG_AOP_WRITEPAGE then some Fn.rfs_writepage
         else r.ri_aop_old.bind (·.writepage))) ∧
    (S_ISDIR mode = true →
      (rinode_set_ops_mode mode r S).ri_op_new.unlink =
        (if S .RFS_DIR_IOP_UNLINK then some Fn.rfs_unlink else r.ri_op_old.bind (·.unlink)) ∧
      (rinode_set_ops_mode mode r S).ri_op_new.permission =
        (if S .RFS_DIR_IOP_PERMISSION then some Fn.rfs_permission
         else r.ri_op_old.bind (·.permission)) ∧
      (rinode_set_ops_mode mode r S).ri_op_new.setattr =
        (if S .RFS_DIR_IOP_SETATTR then some Fn.rfs_setattr
         else r.ri_op_old.bind (·.setattr)) ∧
      (rinode_set_ops_mode mode r S).ri_op_new.rmdir =
        (if S .RFS_DIR_IOP_RMDIR then some Fn.rfs_rmdir else r.ri_op_old.bind (·.rmdir)) ∧
      (rinode_set_ops_mode mode r S).ri_op_new.mkdir = some Fn.rfs_mkdir ∧
      (rinode_set_ops_mode mode r S).ri_op_new.create = some Fn.rfs_create ∧
      (rinode_set_ops_mode mode r S).ri_op_new.link = some Fn.rfs_link ∧
      (rinode_set_ops_mode mode r S).ri_op_new.mknod = some Fn.rfs_mknod ∧
      (rinode_set_ops_mode mode r S).ri_op_new.symlink = some Fn.rfs_symlink) ∧
    (S_ISLNK mode = true →
      (rinode_set_ops_mode mode r S).ri_op_new.permission =
        (if S .RFS_LNK_IOP_PERMISSION then some Fn.rfs_permission
         else r.ri_op_old.bind (·.permission)) ∧
      (rinode_set_ops_mode mode r S).ri_op_new.setattr =
        (if S .RFS_LNK_IOP_SETATTR then some Fn.rfs_setattr
         else r.ri_op_old.bind (·.setattr))) ∧
    (S_ISCHR mode = true →
      (rinode_set_ops_mode mode r S).ri_op_new.permission =
        (if S .RFS_CHR_IOP_PERMISSION then some Fn.rfs_permission
         else r.ri_op_old.bind (·.permission)) ∧
      (rinode_set_ops_mode mode r S).ri_op_new.setattr =
        (if S .RFS_CHR_IOP_SETATTR then some Fn.rfs_setattr
         else r.ri_op_old.bind (·.setattr))) ∧
    (S_ISBLK mode = true →
      (rinode_set_ops_mode mode r S).ri_op_new.permission =
        (if S .RFS_BLK_IOP_PERMISSION then some Fn.rfs_permission
         else r.ri_op_old.bind (·.permission)) ∧
      (rinode_set_ops_mode mode r S).ri_op_new.setattr =
        (if S .RFS_BLK_IOP_SETATTR then some Fn.rfs_setattr
         else r.ri_op_old.bind (·.setattr))) ∧
    (S_ISFIFO mode = true →
      (rinode_set_ops_mode mode r S).ri_op_new.permission =
        (if S .RFS_FIFO_IOP_PERMISSION then some Fn.rfs_permission
         else r.ri_op_old.bind (·.permission)) ∧
      (rinode_set_ops_mode mode r S).ri_op_new.setattr =
        (if S .RFS_FIFO_IOP_SETATTR then some Fn.rfs_setattr
         else r.ri_op_old.bind (·.setattr))) ∧
    (S_ISSOCK mode = true →
      (rinode_set_ops_mode mode r S).ri_op_new.permission =
        (if S .RFS_SOCK_IOP_PERMISSION then some Fn.rfs_permission
         else r.ri_op_old.bind (·.permission)) ∧
      (rinode_set_ops_mode mode r S).ri_op_new.setattr =
        (if S .RFS_SOCK_IOP_SETATTR then some Fn.rfs_setattr
         else r.ri_op_old.bind (·.setattr))) := by
  have k := set_ops_mode_of_kind mode r S
  refine ⟨fun h => ?_, fun h => ?_, fun h => ?_, fun h => ?_, fun h => ?_, fun h => ?_,
    fun h => ?_⟩
  · rw [k.1 h]; simpa using reg_slots r S
  · rw [k.2.1 h]; simpa using dir_slots r S
  · rw [k.2.2.1 h]; simpa using perm_attr_slots _ _ r S
  · rw [k.2.2.2.1 h]; simpa using perm_attr_slots _ _ r S
  · rw [k.2.2.2.2.1 h]; simpa using perm_attr_slots _ _ r S
  · rw [k.2.2.2.2.2.1 h]; simpa using perm_attr_slots _ _ r S
  · rw [k.2.2.2.2.2.2 h]; simpa using perm_attr_slots _ _ r S

/-- The amended C8 at one node of each of the seven kinds, all configured with
the operation set that holds create and lookup only. -/
theorem rinode_set_ops_slots_witness :
    ((rinode_set_ops_mode S_IFREG demo_rreg demo_ops).ri_aop_new.readpage = none) ∧
    ((rinode_set_ops_mode S_IFDIR demo_rdir demo_ops).ri_op_new.unlink = none ∧
      (rinode_set_ops_mode S_IFDIR demo_rdir demo_ops).ri_op_new.symlink
        = some Fn.rfs_symlink) ∧
    ((rinode_set_ops_mode S_IFLNK demo_rreg demo_ops).ri_op_new.permission = none) ∧
    ((rinode_set_ops_mode S_IFCHR demo_rreg demo_ops).ri_op_new.permission = none) ∧
    ((rinode_set_ops_mode S_IFBLK demo_rreg demo_ops).ri_op_new.setattr = none) ∧
    ((rinode_set_ops_mode S_IFIFO demo_rreg demo_ops).ri_op_new.setattr = none) ∧
    ((rinode_set_ops_mode S_IFSOCK demo_rreg demo_ops).ri_op_new.setattr = none) :=
  ⟨((rinode_set_ops_slots S_IFREG demo_rreg demo_ops).1 (by decide)).2.2.1,
   ⟨((rinode_set_ops_slots S_IFDIR demo_rdir demo_ops).2.1 (by decide)).1,
    ((rinode_set_ops_slots S_IFDIR demo_rdir demo_ops).2.1 (by decide)).2.2.2.2.2.2.2.2⟩,
   ((rinode_set_ops_slots S_IFLNK demo_rreg demo_ops).2.2.1 (by decide)).1,
   ((rinode_set_ops_slots S_IFCHR demo_rreg demo_ops).2.2.2.1 (by decide)).1,
   ((rinode_set_ops_slots S_IFBLK demo_rreg demo_ops).2.2.2.2.1 (by decide)).2,
   ((rinode_set_ops_slots S_IFIFO demo_rreg demo_ops).2.2.2.2.2.1 (by decide)).2,
   ((rinode_set_ops_slots S_IFSOCK demo_rreg demo_ops).2.2.2.2.2.2 (by decide)).2⟩

/-! ### The wrappers on an object without shadow -/

theorem rfs_unlink_unwrapped {E : Type} (env : Env E) (w : World E) (dir dentry : Nat)
    (t : Option inode_operations)
    (hf : rinode_find w dir = .ok (none, w)) (ht : w.live_iop dir = .ok t) :
    rfs_unlink env w dir dentry =
      match t.bind (·.unlink) with
      | some fn =>
        .ok ((env.call fn [(dir : Int), (dentry : Int)] w.ext).1,
          { w with ext := (env.call fn [(dir : Int), (dentry : Int)] w.ext).2 })
      | none =>
        .ok (-EPERM, w) := by
  simp only [rfs_unlink, hf, bind, Except.bind, ht]
  cases t with
  | none => simp [pure, Except.pure]
  | some t => cases h : t.unlink <;> simp [pure, Except.pure, h]

theorem rfs_rmdir_unwrapped {E : Type} (env : Env E) (w : World E) (dir dentry : Nat)
    (t : Option inode_operations)
    (hf : rinode_find w dir = .ok (none, w)) (ht : w.live_iop dir = .ok t) :
    rfs_rmdir env w dir dentry =
      match t.bind (·.rmdir) with
      | some fn =>
        .ok ((env.call fn [(dir : Int), (dentry : Int)] w.ext).1,
          { w with ext := (env.call fn [(dir : Int), (dentry : Int)] w.ext).2 })
      | none =>
        .ok (-EPERM, w) := by
  simp only [rfs_rmdir, hf, bind, Except.bind, ht]
  cases t with
  | none => simp [pure, Except.pure]
  | some t => cases h : t.rmdir <;> simp [pure, Except.pure, h]

theorem rfs_mkdir_unwrapped {E : Type} (env : Env E) (w : World E) (dir dentry : Nat) (mode : Int)
    (t : Option inode_operations)
    (hf : rinode_find w dir = .ok (none, w)) (ht : w.live_iop dir = .ok t) :
    rfs_mkdir env w dir dentry mode =
      match t.bind (·.mkdir) with
      | some fn =>
        .ok ((env.call fn [(dir : Int), (dentry : Int), mode] w.ext).1,
          { w with ext := (env.call fn [(dir : Int), (dentry : Int), mode] w.ext).2 })
      | none =>
        .ok (-EPERM, w) := by
  simp only [rfs_mkdir, hf, bind, Except.bind, ht]
  cases t with
  | none => simp [pure, Except.pure]
  | some t => cases h : t.mkdir <;> simp [pure, Except.pure, h]

theorem rfs_create_unwrapped {E : Type} (env : Env E) (w : World E) (dir dentry : Nat) (mode nd : Int)
    (t : Option inode_operations)
    (hf : rinode_find w dir = .ok (none, w)) (ht : w.live_iop dir = .ok t) :
    rfs_create env w dir dentry mode nd =
      match t.bind (·.create) with
      | some fn =>
        .ok ((env.call fn [(dir : Int), (dentry : Int), mode, nd] w.ext).1,
          { w with ext := (env.call fn [(dir : Int), (dentry : Int), mode, nd] w.ext).2 })
      | none =>
        .ok (-EACCES, w) := by
  simp only [rfs_create, hf, bind, Except.bind, ht]
  cases t with
  | none => simp [pure, Except.pure]
  | some t => cases h : t.create <;> simp [pure, Except.pure, h]

theorem rfs_link_unwrapped {E : Type} (env : Env E) (w : World E) (old_dentry : Int) (dir dentry : Nat)
    (t : Option inode_operations)
    (hf : rinode_find w dir = .ok (none, w)) (ht : w.live_iop dir = .ok t) :
    rfs_link env w old_dentry dir dentry =
      match t.bind (·.link) with
      | some fn =>
        .ok ((env.call fn [old_dentry, (dir : Int), (dentry : Int)] w.ext).1,
          { w with ext := (env.call fn [old_dentry, (dir : Int), (dentry : Int)] w.ext).2 })
      | none =>
        .ok (-EPERM, w) := by
  simp only [rfs_link, hf, bind, Except.bind, ht]
  cases t with
  | none => simp [pure, Except.pure]
  | some t => cases h : t.link <;> simp [pure, Except.pure, h]

theorem rfs_symlink_unwrapped {E : Type} (env : Env E) (w : World E) (dir dentry : Nat) (oldname : Int)
    (t : Option inode_operations)
    (hf : rinode_find w dir = .ok (none, w)) (ht : w.live_iop dir = .ok t) :
    rfs_symlink env w dir dentry oldname =
      match t.bind (·.symlink) with
      | some fn =>
        .ok ((env.call fn [(dir : Int), (dentry : Int), oldname] w.ext).1,
          { w with ext := (env.call fn [(dir : Int), (dentry : Int), oldname] w.ext).2 })
      | none =>
        .ok (-EPERM, w) := by
  simp only [rfs_symlink, hf, bind, Except.bind, ht]
  cases t with
  | none => simp [pure, Except.pure]
  | some t => cases h : t.symlink <;> simp [pure, Except.pure, h]

theorem rfs_lookup_unwrapped {E : Type} (env : Env E) (w : World E) (dir dentry : Nat) (nd : Int)
    (t : Option inode_operations)
    (hf : rinode_find w dir = .ok (none, w)) (ht : w.live_iop dir = .ok t) :
    rfs_lookup env w dir dentry nd =
      match t.bind (·.lookup) with
      | some fn =>
        .ok ((env.call fn [(dir : Int), (dentry : Int), nd] w.ext).1,
          { w with ext := (env.call fn [(dir : Int), (dentry : Int), nd] w.ext).2 })
      | none =>
        .ok (-ENOSYS, w) := by
  simp only [rfs_lookup, hf, bind, Except.bind, ht]
  cases t with
  | none => simp [pure, Except.pure]
  | some t => cases h : t.lookup <;> simp [pure, Except.pure, h]

theorem rfs_mknod_unwrapped {E : Type} (env : Env E) (w : World E) (dir dentry : Nat) (mode rdev : Int)
    (t : Option inode_operations)
    (hf : rinode_find w dir = .ok (none, w)) (ht : w.live_iop dir = .ok t) :
    rfs_mknod env w dir dentry mode rdev =
      match t.bind (·.mknod) with
      | some fn =>
        .ok ((env.call fn [(dir : Int), (dentry : Int), mode, rdev] w.ext).1,
          { w with ext := (env.call fn [(dir : Int), (dentry : Int), mode, rdev] w.ext).2 })
      | none =>
        .ok (-EPERM, w) := by
  simp only [rfs_mknod, hf, bind, Except.bind, ht]
  cases t with
  | none => simp [pure, Except.pure]
  | some t => cases h : t.mknod <;> simp [pure, Except.pure, h]

theorem rfs_permission_unwrapped {E : Type} (env : Env E) (w : World E) (i : Nat) (mask nd : Int)
    (t : Option inode_operations)
    (hf : rinode_find w i = .ok (none, w)) (ht : w.live_iop i = .ok t) :
    rfs_permission env w i mask nd =
      match t.bind (·.permission) with
      | some fn =>
        .ok ((env.call fn [(i : Int), mask, nd] w.ext).1,
          { w with ext := (env.call fn [(i : Int), mask, nd] w.ext).2 })
      | none =>
        let g := env.generic_permission i (submask mask) w.ext
        .ok (g.1, { w with ext := g.2 }) := by
  simp only [rfs_permission, hf, bind, Except.bind, ht]
  cases t with
  | none => simp [pure, Except.pure]
  | some t => cases h : t.permission <;> simp [pure, Except.pure, h]

theorem rfs_setattr_unwrapped {E : Type} (env : Env E) (w : World E) (dentry : Nat) (iattr : Int) (i : Nat)
    (t : Option inode_operations)
    (hi : w.d_inode dentry = some i)
    (hf : rinode_find w i = .ok (none, w)) (ht : w.live_iop i = .ok t) :
    rfs_setattr env w dentry iattr =
      match t.bind (·.setattr) with
      | some fn =>
        .ok ((env.call fn [(dentry : Int), iattr] w.ext).1,
          { w with ext := (env.call fn [(dentry : Int), iattr] w.ext).2 })
      | none =>
        .ok (0, w) := by
  simp only [rfs_setattr, hi, hf, bind, Except.bind, ht]
  cases t with
  | none => simp [pure, Except.pure]
  | some t => cases h : t.setattr <;> simp [pure, Except.pure, h]

theorem rfs_readpage_call_unwrapped {E : Type} (env : Env E) (w : World E) (flt : Option Nat) (file : Int) (page : Nat) (i : Nat)
    (t : Option address_space_operations)
    (hi : w.page_host page = some i)
    (hf : rinode_find w i = .ok (none, w)) (ht : w.live_aop i = .ok t) :
    rfs_readpage_call env w flt file page =
      match t.bind (·.readpage) with
      | some fn =>
        .ok ((env.call fn [file, (page : Int)] w.ext).1,
          { w with ext := (env.call fn [file, (page : Int)] w.ext).2 })
      | none =>
        .ok (-EINVAL, w) := by
  simp only [rfs_readpage_call, hi, hf, bind, Except.bind, ht]
  cases t with
  | none => simp [pure, Except.pure]
  | some t => cases h : t.readpage <;> simp [pure, Except.pure, h]

theorem rfs_writepage_call_unwrapped {E : Type} (env : Env E) (w : World E) (flt : Option Nat) (page : Nat) (wbc : Int) (i : Nat)
    (t : Option address_space_operations)
    (hi : w.page_host page = some i)
    (hf : rinode_find w i = .ok (none, w)) (ht : w.live_aop i = .ok t) :
    rfs_writepage_call env w flt page wbc =
      match t.bind (·.writepage) with
      | some fn =>
        .ok ((env.call fn [(page : Int), wbc] w.ext).1,
          { w with ext := (env.call fn [(page : Int), wbc] w.ext).2 })
      | none =>
        .ok (-EINVAL, w) := by
  simp only [rfs_writepage_call, hi, hf, bind, Except.bind, ht]
  cases t with
  | none => simp [pure, Except.pure]
  | some t => cases h : t.writepage <;> simp [pure, Except.pure, h]

/-! ### The wrappers on an object with a shadow -/

theorem wrapped_facts {E : Type} (w : World E) (i rid : Nat) (r : rinode)
    (hw : wrapped w i rid r) :
    ∃ w1 r1, rinode_find w i = .ok (some rid, w1) ∧ w1.rinodes rid = some r1 ∧
      r1 = { r with ri_count := r.ri_count + 1 } ∧ r.ri_count ≠ 0 ∧
      w1 = w.set_rinode rid (some r1) := by
  obtain ⟨⟨w1, hf⟩, hr⟩ := hw
  obtain ⟨r0, _, hr0, hc, _, hw1⟩ := rinode_find_some w w1 i rid hf
  rw [hr] at hr0
  cases hr0
  exact ⟨w1, _, hf, by simp [hw1], rfl, hc, hw1⟩

theorem rinode_put_after_get {E : Type} (w : World E) (rid : Nat) (r r1 : rinode)
    (h : w.rinodes rid = some r1) (h1 : r1 = { r with ri_count := r.ri_count + 1 })
    (hc : r.ri_count ≠ 0) :
    rinode_put w (some rid) = .ok (w.set_rinode rid (some r)) := by
  subst h1
  unfold rinode_put
  simp [h, hc]

theorem chain_list_congr {E : Type} (w1 w2 : World E) (h : w1.chain_flts = w2.chain_flts)
    (c : Option Nat) : chain_list w1 c = chain_list w2 c := by
  cases c <;> simp [chain_list, h]

theorem precall_idx {E : Type} (env : Env E) (w : World E) (idx : Int) (chain : Option Nat)
    (s : Call E) :
    rfs_precall_flts env w idx chain s =
      precall_list env ((chain_list w chain).drop idx.toNat) s := by
  cases chain <;> simp [rfs_precall_flts, chain_list, precall_list]

theorem postcall_idx {E : Type} (env : Env E) (w : World E) (idx : Int) (chain : Option Nat)
    (s : Call E) :
    rfs_postcall_flts env w idx chain s =
      postcall_list env ((chain_list w chain).drop idx.toNat) s := by
  cases chain <;> simp [rfs_postcall_flts, chain_list, postcall_list]

theorem idx_start_of_congr {E : Type} (w1 w2 : World E) (h : w1.chain_flts = w2.chain_flts)
    (c flt : Option Nat) : idx_start_of w1 c flt = idx_start_of w2 c flt := by
  cases c <;> cases flt <;> simp [idx_start_of, chain_find_flt, h]

theorem rfs_unlink_wrapped {E : Type} (env : Env E) (w : World E) (dir dentry : Nat)
    (rid : Nat) (r : rinode) (fin : Call E) (hw : wrapped w dir rid r)
    (hk : S_ISDIR (w.inodes dir).i_mode = true)
    (hfin : fin = run_protocol env (chain_list w r.ri_chain)
      (orig_step env (old_iop r (·.unlink)) (fun a => [a.dir, a.dentry]) (fun s => (-EPERM, s.ext)))
      (call_init env w .RFS_DIR_IOP_UNLINK { dir := dir, dentry := dentry }))
    (hd : fin.cont.data_list = []) :
    rfs_unlink env w dir dentry = .ok (fin.args.retv, { w with ext := fin.ext }) := by
  obtain ⟨w1, r1, hf, hr1, hr1e, hc, hw1⟩ := wrapped_facts w dir rid r hw
  have hfl : ∀ c, chain_list (chain_get w1 c) = chain_list w := by
    intro c; funext c2; apply chain_list_congr; simp [hw1]
  have hch : r1.ri_chain = r.ri_chain := by rw [hr1e]
  have hold : old_iop r1 (·.unlink) = old_iop r (·.unlink) := by rw [hr1e]; rfl
  have hex : w1.ext = w.ext := by rw [hw1]; rfl
  have hin : w1.inodes = w.inodes := by rw [hw1]; rfl
  simp only [run_protocol, orig_step, call_init] at hfin
  simp only [rfs_unlink, hf, bind, Except.bind, hr1, precall_zero, postcall_zero, hfl,
    chain_get_inodes, chain_get_ext, hin, hk, hold, hex, hch, ← hfin]
  rw [rinode_put_after_get _ rid r r1 (by simp [hr1]) hr1e hc]
  simp only [hd, pure, Except.pure]
  rw [if_neg (by simp)]
  refine congrArg (fun x => Except.ok (fin.args.retv, x)) ?_
  apply World.eq_of_fields
  case h4 => simp [hw1, hw.2]
  case h7 =>
    show cnt_dec (cnt_inc w1.chain_cnt r.ri_chain) r.ri_chain = w.chain_cnt
    rw [cnt_dec_inc, hw1]
    rfl
  all_goals simp [hw1]

theorem rfs_rmdir_wrapped {E : Type} (env : Env E) (w : World E) (dir dentry : Nat)
    (rid : Nat) (r : rinode) (fin : Call E) (hw : wrapped w dir rid r)
    (hk : S_ISDIR (w.inodes dir).i_mode = true)
    (hfin : fin = run_protocol env (chain_list w r.ri_chain)
      (orig_step env (old_iop r (·.rmdir)) (fun a => [a.dir, a.dentry]) (fun s => (-EPERM, s.ext)))
      (call_init env w .RFS_DIR_IOP_RMDIR { dir := dir, dentry := dentry }))
    (hd : fin.cont.data_list = []) :
    rfs_rmdir env w dir dentry = .ok (fin.args.retv, { w with ext := fin.ext }) := by
  obtain ⟨w1, r1, hf, hr1, hr1e, hc, hw1⟩ := wrapped_facts w dir rid r hw
  have hfl : ∀ c, chain_list (chain_get w1 c) = chain_list w := by
    intro c; funext c2; apply chain_list_congr; simp [hw1]
  have hch : r1.ri_chain = r.ri_chain := by rw [hr1e]
  have hold : old_iop r1 (·.rmdir) = old_iop r (·.rmdir) := by rw [hr1e]; rfl
  have hex : w1.ext = w.ext := by rw [hw1]; rfl
  have hin : w1.inodes = w.inodes := by rw [hw1]; rfl
  simp only [run_protocol, orig_step, call_init] at hfin
  simp only [rfs_rmdir, hf, bind, Except.bind, hr1, precall_zero, postcall_zero, hfl,
    chain_get_inodes, chain_get_ext, hin, hk, hold, hex, hch, ← hfin]
  rw [rinode_put_after_get _ rid r r1 (by simp [hr1]) hr1e hc]
  simp only [hd, pure, Except.pure]
  rw [if_neg (by simp)]
  refine congrArg (fun x => Except.ok (fin.args.retv, x)) ?_
  apply World.eq_of_fields
  case h4 => simp [hw1, hw.2]
  case h7 =>
    show cnt_dec (cnt_inc w1.chain_cnt r.ri_chain) r.ri_chain = w.chain_cnt
    rw [cnt_dec_inc, hw1]
    rfl
  all_goals simp [hw1]

theorem rfs_permission_wrapped {E : Type} (env : Env E) (w : World E) (i : Nat) (mask nd : Int)
    (rid : Nat) (r : rinode) (fin : Call E) (hw : wrapped w i rid r)
    (hfin : fin = run_protocol env (chain_list w r.ri_chain)
      (orig_step env (old_iop r (·.permission)) (fun a => [a.ino, a.mask, a.nd]) (fun s => env.generic_permission s.args.args.ino (submask s.args.args.mask) s.ext))
      (call_init env w (permission_id (w.inodes i).i_mode) { ino := i, mask := mask, nd := nd }))
    (hd : fin.cont.data_list = []) :
    rfs_permission env w i mask nd = .ok (fin.args.retv, { w with ext := fin.ext }) := by
  obtain ⟨w1, r1, hf, hr1, hr1e, hc, hw1⟩ := wrapped_facts w i rid r hw
  have hfl : ∀ c, chain_list (chain_get w1 c) = chain_list w := by
    intro c; funext c2; apply chain_list_congr; simp [hw1]
  have hch : r1.ri_chain = r.ri_chain := by rw [hr1e]
  have hold : old_iop r1 (·.permission) = old_iop r (·.permission) := by rw [hr1e]; rfl
  have hex : w1.ext = w.ext := by rw [hw1]; rfl
  have hin : w1.inodes = w.inodes := by rw [hw1]; rfl
  simp only [run_protocol, orig_step, call_init] at hfin
  simp only [rfs_permission, hf, bind, Except.bind, hr1, precall_zero, postcall_zero, hfl,
    chain_get_inodes, chain_get_ext, hin, hold, hex, hch, ← hfin]
  rw [rinode_put_after_get _ rid r r1 (by simp [hr1]) hr1e hc]
  simp only [hd, pure, Except.pure]
  rw [if_neg (by simp)]
  refine congrArg (fun x => Except.ok (fin.args.retv, x)) ?_
  apply World.eq_of_fields
  case h4 => simp [hw1, hw.2]
  case h7 =>
    show cnt_dec (cnt_inc w1.chain_cnt r.ri_chain) r.ri_chain = w.chain_cnt
    rw [cnt_dec_inc, hw1]
    rfl
  all_goals simp [hw1]

theorem rfs_setattr_wrapped {E : Type} (env : Env E) (w : World E) (dentry : Nat) (iattr : Int) (i : Nat)
    (rid : Nat) (r : rinode) (fin : Call E) (hi : w.d_inode dentry = some i) (hw : wrapped w i rid r)
    (hfin : fin = run_protocol env (chain_list w r.ri_chain)
      (orig_step env (old_iop r (·.setattr)) (fun a => [a.dentry, a.iattr]) (fun s => (0, s.ext)))
      (call_init env w (setattr_id (w.inodes i).i_mode) { dentry := dentry, iattr := iattr }))
    (hd : fin.cont.data_list = []) :
    rfs_setattr env w dentry iattr = .ok (fin.args.retv, { w with ext := fin.ext }) := by
  obtain ⟨w1, r1, hf, hr1, hr1e, hc, hw1⟩ := wrapped_facts w i rid r hw
  have hfl : ∀ c, chain_list (chain_get w1 c) = chain_list w := by
    intro c; funext c2; apply chain_list_congr; simp [hw1]
  have hch : r1.ri_chain = r.ri_chain := by rw [hr1e]
  have hold : old_iop r1 (·.setattr) = old_iop r (·.setattr) := by rw [hr1e]; rfl
  have hex : w1.ext = w.ext := by rw [hw1]; rfl
  have hin : w1.inodes = w.inodes := by rw [hw1]; rfl
  simp only [run_protocol, orig_step, call_init] at hfin
  simp only [rfs_setattr, hi, hf, bind, Except.bind, hr1, precall_zero, postcall_zero, hfl,
    chain_get_inodes, chain_get_ext, hin, hold, hex, hch, ← hfin]
  rw [rinode_put_after_get _ rid r r1 (by simp [hr1]) hr1e hc]
  simp only [hd, pure, Except.pure]
  rw [if_neg (by simp)]
  refine congrArg (fun x => Except.ok (fin.args.retv, x)) ?_
  apply World.eq_of_fields
  case h4 => simp [hw1, hw.2]
  case h7 =>
    show cnt_dec (cnt_inc w1.chain_cnt r.ri_chain) r.ri_chain = w.chain_cnt
    rw [cnt_dec_inc, hw1]
    rfl
  all_goals simp [hw1]

theorem rfs_readpage_call_wrapped {E : Type} (env : Env E) (w : World E) (flt : Option Nat) (file : Int) (page : Nat) (i : Nat)
    (rid : Nat) (r : rinode) (idx : Int) (fin : Call E) (hi : w.page_host page = some i) (hw : wrapped w i rid r)
    (hk : S_ISREG (w.inodes i).i_mode = true)
    (hidx : idx_start_of w r.ri_chain flt = .ok idx)
    (hfin : fin = run_protocol env ((chain_list w r.ri_chain).drop idx.toNat)
      (orig_step env (old_aop r (·.readpage)) (fun a => [a.file, a.page]) (fun s => (-EINVAL, s.ext)))
      (call_init env w .RFS_REG_AOP_READPAGE { file := file, page := page }))
    (hd : fin.cont.data_list = []) :
    rfs_readpage_call env w flt file page = .ok (fin.args.retv, { w with ext := fin.ext }) := by
  obtain ⟨w1, r1, hf, hr1, hr1e, hc, hw1⟩ := wrapped_facts w i rid r hw
  have hfl : ∀ c, chain_list (chain_get w1 c) = chain_list w := by
    intro c; funext c2; apply chain_list_congr; simp [hw1]
  have hix : ∀ c f, idx_start_of (chain_get w1 c) r.ri_chain f = idx_start_of w r.ri_chain f := by
    intro c f; apply idx_start_of_congr; simp [hw1]
  have hch : r1.ri_chain = r.ri_chain := by rw [hr1e]
  have hold : old_aop r1 (·.readpage) = old_aop r (·.readpage) := by rw [hr1e]; rfl
  have hex : w1.ext = w.ext := by rw [hw1]; rfl
  have hin : w1.inodes = w.inodes := by rw [hw1]; rfl
  simp only [run_protocol, orig_step, call_init] at hfin
  simp only [rfs_readpage_call, hi, hf, bind, Except.bind, hr1, precall_idx, postcall_idx, hix, hidx, hfl,
    chain_get_inodes, chain_get_ext, hin, hk, hold, hex, hch, ← hfin]
  rw [rinode_put_after_get _ rid r r1 (by simp [hr1]) hr1e hc]
  simp only [hd, pure, Except.pure]
  rw [if_neg (by simp)]
  refine congrArg (fun x => Except.ok (fin.args.retv, x)) ?_
  apply World.eq_of_fields
  case h4 => simp [hw1, hw.2]
  case h7 =>
    show cnt_dec (cnt_inc w1.chain_cnt r.ri_chain) r.ri_chain = w.chain_cnt
    rw [cnt_dec_inc, hw1]
    rfl
  all_goals simp [hw1]

theorem rfs_writepage_call_wrapped {E : Type} (env : Env E) (w : World E) (flt : Option Nat) (page : Nat) (wbc : Int) (i : Nat)
    (rid : Nat) (r : rinode) (idx : Int) (fin : Call E) (hi : w.page_host page = some i) (hw : wrapped w i rid r)
    (hk : S_ISREG (w.inodes i).i_mode = true)
    (hidx : idx_start_of w r.ri_chain flt = .ok idx)
    (hfin : fin = run_protocol env ((chain_list w r.ri_chain).drop idx.toNat)
      (orig_step env (old_aop r (·.writepage)) (fun a => [a.page, a.wbc]) (fun s => (-EINVAL, s.ext)))
      (call_init env w .RFS_REG_AOP_WRITEPAGE { page := page, wbc := wbc }))
    (hd : fin.cont.data_list = []) :
    rfs_writepage_call env w flt page wbc = .ok (fin.args.retv, { w with ext := fin.ext }) := by
  obtain ⟨w1, r1, hf, hr1, hr1e, hc, hw1⟩ := wrapped_facts w i rid r hw
  have hfl : ∀ c, chain_list (chain_get w1 c) = chain_list w := by
    intro c; funext c2; apply chain_list_congr; simp [hw1]
  have hix : ∀ c f, idx_start_of (chain_get w1 c) r.ri_chain f = idx_start_of w r.ri_chain f := by
    intro c f; apply idx_start_of_congr; simp [hw1]
  have hch : r1.ri_chain = r.ri_chain := by rw [hr1e]
  have hold : old_aop r1 (·.writepage) = old_aop r (·.writepage) := by rw [hr1e]; rfl
  have hex : w1.ext = w.ext := by rw [hw1]; rfl
  have hin : w1.inodes = w.inodes := by rw [hw1]; rfl
  simp only [run_protocol, orig_step, call_init] at hfin
  simp only [rfs_writepage_call, hi, hf, bind, Except.bind, hr1, precall_idx, postcall_idx, hix, hidx, hfl,
    chain_get_inodes, chain_get_ext, hin, hk, hold, hex, hch, ← hfin]
  rw [rinode_put_after_get _ rid r r1 (by simp [hr1]) hr1e hc]
  simp only [hd, pure, Except.pure]
  rw [if_neg (by simp)]
  refine congrArg (fun x => Except.ok (fin.args.retv, x)) ?_
  apply World.eq_of_fields
  case h4 => simp [hw1, hw.2]
  case h7 =>
    show cnt_dec (cnt_inc w1.chain_cnt r.ri_chain) r.ri_chain = w.chain_cnt
    rw [cnt_dec_inc, hw1]
    rfl
  all_goals simp [hw1]

theorem except_tail_eq {α β : Type} (x : Except Fault α) (g : α → Except Fault β) (rv : Int) :
    (x.bind fun v => (g v).bind fun v => Except.ok (rv, v)) =
      Except.map (fun w' => (rv, w')) (x.bind g) := by
  cases x with
  | error f => rfl
  | ok v =>
    show ((g v).bind fun v => Except.ok (rv, v)) = Except.map (fun w' => (rv, w')) (g v)
    cases g v with
    | error f => rfl
    | ok w4 => rfl

theorem except_bind_ok {α β : Type} (a : α) (g : α → Except Fault β) :
    (Except.ok a : Except Fault α).bind g = g a := rfl


theorem ite_ok {α : Type} (c : Prop) [Decidable c] (a b : α) :
    (if c then (Except.ok a : Except Fault α) else Except.ok b) = Except.ok (if c then a else b) := by
  split <;> rfl

theorem rfs_snapshot_facts {E : Type} (w w1 : World E) (pid : Nat) (p r1 : rinode) (e : E)
    (hr1e : r1 = { p with ri_count := p.ri_count + 1 }) (hw1 : w1 = w.set_rinode pid (some r1)) :
    (∀ q, chain_list (rfs_snapshot w1 q) = chain_list w) ∧
    (rfs_snapshot w1 r1).ext = w.ext ∧ (rfs_snapshot w1 r1).inodes = w.inodes ∧
    propagate_start w pid p e = { rfs_snapshot w1 r1 with ext := e } := by
  refine ⟨?_, ?_, ?_, ?_⟩
  · intro c; funext c2; apply chain_list_congr; simp [hw1, rfs_snapshot]
  · rw [hw1]; simp [rfs_snapshot]
  · rw [hw1]; simp [rfs_snapshot]
  · rw [hw1, hr1e]; rfl

theorem rfs_mkdir_wrapped {E : Type} (env : Env E) (w : World E) (dir dentry : Nat) (mode : Int)
    (pid : Nat) (p : rinode) (fin : Call E) (hw : wrapped w dir pid p)
    (hk : S_ISDIR (w.inodes dir).i_mode = true)
    (hfin : fin = run_protocol env (chain_list w p.ri_chain)
      (orig_step env (old_iop p (·.mkdir)) (fun a => [a.dir, a.dentry, a.mode]) (fun s => (-EPERM, s.ext)))
      (call_init env w .RFS_DIR_IOP_MKDIR { dir := dir, dentry := dentry, mode := mode }))
    (hd : fin.cont.data_list = []) :
    rfs_mkdir env w dir dentry mode =
      (rfs_tail env (propagate_start w pid p fin.ext) dentry pid p).map
        (fun w' => (fin.args.retv, w')) := by
  obtain ⟨w1, r1, hf, hr1, hr1e, hc, hw1⟩ := wrapped_facts w dir pid p hw
  obtain ⟨hfl, hex, hin, hst⟩ := rfs_snapshot_facts w w1 pid p r1 fin.ext hr1e hw1
  have hch : r1.ri_chain = p.ri_chain := by rw [hr1e]
  have hps : r1.ri_path_set = p.ri_path_set := by rw [hr1e]
  have hcs : r1.ri_chain_set = p.ri_chain_set := by rw [hr1e]
  have hos : r1.ri_ops_set = p.ri_ops_set := by rw [hr1e]
  have hpa : r1.ri_path = p.ri_path := by rw [hr1e]
  have hold : ∀ f, old_iop r1 f = old_iop p f := by intro f; rw [hr1e]; rfl
  have hk2 : S_ISDIR ((rfs_snapshot w1 r1).inodes dir).i_mode = true := by rw [hin]; exact hk
  simp only [run_protocol, orig_step, call_init] at hfin
  rw [hst]
  simp only [rfs_mkdir, hf, bind, except_bind_ok, hr1, precall_zero, postcall_zero, hfl,
    hk2, hold, hex, hch, hps, hcs, hos, hpa, ← hfin, rfs_tail]
  rw [if_neg (by simp)]
  simp only [pure, Except.pure, hd, ne_eq, not_true_eq_false, if_false, except_bind_ok]
  exact except_tail_eq _ _ _

theorem rfs_create_wrapped {E : Type} (env : Env E) (w : World E) (dir dentry : Nat) (mode nd : Int)
    (pid : Nat) (p : rinode) (fin : Call E) (hw : wrapped w dir pid p)
    (hk : S_ISDIR (w.inodes dir).i_mode = true)
    (hfin : fin = run_protocol env (chain_list w p.ri_chain)
      (orig_step env (old_iop p (·.create)) (fun a => [a.dir, a.dentry, a.mode, a.nd]) (fun s => (-EACCES, s.ext)))
      (call_init env w .RFS_DIR_IOP_CREATE { dir := dir, dentry := dentry, mode := mode, nd := nd }))
    (hd : fin.cont.data_list = []) :
    rfs_create env w dir dentry mode nd =
      (rfs_tail env (propagate_start w pid p fin.ext) dentry pid p).map
        (fun w' => (fin.args.retv, w')) := by
  obtain ⟨w1, r1, hf, hr1, hr1e, hc, hw1⟩ := wrapped_facts w dir pid p hw
  obtain ⟨hfl, hex, hin, hst⟩ := rfs_snapshot_facts w w1 pid p r1 fin.ext hr1e hw1
  have hch : r1.ri_chain = p.ri_chain := by rw [hr1e]
  have hps : r1.ri_path_set = p.ri_path_set := by rw [hr1e]
  have hcs : r1.ri_chain_set = p.ri_chain_set := by rw [hr1e]
  have hos : r1.ri_ops_set = p.ri_ops_set := by rw [hr1e]
  have hpa : r1.ri_path = p.ri_path := by rw [hr1e]
  have hold : ∀ f, old_iop r1 f = old_iop p f := by intro f; rw [hr1e]; rfl
  have hk2 : S_ISDIR ((rfs_snapshot w1 r1).inodes dir).i_mode = true := by rw [hin]; exact hk
  simp only [run_protocol, orig_step, call_init] at hfin
  rw [hst]
  simp only [rfs_create, hf, bind, except_bind_ok, hr1, precall_zero, postcall_zero, hfl,
    hk2, hold, hex, hch, hps, hcs, hos, hpa, ← hfin, rfs_tail]
  rw [if_neg (by simp)]
  simp only [pure, Except.pure, hd, ne_eq, not_true_eq_false, if_false, except_bind_ok]
  exact except_tail_eq _ _ _

theorem rfs_link_wrapped {E : Type} (env : Env E) (w : World E) (old_dentry : Int) (dir dentry : Nat)
    (pid : Nat) (p : rinode) (fin : Call E) (hw : wrapped w dir pid p)
    (hk : S_ISDIR (w.inodes dir).i_mode = true)
    (hfin : fin = run_protocol env (chain_list w p.ri_chain)
      (orig_step env (old_iop p (·.link)) (fun a => [a.old_dentry, a.dir, a.dentry]) (fun s => (-EPERM, s.ext)))
      (call_init env w .RFS_DIR_IOP_LINK { old_dentry := old_dentry, dir := dir, dentry := dentry }))
    (hd : fin.cont.data_list = []) :
    rfs_link env w old_dentry dir dentry =
      (rfs_tail env (propagate_start w pid p fin.ext) dentry pid p).map
        (fun w' => (fin.args.retv, w')) := by
  obtain ⟨w1, r1, hf, hr1, hr1e, hc, hw1⟩ := wrapped_facts w dir pid p hw
  obtain ⟨hfl, hex, hin, hst⟩ := rfs_snapshot_facts w w1 pid p r1 fin.ext hr1e hw1
  have hch : r1.ri_chain = p.ri_chain := by rw [hr1e]
  have hps : r1.ri_path_set = p.ri_path_set := by rw [hr1e]
  have hcs : r1.ri_chain_set = p.ri_chain_set := by rw [hr1e]
  have hos : r1.ri_ops_set = p.ri_ops_set := by rw [hr1e]
  have hpa : r1.ri_path = p.ri_path := by rw [hr1e]
  have hold : ∀ f, old_iop r1 f = old_iop p f := by intro f; rw [hr1e]; rfl
  have hk2 : S_ISDIR ((rfs_snapshot w1 r1).inodes dir).i_mode = true := by rw [hin]; exact hk
  simp only [run_protocol, orig_step, call_init] at hfin
  rw [hst]
  simp only [rfs_link, hf, bind, except_bind_ok, hr1, precall_zero, postcall_zero, hfl,
    hk2, hold, hex, hch, hps, hcs, hos, hpa, ← hfin, rfs_tail]
  rw [if_neg (by simp)]
  simp only [pure, Except.pure, hd, ne_eq, not_true_eq_false, if_false, except_bind_ok]
  exact except_tail_eq _ _ _

theorem rfs_symlink_wrapped {E : Type} (env : Env E) (w : World E) (dir dentry : Nat) (oldname : Int)
    (pid : Nat) (p : rinode) (fin : Call E) (hw : wrapped w dir pid p)
    (hk : S_ISDIR (w.inodes dir).i_mode = true)
    (hls : (old_iop p (·.link)).isSome = true → (old_iop p (·.symlink)).isSome = true)
    (hfin : fin = run_protocol env (chain_list w p.ri_chain)
      (orig_step env ((old_iop p (·.link)).bind fun _ => old_iop p (·.symlink))
        (fun a => [a.dir, a.dentry, a.oldname]) (fun s => (-EPERM, s.ext)))
      (call_init env w .RFS_DIR_IOP_SYMLINK { dir := dir, dentry := dentry, oldname := oldname }))
    (hd : fin.cont.data_list = []) :
    rfs_symlink env w dir dentry oldname =
      (rfs_tail env (propagate_start w pid p fin.ext) dentry pid p).map
        (fun w' => (fin.args.retv, w')) := by
  obtain ⟨w1, r1, hf, hr1, hr1e, hc, hw1⟩ := wrapped_facts w dir pid p hw
  obtain ⟨hfl, hex, hin, hst⟩ := rfs_snapshot_facts w w1 pid p r1 fin.ext hr1e hw1
  have hch : r1.ri_chain = p.ri_chain := by rw [hr1e]
  have hps : r1.ri_path_set = p.ri_path_set := by rw [hr1e]
  have hcs : r1.ri_chain_set = p.ri_chain_set := by rw [hr1e]
  have hos : r1.ri_ops_set = p.ri_ops_set := by rw [hr1e]
  have hpa : r1.ri_path = p.ri_path := by rw [hr1e]
  have hold : ∀ f, old_iop r1 f = old_iop p f := by intro f; rw [hr1e]; rfl
  have hk2 : S_ISDIR ((rfs_snapshot w1 r1).inodes dir).i_mode = true := by rw [hin]; exact hk
  simp only [run_protocol, orig_step, call_init] at hfin
  rw [hst]
  simp only [rfs_symlink, hf, bind, except_bind_ok, hr1, precall_zero, postcall_zero, hfl,
    hk2, hold, hex, hch, hps, hcs, hos, hpa, rfs_tail]
  rw [if_neg (by simp)]
  cases hl : old_iop p (·.link) <;> cases hs : old_iop p (·.symlink) <;>
    simp only [hl, hs, Option.isSome_none, Option.isSome_some, Bool.false_eq_true,
      Bool.true_eq_false, Option.bind, forall_const, imp_false,
      not_true_eq_false] at hls hfin
  all_goals
    generalize precall_list env (chain_list w p.ri_chain) _ = pre at hfin ⊢
    obtain ⟨b, s⟩ := pre
    cases b <;>
      simp only [Bool.not_false, Bool.not_true, if_true, Bool.false_eq_true, if_false] at hfin ⊢ <;>
      simp only [pure, Except.pure, except_bind_ok, ← hfin, hd, ne_eq, not_true_eq_false,
        if_false] <;>
      exact except_tail_eq _ _ _

theorem rfs_lookup_wrapped {E : Type} (env : Env E) (w : World E) (dir dentry : Nat) (nd : Int)
    (pid : Nat) (p : rinode) (fin : Call E) (hw : wrapped w dir pid p)
    (hk : S_ISDIR (w.inodes dir).i_mode = true)
    (hfin : fin = run_protocol env (chain_list w p.ri_chain)
      (orig_step env (old_iop p (·.lookup)) (fun a => [a.dir, a.dentry, a.nd]) (fun s => (-ENOSYS, s.ext)))
      (call_init env w .RFS_DIR_IOP_LOOKUP { dir := dir, dentry := dentry, nd := nd }))
    (hd : fin.cont.data_list = []) :
    rfs_lookup env w dir dentry nd =
      (rfs_tail env (propagate_start w pid p fin.ext) dentry pid p).map
        (fun w' => (fin.args.retv, w')) := by
  obtain ⟨w1, r1, hf, hr1, hr1e, hc, hw1⟩ := wrapped_facts w dir pid p hw
  obtain ⟨hfl, hex, hin, hst⟩ := rfs_snapshot_facts w w1 pid p r1 fin.ext hr1e hw1
  have hch : r1.ri_chain = p.ri_chain := by rw [hr1e]
  have hps : r1.ri_path_set = p.ri_path_set := by rw [hr1e]
  have hcs : r1.ri_chain_set = p.ri_chain_set := by rw [hr1e]
  have hos : r1.ri_ops_set = p.ri_ops_set := by rw [hr1e]
  have hpa : r1.ri_path = p.ri_path := by rw [hr1e]
  have hold : ∀ f, old_iop r1 f = old_iop p f := by intro f; rw [hr1e]; rfl
  have hk2 : S_ISDIR ((rfs_snapshot w1 r1).inodes dir).i_mode = true := by rw [hin]; exact hk
  simp only [run_protocol, orig_step, call_init] at hfin
  rw [hst]
  simp only [rfs_lookup, hf, bind, except_bind_ok, hr1, precall_zero, postcall_zero, hfl,
    hk2, hold, hex, hch, hps, hcs, hos, hpa, ← hfin, rfs_tail]
  rw [if_neg (by simp)]
  simp only [pure, Except.pure, hd, ne_eq, not_true_eq_false, if_false, except_bind_ok]
  exact except_tail_eq _ _ _

theorem rfs_mknod_wrapped {E : Type} (env : Env E) (w : World E) (dir dentry : Nat) (mode rdev : Int)
    (pid : Nat) (p : rinode) (fin : Call E) (hw : wrapped w dir pid p)
    (hk : S_ISDIR (w.inodes dir).i_mode = true)
    (hfin : fin = run_protocol env (chain_list w p.ri_chain)
      (orig_step env (old_iop p (·.mknod)) (fun a => [a.dir, a.dentry, a.mode, a.rdev]) (fun s => (-EPERM, s.ext)))
      (call_init env w .RFS_DIR_IOP_MKNOD { dir := dir, dentry := dentry, mode := mode, rdev := rdev }))
    (hd : fin.cont.data_list = []) :
    rfs_mknod env w dir dentry mode rdev =
      (rfs_tail env (propagate_start w pid p fin.ext) dentry pid p).map
        (fun w' => (fin.args.retv, w')) := by
  obtain ⟨w1, r1, hf, hr1, hr1e, hc, hw1⟩ := wrapped_facts w dir pid p hw
  obtain ⟨hfl, hex, hin, hst⟩ := rfs_snapshot_facts w w1 pid p r1 fin.ext hr1e hw1
  have hch : r1.ri_chain = p.ri_chain := by rw [hr1e]
  have hps : r1.ri_path_set = p.ri_path_set := by rw [hr1e]
  have hcs : r1.ri_chain_set = p.ri_chain_set := by rw [hr1e]
  have hos : r1.ri_ops_set = p.ri_ops_set := by rw [hr1e]
  have hpa : r1.ri_path = p.ri_path := by rw [hr1e]
  have hold : ∀ f, old_iop r1 f = old_iop p f := by intro f; rw [hr1e]; rfl
  have hk2 : S_ISDIR ((rfs_snapshot w1 r1).inodes dir).i_mode = true := by rw [hin]; exact hk
  simp only [run_protocol, orig_step, call_init] at hfin
  rw [hst]
  simp only [rfs_mknod, hf, bind, except_bind_ok, hr1, precall_zero, postcall_zero, hfl,
    hk2, hold, hex, hch, hps, hcs, hos, hpa, ← hfin, rfs_tail]
  rw [if_neg (by simp)]
  simp only [pure, Except.pure, hd, ne_eq, not_true_eq_false, if_false, except_bind_ok]
  exact except_tail_eq _ _ _

/-! ## C1: the two-phase protocol of the non-reentrant wrappers -/

theorem demo_wrapped_dir : wrapped demo_world 0 0 demo_rdir := ⟨⟨_, rfl⟩, rfl⟩

theorem demo_wrapped_reg : wrapped demo_world 1 1 demo_rreg := ⟨⟨_, rfl⟩, rfl⟩

/-- C3: when discovery finds no shadow for the object and the live operation table
of the object provides the operation, each wrapper returns exactly what that
implementation returns on the arguments of the caller, and the state afterwards
is the state before with nothing changed but the part outside the layer, which is
what that one call left: no filter runs, no shadow object and no reference count
changes. `rfs_readpage` and `rfs_readpage_subcall` are `rfs_readpage_call` with
no filter, respectively the calling filter; likewise for writepage. -/
theorem unwrapped_is_transparent {E : Type} (env : Env E) (w : World E) :
    (∀ (dir dentry : Nat) (t : inode_operations) (fn : Fn),
      rinode_find w dir = .ok (none, w) →
      w.live_iop dir = .ok (some t) → t.unlink = some fn →
      rfs_unlink env w dir dentry =
        .ok ((env.call fn [(dir : Int), (dentry : Int)] w.ext).1,
          { w with ext := (env.call fn [(dir : Int), (dentry : Int)] w.ext).2 })) ∧
    (∀ (dir dentry : Nat) (t : inode_operations) (fn : Fn),
      rinode_find w dir = .ok (none, w) →
      w.live_iop dir = .ok (some t) → t.rmdir = some fn →
      rfs_rmdir env w dir dentry =
        .ok ((env.call fn [(dir : Int), (dentry : Int)] w.ext).1,
          { w with ext := (env.call fn [(dir : Int), (dentry : Int)] w.ext).2 })) ∧
    (∀ (dir dentry : Nat) (mode : Int) (t : inode_operations) (fn : Fn),
      rinode_find w dir = .ok (none, w) →
      w.live_iop dir = .ok (some t) → t.mkdir = some fn →
      rfs_mkdir env w dir dentry mode =
        .ok ((env.call fn [(dir : Int), (dentry : Int), mode] w.ext).1,
          { w with ext := (env.call fn [(dir : Int), (dentry : Int), mode] w.ext).2 })) ∧
    (∀ (dir dentry : Nat) (mode nd : Int) (t : inode_operations) (fn : Fn),
      rinode_find w dir = .ok (none, w) →
      w.live_iop dir = .ok (some t) → t.create = some fn →
      rfs_create env w dir dentry mode nd =
        .ok ((env.call fn [(dir : Int), (dentry : Int), mode, nd] w.ext).1,
          { w with ext := (env.call fn [(dir : Int), (dentry : Int), mode, nd] w.ext).2 })) ∧
    (∀ (old_dentry : Int) (dir dentry : Nat) (t : inode_operations) (fn : Fn),
      rinode_find w dir = .ok (none, w) →
      w.live_iop dir = .ok (some t) → t.link = some fn →
      rfs_link env w old_dentry dir dentry =
        .ok ((env.call fn [old_dentry, (dir : Int), (dentry : Int)] w.ext).1,
          { w with ext := (env.call fn [old_dentry, (dir : Int), (dentry : Int)] w.ext).2 })) ∧
    (∀ (dir dentry : Nat) (oldname : Int) (t : inode_operations) (fn : Fn),
      rinode_find w dir = .ok (none, w) →
      w.live_iop dir = .ok (some t) → t.symlink = some fn →
      rfs_symlink env w dir dentry oldname =
        .ok ((env.call fn [(dir : Int), (dentry : Int), oldname] w.ext).1,
          { w with ext := (env.call fn [(dir : Int), (dentry : Int), oldname] w.ext).2 })) ∧
    (∀ (dir dentry : Nat) (nd : Int) (t : inode_operations) (fn : Fn),
      rinode_find w dir = .ok (none, w) →
      w.live_iop dir = .ok (some t) → t.lookup = some fn →
      rfs_lookup env w dir dentry nd =
        .ok ((env.call fn [(dir : Int), (dentry : Int), nd] w.ext).1,
          { w with ext := (env.call fn [(dir : Int), (dentry : Int), nd] w.ext).2 })) ∧
    (∀ (dir dentry : Nat) (mode rdev : Int) (t : inode_operations) (fn : Fn),
      rinode_find w dir = .ok (none, w) →
      w.live_iop dir = .ok (some t) → t.mknod = some fn →
      rfs_mknod env w dir dentry mode rdev =
        .ok ((env.call fn [(dir : Int), (dentry : Int), mode, rdev] w.ext).1,
          { w with ext := (env.call fn [(dir : Int), (dentry : Int), mode, rdev] w.ext).2 })) ∧
    (∀ (i : Nat) (mask nd : Int) (t : inode_operations) (fn : Fn),
      rinode_find w i = .ok (none, w) →
      w.live_iop i = .ok (some t) → t.permission = some fn →
      rfs_permission env w i mask nd =
        .ok ((env.call fn [(i : Int), mask, nd] w.ext).1,
          { w with ext := (env.call fn [(i : Int), mask, nd] w.ext).2 })) ∧
    (∀ (dentry : Nat) (iattr : Int) (i : Nat) (t : inode_operations) (fn : Fn),
      w.d_inode dentry = some i →
      rinode_find w i = .ok (none, w) →
      w.live_iop i = .ok (some t) → t.setattr = some fn →
      rfs_setattr env w dentry iattr =
        .ok ((env.call fn [(dentry : Int), iattr] w.ext).1,
          { w with ext := (env.call fn [(dentry : Int), iattr] w.ext).2 })) ∧
    (∀ (flt : Option Nat) (file : Int) (page : Nat) (i : Nat) (t : address_space_operations) (fn : Fn),
      w.page_host page = some i →
      rinode_find w i = .ok (none, w) →
      w.live_aop i = .ok (some t) → t.readpage = some fn →
      rfs_readpage_call env w flt file page =
        .ok ((env.call fn [file, (page : Int)] w.ext).1,
          { w with ext := (env.call fn [file, (page : Int)] w.ext).2 })) ∧
    (∀ (flt : Option Nat) (page : Nat) (wbc : Int) (i : Nat) (t : address_space_operations) (fn : Fn),
      w.page_host page = some i →
      rinode_find w i = .ok (none, w) →
      w.live_aop i = .ok (some t) → t.writepage = some fn →
      rfs_writepage_call env w flt page wbc =
        .ok ((env.call fn [(page : Int), wbc] w.ext).1,
          { w with ext := (env.call fn [(page : Int), wbc] w.ext).2 })) := by
  refine ⟨?_, ?_, ?_, ?_, ?_, ?_, ?_, ?_, ?_, ?_, ?_, ?_⟩
  · intro dir dentry t fn hf ht hs
    rw [rfs_unlink_unwrapped env w dir dentry (some t) hf ht]
    simp [hs]
  · intro dir dentry t fn hf ht hs
    rw [rfs_rmdir_unwrapped env w dir dentry (some t) hf ht]
    simp [hs]
  · intro dir dentry mode t fn hf ht hs
    rw [rfs_mkdir_unwrapped env w dir dentry mode (some t) hf ht]
    simp [hs]
  · intro dir dentry mode nd t fn hf ht hs
    rw [rfs_create_unwrapped env w dir dentry mode nd (some t) hf ht]
    simp [hs]
  · intro old_dentry dir dentry t fn hf ht hs
    rw [rfs_link_unwrapped env w old_dentry dir dentry (some t) hf ht]
    simp [hs]
  · intro dir dentry oldname t fn hf ht hs
    rw [rfs_symlink_unwrapped env w dir dentry oldname (some t) hf ht]
    simp [hs]
  · intro dir dentry nd t fn hf ht hs
    rw [rfs_lookup_unwrapped env w dir dentry nd (some t) hf ht]
    simp [hs]
  · intro dir dentry mode rdev t fn hf ht hs
    rw [rfs_mknod_unwrapped env w dir dentry mode rdev (some t) hf ht]
    simp [hs]
  · intro i mask nd t fn hf ht hs
    rw [rfs_permission_unwrapped env w i mask nd (some t) hf ht]
    simp [hs]
  · intro dentry iattr i t fn hi hf ht hs
    rw [rfs_setattr_unwrapped env w dentry iattr i (some t) hi hf ht]
    simp [hs]
  · intro flt file page i t fn hi hf ht hs
    rw [rfs_readpage_call_unwrapped env w flt file page i (some t) hi hf ht]
    simp [hs]
  · intro flt page wbc i t fn hi hf ht hs
    rw [rfs_writepage_call_unwrapped env w flt page wbc i (some t) hi hf ht]
    simp [hs]

/-- C3 on `demo_world`: the twelve wrappers on the unwrapped directory 4, whose
table provides every operation, and on the unwrapped regular file 5. -/
theorem unwrapped_is_transparent_witness :
    outcome (rfs_unlink demo_env demo_world 4 5) = some (3, [303]) ∧
    outcome (rfs_rmdir demo_env demo_world 4 5) = some (2, [302]) ∧
    outcome (rfs_mkdir demo_env demo_world 4 5 0) = some (6, [306]) ∧
    outcome (rfs_create demo_env demo_world 4 5 0 0) = some (1, [301]) ∧
    outcome (rfs_link demo_env demo_world 0 4 5) = some (4, [304]) ∧
    outcome (rfs_symlink demo_env demo_world 4 5 0) = some (7, [307]) ∧
    outcome (rfs_lookup demo_env demo_world 4 5 0) = some (5, [305]) ∧
    outcome (rfs_mknod demo_env demo_world 4 5 0 0) = some (8, [308]) ∧
    outcome (rfs_permission demo_env demo_world 4 7 0) = some (9, [309]) ∧
    outcome (rfs_setattr demo_env demo_world 9 0) = some (10, [310]) ∧
    outcome (rfs_readpage_call demo_env demo_world (some 2) 0 2) = some (11, [311]) ∧
    outcome (rfs_writepage_call demo_env demo_world none 2 0) = some (12, [312]) := by
  refine ⟨?_, ?_, ?_, ?_, ?_, ?_, ?_, ?_, ?_, ?_, ?_, ?_⟩
  · rw [(unwrapped_is_transparent demo_env demo_world).1 4 5 demo_full_iops (.native 3)
      rfl rfl rfl]
    decide
  · rw [(unwrapped_is_transparent demo_env demo_world).2.1 4 5 demo_full_iops (.native 2)
      rfl rfl rfl]
    decide
  · rw [(unwrapped_is_transparent demo_env demo_world).2.2.1 4 5 0 demo_full_iops (.native 6)
      rfl rfl rfl]
    decide
  · rw [(unwrapped_is_transparent demo_env demo_world).2.2.2.1 4 5 0 0 demo_full_iops (.native 1)
      rfl rfl rfl]
    decide
  · rw [(unwrapped_is_transparent demo_env demo_world).2.2.2.2.1 0 4 5 demo_full_iops (.native 4)
      rfl rfl rfl]
    decide
  · rw [(unwrapped_is_transparent demo_env demo_world).2.2.2.2.2.1 4 5 0 demo_full_iops (.native 7)
      rfl rfl rfl]
    decide
  · rw [(unwrapped_is_transparent demo_env demo_world).2.2.2.2.2.2.1 4 5 0 demo_full_iops (.native 5)
      rfl rfl rfl]
    decide
  · rw [(unwrapped_is_transparent demo_env demo_world).2.2.2.2.2.2.2.1 4 5 0 0 demo_full_iops (.native 8)
      rfl rfl rfl]
    decide
  · rw [(unwrapped_is_transparent demo_env demo_world).2.2.2.2.2.2.2.2.1 4 7 0 demo_full_iops (.native 9)
      rfl rfl rfl]
    decide
  · rw [(unwrapped_is_transparent demo_env demo_world).2.2.2.2.2.2.2.2.2.1 9 0 4 demo_full_iops (.native 10) rfl
      rfl rfl rfl]
    decide
  · rw [(unwrapped_is_transparent demo_env demo_world).2.2.2.2.2.2.2.2.2.2.1 (some 2) 0 2 5 demo_full_aops (.native 11) rfl
      rfl rfl rfl]
    decide
  · rw [(unwrapped_is_transparent demo_env demo_world).2.2.2.2.2.2.2.2.2.2.2 none 2 0 5 demo_full_aops (.native 12) rfl
      rfl rfl rfl]
    decide

/-- C4, refuted as stated: `rfs_create` on the unwrapped directory 2 of
`demo_world`, whose live table has no `create`, returns -EACCES, which is not
-EPERM. -/
theorem create_unwrapped_returns_eacces :
    (rinode_find demo_world 2).toOption.map Prod.fst = some none ∧
    (demo_world.live_iop 2).toOption = some (some {}) ∧
    outcome (rfs_create demo_env demo_world 2 5 0 0) = some (-EACCES, []) ∧
    -EACCES ≠ -EPERM := by
  decide

/-- C4, amended: when no shadow is found for the directory and its live operation
table lacks the operation, `rfs_create` returns -EACCES and the other six wrappers
of structural mutations return -EPERM; the state is unchanged. -/
theorem unwrapped_default_mutation {E : Type} (env : Env E) (w : World E) :
    (∀ (dir dentry : Nat) (mode nd : Int),
      rinode_find w dir = .ok (none, w) →
      (∀ t, w.live_iop dir = .ok (some t) → t.create = none) →
      rfs_create env w dir dentry mode nd = .ok (-EACCES, w)) ∧
    (∀ (dir dentry : Nat) (mode : Int),
      rinode_find w dir = .ok (none, w) →
      (∀ t, w.live_iop dir = .ok (some t) → t.mkdir = none) →
      rfs_mkdir env w dir dentry mode = .ok (-EPERM, w)) ∧
    (∀ (dir dentry : Nat) (mode rdev : Int),
      rinode_find w dir = .ok (none, w) →
      (∀ t, w.live_iop dir = .ok (some t) → t.mknod = none) →
      rfs_mknod env w dir dentry mode rdev = .ok (-EPERM, w)) ∧
    (∀ (dir dentry : Nat) (oldname : Int),
      rinode_find w dir = .ok (none, w) →
      (∀ t, w.live_iop dir = .ok (some t) → t.symlink = none) →
      rfs_symlink env w dir dentry oldname = .ok (-EPERM, w)) ∧
    (∀ (old_dentry : Int) (dir dentry : Nat),
      rinode_find w dir = .ok (none, w) →
      (∀ t, w.live_iop dir = .ok (some t) → t.link = none) →
      rfs_link env w old_dentry dir dentry = .ok (-EPERM, w)) ∧
    (∀ (dir dentry : Nat),
      rinode_find w dir = .ok (none, w) →
      (∀ t, w.live_iop dir = .ok (some t) → t.unlink = none) →
      rfs_unlink env w dir dentry = .ok (-EPERM, w)) ∧
    (∀ (dir dentry : Nat),
      rinode_find w dir = .ok (none, w) →
      (∀ t, w.live_iop dir = .ok (some t) → t.rmdir = none) →
      rfs_rmdir env w dir dentry = .ok (-EPERM, w)) := by
  refine ⟨?_, ?_, ?_, ?_, ?_, ?_, ?_⟩
  · intro dir dentry mode nd hf hl
    obtain ⟨_, t, ht⟩ := rinode_find_none w w dir hf
    rw [rfs_create_unwrapped env w dir dentry mode nd t hf ht]
    cases t with
    | none => rfl
    | some t => simp [hl t ht]
  · intro dir dentry mode hf hl
    obtain ⟨_, t, ht⟩ := rinode_find_none w w dir hf
    rw [rfs_mkdir_unwrapped env w dir dentry mode t hf ht]
    cases t with
    | none => rfl
    | some t => simp [hl t ht]
  · intro dir dentry mode rdev hf hl
    obtain ⟨_, t, ht⟩ := rinode_find_none w w dir hf
    rw [rfs_mknod_unwrapped env w dir dentry mode rdev t hf ht]
    cases t with
    | none => rfl
    | some t => simp [hl t ht]
  · intro dir dentry oldname hf hl
    obtain ⟨_, t, ht⟩ := rinode_find_none w w dir hf
    rw [rfs_symlink_unwrapped env w dir dentry oldname t hf ht]
    cases t with
    | none => rfl
    | some t => simp [hl t ht]
  · intro old_dentry dir dentry hf hl
    obtain ⟨_, t, ht⟩ := rinode_find_none w w dir hf
    rw [rfs_link_unwrapped env w old_dentry dir dentry t hf ht]
    cases t with
    | none => rfl
    | some t => simp [hl t ht]
  · intro dir dentry hf hl
    obtain ⟨_, t, ht⟩ := rinode_find_none w w dir hf
    rw [rfs_unlink_unwrapped env w dir dentry t hf ht]
    cases t with
    | none => rfl
    | some t => simp [hl t ht]
  · intro dir dentry hf hl
    obtain ⟨_, t, ht⟩ := rinode_find_none w w dir hf
    rw [rfs_rmdir_unwrapped env w dir dentry t hf ht]
    cases t with
    | none => rfl
    | some t => simp [hl t ht]

/-- The amended C4 on the unwrapped directory 2 of `demo_world`, whose live table
is empty. -/
theorem unwrapped_default_mutation_witness :
    outcome (rfs_create demo_env demo_world 2 5 0 0) = some (-13, []) ∧
    outcome (rfs_mkdir demo_env demo_world 2 5 0) = some (-1, []) ∧
    outcome (rfs_mknod demo_env demo_world 2 5 0 0) = some (-1, []) ∧
    outcome (rfs_symlink demo_env demo_world 2 5 0) = some (-1, []) ∧
    outcome (rfs_link demo_env demo_world 0 2 5) = some (-1, []) ∧
    outcome (rfs_unlink demo_env demo_world 2 5) = some (-1, []) ∧
    outcome (rfs_rmdir demo_env demo_world 2 5) = some (-1, []) := by
  refine ⟨?_, ?_, ?_, ?_, ?_, ?_, ?_⟩
  · rw [(unwrapped_default_mutation demo_env demo_world).1 2 5 0 0 rfl
      (by intro t ht; cases ht; rfl)]
    decide
  · rw [(unwrapped_default_mutation demo_env demo_world).2.1 2 5 0 rfl
      (by intro t ht; cases ht; rfl)]
    decide
  · rw [(unwrapped_default_mutation demo_env demo_world).2.2.1 2 5 0 0 rfl
      (by intro t ht; cases ht; rfl)]
    decide
  · rw [(unwrapped_default_mutation demo_env demo_world).2.2.2.1 2 5 0 rfl
      (by intro t ht; cases ht; rfl)]
    decide
  · rw [(unwrapped_default_mutation demo_env demo_world).2.2.2.2.1 0 2 5 rfl
      (by intro t ht; cases ht; rfl)]
    decide
  · rw [(unwrapped_default_mutation demo_env demo_world).2.2.2.2.2.1 2 5 rfl
      (by intro t ht; cases ht; rfl)]
    decide
  · rw [(unwrapped_default_mutation demo_env demo_world).2.2.2.2.2.2 2 5 rfl
      (by intro t ht; cases ht; rfl)]
    decide

/-- C5, refuted as stated: `rfs_readpage` on page 1 of `demo_world`, whose node 3
has no shadow and a page-cache table without `readpage`, returns -EINVAL, the
"invalid argument" error, which is neither -EOPNOTSUPP ("operation not supported")
nor -ENOSYS ("function not implemented"). -/
theorem readpage_unwrapped_returns_einval :
    (rinode_find demo_world 3).toOption.map Prod.fst = some none ∧
    (demo_world.live_aop 3).toOption = some (some {}) ∧
    outcome (rfs_readpage demo_env demo_world 0 1) = some (-EINVAL, []) ∧
    -EINVAL ≠ -EOPNOTSUPP ∧ -EINVAL ≠ -ENOSYS := by
  decide

/-- C5, amended: the default of the paged wrappers is -EINVAL. When no shadow is
found and the live page-cache table lacks the operation, `rfs_readpage_call` and
`rfs_writepage_call` return -EINVAL and leave the state unchanged; when the node
is wrapped, PRE (from the start index on) does not ask to skip and the saved
page-cache table lacks the operation, -EINVAL is what is stored in the return slot
before POST, and the wrapper returns the slot as POST leaves it. The entry points
`rfs_readpage`, `rfs_writepage` and the two subcalls are these functions with no
filter, respectively the calling filter. -/
theorem paged_default_is_einval {E : Type} (env : Env E) (w : World E) :
    (∀ (flt : Option Nat) (file : Int) (page : Nat) (i : Nat),
      w.page_host page = some i →
      rinode_find w i = .ok (none, w) →
      (∀ t, w.live_aop i = .ok (some t) → t.readpage = none) →
      (∃ t, w.live_aop i = .ok t) →
      rfs_readpage_call env w flt file page = .ok (-EINVAL, w)) ∧
    (∀ (flt : Option Nat) (page : Nat) (wbc : Int) (i : Nat),
      w.page_host page = some i →
      rinode_find w i = .ok (none, w) →
      (∀ t, w.live_aop i = .ok (some t) → t.writepage = none) →
      (∃ t, w.live_aop i = .ok t) →
      rfs_writepage_call env w flt page wbc = .ok (-EINVAL, w)) ∧
    (∀ (flt : Option Nat) (file : Int) (page : Nat) (i rid : Nat) (r : rinode) (idx : Int) (fin : Call E),
      w.page_host page = some i →
      wrapped w i rid r →
      S_ISREG (w.inodes i).i_mode = true →
      idx_start_of w r.ri_chain flt = .ok idx →
      r.ri_aop_old.bind (·.readpage) = none →
      (precall_list env ((chain_list w r.ri_chain).drop idx.toNat)
        (call_init env w .RFS_REG_AOP_READPAGE { file := file, page := page })).1 = false →
      fin = postcall_list env ((chain_list w r.ri_chain).drop idx.toNat)
        ((precall_list env ((chain_list w r.ri_chain).drop idx.toNat)
          (call_init env w .RFS_REG_AOP_READPAGE { file := file, page := page })).2.ret
          (-EINVAL, (precall_list env ((chain_list w r.ri_chain).drop idx.toNat)
            (call_init env w .RFS_REG_AOP_READPAGE { file := file, page := page })).2.ext)) →
      fin.cont.data_list = [] →
      rfs_readpage_call env w flt file page = .ok (fin.args.retv, { w with ext := fin.ext })) ∧
    (∀ (flt : Option Nat) (page : Nat) (wbc : Int) (i rid : Nat) (r : rinode) (idx : Int) (fin : Call E),
      w.page_host page = some i →
      wrapped w i rid r →
      S_ISREG (w.inodes i).i_mode = true →
      idx_start_of w r.ri_chain flt = .ok idx →
      r.ri_aop_old.bind (·.writepage) = none →
      (precall_list env ((chain_list w r.ri_chain).drop idx.toNat)
        (call_init env w .RFS_REG_AOP_WRITEPAGE { page := page, wbc := wbc })).1 = false →
      fin = postcall_list env ((chain_list w r.ri_chain).drop idx.toNat)
        ((precall_list env ((chain_list w r.ri_chain).drop idx.toNat)
          (call_init env w .RFS_REG_AOP_WRITEPAGE { page := page, wbc := wbc })).2.ret
          (-EINVAL, (precall_list env ((chain_list w r.ri_chain).drop idx.toNat)
            (call_init env w .RFS_REG_AOP_WRITEPAGE { page := page, wbc := wbc })).2.ext)) →
      fin.cont.data_list = [] →
      rfs_writepage_call env w flt page wbc = .ok (fin.args.retv, { w with ext := fin.ext })) := by
  refine ⟨?_, ?_, ?_, ?_⟩
  · intro flt file page i hi hf hl ht
    obtain ⟨t, ht⟩ := ht
    rw [rfs_readpage_call_unwrapped env w flt file page i t hi hf ht]
    cases t with
    | none => rfl
    | some t => simp [hl t ht]
  · intro flt page wbc i hi hf hl ht
    obtain ⟨t, ht⟩ := ht
    rw [rfs_writepage_call_unwrapped env w flt page wbc i t hi hf ht]
    cases t with
    | none => rfl
    | some t => simp [hl t ht]
  · intro flt file page i rid r idx fin hi hw hk hidx hs hpre hfin hd
    refine rfs_readpage_call_wrapped env w flt file page i rid r idx fin hi hw hk hidx ?_ hd
    rw [hfin, old_aop_eq, hs]
    simp [run_protocol, orig_step, hpre]
  · intro flt page wbc i rid r idx fin hi hw hk hidx hs hpre hfin hd
    refine rfs_writepage_call_wrapped env w flt page wbc i rid r idx fin hi hw hk hidx ?_ hd
    rw [hfin, old_aop_eq, hs]
    simp [run_protocol, orig_step, hpre]

/-- The amended C5 on `demo_world`: page 1 belongs to the unwrapped node 3 and
page 0 to the wrapped regular file 1, both without `readpage` and `writepage`;
the reentrant calls come from filter 2 of the chain [1, 2, 3]. -/
theorem paged_default_is_einval_witness :
    outcome (rfs_readpage_call demo_env demo_world (some 2) 0 1) = some (-22, []) ∧
    outcome (rfs_writepage_call demo_env demo_world none 1 0) = some (-22, []) ∧
    outcome (rfs_readpage_call demo_env demo_world (some 2) 0 0) = some (-22, [103, 203]) ∧
    outcome (rfs_writepage_call demo_env demo_world none 0 0)
      = some (-22, [101, 102, 103, 201, 202, 203]) := by
  refine ⟨?_, ?_, ?_, ?_⟩
  · rw [(paged_default_is_einval demo_env demo_world).1 (some 2) 0 1 3 rfl rfl
      (by intro t ht; cases ht; rfl) ⟨_, rfl⟩]
    decide
  · rw [(paged_default_is_einval demo_env demo_world).2.1 none 1 0 3 rfl rfl
      (by intro t ht; cases ht; rfl) ⟨_, rfl⟩]
    decide
  · rw [(paged_default_is_einval demo_env demo_world).2.2.1 (some 2) 0 0 1 1 demo_rreg 2 _ rfl
      demo_wrapped_reg (by decide) rfl (by decide) (by decide) rfl (by decide)]
    decide
  · rw [(paged_default_is_einval demo_env demo_world).2.2.2 none 0 0 1 1 demo_rreg 0 _ rfl
      demo_wrapped_reg (by decide) rfl (by decide) (by decide) rfl (by decide)]
    decide

/-! ## C2: re-entrant paged calls -/

theorem nodup_index {l : List Nat} (hn : l.Nodup) {k f : Nat} (hk : l[k]? = some f) :
    f ∈ l ∧ l.indexOf f = k ∧ f ∉ l.drop (k + 1) := by
  obtain ⟨hlt, hget⟩ := List.getElem?_eq_some_iff.mp hk
  refine ⟨hget ▸ List.getElem_mem _, ?_, ?_⟩
  · rw [← hget]; exact List.indexOf_getElem hn k hlt
  · intro hmem
    obtain ⟨j, hj, hjf⟩ := List.getElem_of_mem hmem
    rw [List.getElem_drop] at hjf
    have hlt2 : k + 1 + j < l.length := by
      rw [List.length_drop] at hj; omega
    have := (List.Nodup.getElem_inj_iff hn).mp
      (show l[k + 1 + j] = l[k] from hjf.trans hget.symm)
    omega

theorem idx_start_member {E : Type} (w : World E) (c k f : Nat) (hn : (w.chain_flts c).Nodup)
    (hk : (w.chain_flts c)[k]? = some f) :
    idx_start_of w (some c) (some f) = .ok ((k : Int) + 1) := by
  obtain ⟨hm, hi, _⟩ := nodup_index hn hk
  have hne : ((List.indexOf f (w.chain_flts c) : Nat) : Int) ≠ -1 := by omega
  simp [idx_start_of, chain_find_flt, hm, hi, hne]

/-- C2: for a chain that holds each filter once and a filter `f` at index `k` of it,
a re-entrant call by `f` on a wrapped regular node starts both phases at index
`k + 1`: `rfs_readpage_subcall` and `rfs_writepage_subcall` run PRE and POST over
the filters after `f`, among which `f` does not occur, around the original step;
the non-reentrant entry points `rfs_readpage` and `rfs_writepage` start at index 0
and run both phases over the whole chain. -/
theorem subcall_resumes_after_filter {E : Type} (env : Env E) (w : World E) :
    (∀ (c k f : Nat), (w.chain_flts c).Nodup → (w.chain_flts c)[k]? = some f →
      idx_start_of w (some c) (some f) = .ok ((k : Int) + 1) ∧
      f ∉ (w.chain_flts c).drop (k + 1)) ∧
    (∀ (chain : Option Nat), idx_start_of w chain none = .ok 0) ∧
    (∀ (f : Nat) (args : rfs_op_args) (page i rid : Nat) (r : rinode) (c k : Nat)
        (fin : Call E),
      args.page = (page : Int) → w.page_host page = some i → wrapped w i rid r →
      S_ISREG (w.inodes i).i_mode = true →
      r.ri_chain = some c → (w.chain_flts c).Nodup → (w.chain_flts c)[k]? = some f →
      fin = run_protocol env ((w.chain_flts c).drop (k + 1))
        (orig_step env (r.ri_aop_old.bind (·.readpage)) (fun a => [a.file, a.page])
          (fun s => (-EINVAL, s.ext)))
        (call_init env w .RFS_REG_AOP_READPAGE { file := args.file, page := page }) →
      fin.cont.data_list = [] →
      rfs_readpage_subcall env w (some f) args
        = .ok (fin.args.retv, { w with ext := fin.ext })) ∧
    (∀ (f : Nat) (args : rfs_op_args) (page i rid : Nat) (r : rinode) (c k : Nat)
        (fin : Call E),
      args.page = (page : Int) → w.page_host page = some i → wrapped w i rid r →
      S_ISREG (w.inodes i).i_mode = true →
      r.ri_chain = some c → (w.chain_flts c).Nodup → (w.chain_flts c)[k]? = some f →
      fin = run_protocol env ((w.chain_flts c).drop (k + 1))
        (orig_step env (r.ri_aop_old.bind (·.writepage)) (fun a => [a.page, a.wbc])
          (fun s => (-EINVAL, s.ext)))
        (call_init env w .RFS_REG_AOP_WRITEPAGE { page := page, wbc := args.wbc }) →
      fin.cont.data_list = [] →
      rfs_writepage_subcall env w (some f) args
        = .ok (fin.args.retv, { w with ext := fin.ext })) ∧
    (∀ (file : Int) (page i rid : Nat) (r : rinode) (c : Nat) (fin : Call E),
      w.page_host page = some i → wrapped w i rid r →
      S_ISREG (w.inodes i).i_mode = true → r.ri_chain = some c →
      fin = run_protocol env ((w.chain_flts c).drop 0)
        (orig_step env (r.ri_aop_old.bind (·.readpage)) (fun a => [a.file, a.page])
          (fun s => (-EINVAL, s.ext)))
        (call_init env w .RFS_REG_AOP_READPAGE { file := file, page := page }) →
      fin.cont.data_list = [] →
      rfs_readpage env w file page = .ok (fin.args.retv, { w with ext := fin.ext })) ∧
    (∀ (page : Nat) (wbc : Int) (i rid : Nat) (r : rinode) (c : Nat) (fin : Call E),
      w.page_host page = some i → wrapped w i rid r →
      S_ISREG (w.inodes i).i_mode = true → r.ri_chain = some c →
      fin = run_protocol env ((w.chain_flts c).drop 0)
        (orig_step env (r.ri_aop_old.bind (·.writepage)) (fun a => [a.page, a.wbc])
          (fun s => (-EINVAL, s.ext)))
        (call_init env w .RFS_REG_AOP_WRITEPAGE { page := page, wbc := wbc }) →
      fin.cont.data_list = [] →
      rfs_writepage env w page wbc = .ok (fin.args.retv, { w with ext := fin.ext })) := by
  refine ⟨?_, ?_, ?_, ?_, ?_, ?_⟩
  · intro c k f hn hk
    exact ⟨idx_start_member w c k f hn hk, (nodup_index hn hk).2.2⟩
  · intro chain
    rfl
  · intro f args page i rid r c k fin hp hi hw hk hc hn hget hfin hd
    have hidx : idx_start_of w r.ri_chain (some f) = .ok ((k : Int) + 1) := by
      rw [hc]; exact idx_start_member w c k f hn hget
    have := rfs_readpage_call_wrapped env w (some f) args.file page i rid r _ fin hi hw hk hidx
      (by rw [hfin, old_aop_eq, hc]; rfl) hd
    simpa [rfs_readpage_subcall, hp] using this
  · intro f args page i rid r c k fin hp hi hw hk hc hn hget hfin hd
    have hidx : idx_start_of w r.ri_chain (some f) = .ok ((k : Int) + 1) := by
      rw [hc]; exact idx_start_member w c k f hn hget
    have := rfs_writepage_call_wrapped env w (some f) page args.wbc i rid r _ fin hi hw hk hidx
      (by rw [hfin, old_aop_eq, hc]; rfl) hd
    simpa [rfs_writepage_subcall, hp] using this
  · intro file page i rid r c fin hi hw hk hc hfin hd
    exact rfs_readpage_call_wrapped env w none file page i rid r 0 fin hi hw hk rfl
      (by rw [hfin, old_aop_eq, hc]; rfl) hd
  · intro page wbc i rid r c fin hi hw hk hc hfin hd
    exact rfs_writepage_call_wrapped env w none page wbc i rid r 0 fin hi hw hk rfl
      (by rw [hfin, old_aop_eq, hc]; rfl) hd

/-- C2 on `demo_world`: filter 2 sits at index 1 of the chain [1, 2, 3] of the
wrapped regular file 1, so its re-entrant calls run filter 3 only, while the
non-reentrant calls run filters 1, 2 and 3. -/
theorem subcall_resumes_after_filter_witness :
    (idx_start_of demo_world (some 0) (some 2) = .ok 2 ∧ 2 ∉ [3]) ∧
    outcome (rfs_readpage_subcall demo_env demo_world (some 2) { file := 0, page := 0 })
      = some (-22, [103, 203]) ∧
    outcome (rfs_writepage_subcall demo_env demo_world (some 2) { page := 0, wbc := 0 })
      = some (-22, [103, 203]) ∧
    outcome (rfs_readpage demo_env demo_world 0 0)
      = some (-22, [101, 102, 103, 201, 202, 203]) ∧
    outcome (rfs_writepage demo_env demo_world 0 0)
      = some (-22, [101, 102, 103, 201, 202, 203]) := by
  refine ⟨?_, ?_, ?_, ?_, ?_⟩
  · exact (subcall_resumes_after_filter demo_env demo_world).1 0 1 2 (by decide) (by decide)
  · rw [(subcall_resumes_after_filter demo_env demo_world).2.2.1 2 { file := 0, page := 0 } 0 1 1
      demo_rreg 0 1 _ rfl rfl demo_wrapped_reg (by decide) rfl (by decide) (by decide) rfl
      (by decide)]
    decide
  · rw [(subcall_resumes_after_filter demo_env demo_world).2.2.2.1 2 { page := 0, wbc := 0 } 0 1 1
      demo_rreg 0 1 _ rfl rfl demo_wrapped_reg (by decide) rfl (by decide) (by decide) rfl
      (by decide)]
    decide
  · rw [(subcall_resumes_after_filter demo_env demo_world).2.2.2.2.1 0 0 1 1 demo_rreg 0 _ rfl
      demo_wrapped_reg (by decide) rfl rfl (by decide)]
    decide
  · rw [(subcall_resumes_after_filter demo_env demo_world).2.2.2.2.2 0 0 1 1 demo_rreg 0 _ rfl
      demo_wrapped_reg (by decide) rfl rfl (by decide)]
    decide

/-! ### Propagation and release -/

theorem prop_call_wrapped {E : Type} (env : Env E) (w : World E) (dir dentry pid : Nat)
    (p : rinode) (k : prop_call) (hw : wrapped w dir pid p)
    (hk : S_ISDIR (w.inodes dir).i_mode = true) (hs : k.sound p)
    (hd : (k.fin env w p dir dentry).cont.data_list = []) :
    k.run env w dir dentry =
      (rfs_tail env (propagate_start w pid p (k.fin env w p dir dentry).ext) dentry pid p).map
        (fun w' => ((k.fin env w p dir dentry).args.retv, w')) := by
  cases k with
  | mkdir mode =>
    exact rfs_mkdir_wrapped env w dir dentry mode pid p _ hw hk
      (by simp only [prop_call.fin, old_iop_eq]) hd
  | create mode nd =>
    exact rfs_create_wrapped env w dir dentry mode nd pid p _ hw hk
      (by simp only [prop_call.fin, old_iop_eq]) hd
  | link old_dentry =>
    exact rfs_link_wrapped env w old_dentry dir dentry pid p _ hw hk
      (by simp only [prop_call.fin, old_iop_eq]) hd
  | symlink oldname =>
    exact rfs_symlink_wrapped env w dir dentry oldname pid p _ hw hk
      (by simpa only [old_iop_eq] using hs)
      (by simp only [prop_call.fin, old_iop_eq]) hd
  | lookup nd =>
    exact rfs_lookup_wrapped env w dir dentry nd pid p _ hw hk
      (by simp only [prop_call.fin, old_iop_eq]) hd
  | mknod mode rdev =>
    exact rfs_mknod_wrapped env w dir dentry mode rdev pid p _ hw hk
      (by simp only [prop_call.fin, old_iop_eq]) hd
theorem tail_none {E : Type} (env : Env E) (w : World E) (dentry pid : Nat) (p : rinode) (e : E)
    (hp : w.rinodes pid = some p) (hc : p.ri_count ≠ 0) (hn : p.ri_chain_set = none) :
    rfs_tail env (propagate_start w pid p e) dentry pid p = .ok { w with ext := e } := by
  have hr : (propagate_start w pid p e).rinodes pid
      = some { p with ri_count := p.ri_count + 1 } := by
    simp [propagate_start, rfs_snapshot]
  simp only [rfs_tail, rfs_propagate, hn, bind, except_bind_ok, pure, Except.pure, rfs_release,
    rdentry_put]
  rw [rinode_put_after_get _ pid p _ hr rfl hc]
  simp only [except_bind_ok]
  refine congrArg Except.ok ?_
  apply World.eq_of_fields
  case h4 => simp [propagate_start, rfs_snapshot, hp]
  case h7 =>
    simp only [propagate_start, rfs_snapshot, set_rinode_chain_cnt, chain_put_chain_cnt,
      path_put_chain_cnt, ops_put_chain_cnt, chain_get_chain_cnt, path_get_chain_cnt,
      ops_get_chain_cnt, hn, cnt_inc_none, cnt_dec_none]
    exact cnt_dec_inc _ _
  case h8 =>
    simp only [propagate_start, rfs_snapshot, set_rinode_path_cnt, chain_put_path_cnt,
      path_put_path_cnt, ops_put_path_cnt, chain_get_path_cnt, path_get_path_cnt,
      ops_get_path_cnt]
    exact cnt_cancel2 w.path_cnt p.ri_path_set p.ri_path
  case h10 =>
    simp only [propagate_start, rfs_snapshot, set_rinode_ops_cnt, chain_put_ops_cnt,
      path_put_ops_cnt, ops_put_ops_cnt, chain_get_ops_cnt, path_get_ops_cnt,
      ops_get_ops_cnt]
    exact cnt_dec_inc w.ops_cnt p.ri_ops_set
  all_goals simp [propagate_start, rfs_snapshot]

theorem set_reg_ops_config (c0 : rinode) (bits : rfs_op_id → Bool)
    (ps cs os pa ch : Option Nat) :
    rinode_set_reg_ops
      { c0 with ri_path_set := ps, ri_chain_set := cs, ri_ops_set := os, ri_path := pa,
                ri_chain := ch } bits =
    { rinode_set_reg_ops c0 bits with
      ri_path_set := ps, ri_chain_set := cs, ri_ops_set := os, ri_path := pa, ri_chain := ch } :=
  rfl

theorem set_dir_ops_config (c0 : rinode) (bits : rfs_op_id → Bool)
    (ps cs os pa ch : Option Nat) :
    rinode_set_dir_ops
      { c0 with ri_path_set := ps, ri_chain_set := cs, ri_ops_set := os, ri_path := pa,
                ri_chain := ch } bits =
    { rinode_set_dir_ops c0 bits with
      ri_path_set := ps, ri_chain_set := cs, ri_ops_set := os, ri_path := pa, ri_chain := ch } :=
  rfl

theorem set_perm_attr_config (a b : rfs_op_id) (c0 : rinode) (bits : rfs_op_id → Bool)
    (ps cs os pa ch : Option Nat) :
    rinode_set_perm_attr a b
      { c0 with ri_path_set := ps, ri_chain_set := cs, ri_ops_set := os, ri_path := pa,
                ri_chain := ch } bits =
    { rinode_set_perm_attr a b c0 bits with
      ri_path_set := ps, ri_chain_set := cs, ri_ops_set := os, ri_path := pa, ri_chain := ch } :=
  rfl

theorem set_ops_mode_config (mode : Nat) (c0 : rinode) (bits : rfs_op_id → Bool)
    (ps cs os pa ch : Option Nat) :
    rinode_set_ops_mode mode
      { c0 with ri_path_set := ps, ri_chain_set := cs, ri_ops_set := os, ri_path := pa,
                ri_chain := ch } bits =
    { rinode_set_ops_mode mode c0 bits with
      ri_path_set := ps, ri_chain_set := cs, ri_ops_set := os, ri_path := pa, ri_chain := ch } := by
  simp only [rinode_set_ops_mode, set_reg_ops_config, set_dir_ops_config, rinode_set_lnk_ops,
    rinode_set_chr_ops, rinode_set_blk_ops, rinode_set_fifo_ops, rinode_set_sock_ops,
    set_perm_attr_config]
  split_ifs <;> rfl

theorem rinode_set_ops_mode_count (mode : Nat) (c0 : rinode) (bits : rfs_op_id → Bool) :
    (rinode_set_ops_mode mode c0 bits).ri_count = c0.ri_count := by
  simp only [rinode_set_ops_mode]
  split_ifs <;> rfl

theorem rinode_set_ops_some {E : Type} (w : World E) (rid o : Nat) (r : rinode)
    (h : w.rinodes rid = some r) :
    rinode_set_ops w rid (some o) =
      .ok (w.set_rinode rid
        (some (rinode_set_ops_mode (w.inodes r.ri_inode).i_mode r (w.ops_bits o)))) := by
  simp [rinode_set_ops, h]

theorem rdentry_set_ops_some {E : Type} (w : World E) (rd o : Nat) (e : rdentry)
    (h : w.rdentries rd = some e) :
    rdentry_set_ops w rd (some o) =
      .ok (w.set_rdentry rd (some { e with rd_op_new := some (w.ops_bits o) })) := by
  simp [rdentry_set_ops, h]

theorem propagate_some {E : Type} (env : Env E) (w0 w2 : World E) (dentry rd c o : Nat)
    (P : Option Nat) (e0 : rdentry)
    (hadd : env.rdentry_add dentry w0 = (some rd, w2)) (he : w2.rdentries rd = some e0)
    (hch : ∀ cid, e0.rd_rinode = some cid → ∃ c0, w2.rinodes cid = some c0) :
    ∃ w3, rfs_propagate env w0 dentry P (some c) (some o) = .ok (some rd, w3) ∧
      w3.rdentries rd = some { e0 with rd_path := P, rd_chain := some c, rd_ops := some o,
                                       rd_op_new := some (w2.ops_bits o) } ∧
      (∀ x, e0.rd_rinode ≠ some x → w3.rinodes x = w2.rinodes x) ∧
      (∀ cid c0, e0.rd_rinode = some cid → w2.rinodes cid = some c0 →
        w3.rinodes cid = some
          { rinode_set_ops_mode (w2.inodes c0.ri_inode).i_mode c0 (w2.ops_bits o) with
            ri_path_set := P, ri_chain_set := some c, ri_ops_set := some o, ri_path := P,
            ri_chain := some c }) := by
  simp only [rfs_propagate, hadd, he, bind, except_bind_ok, pure, Except.pure]
  rw [rdentry_set_ops_some _ rd o
    { e0 with rd_path := P, rd_chain := some c, rd_ops := some o } (by simp)]
  simp only [except_bind_ok, set_rdentry_rdentries, Function.update_same]
  cases hr : e0.rd_rinode with
  | none =>
    refine ⟨_, rfl, by simp, by simp, by simp⟩
  | some cid =>
    obtain ⟨c0, hc0⟩ := hch cid hr
    have hc0' : ∀ (x : World E), x.rinodes = w2.rinodes → x.rinodes cid = some c0 := by
      intro x hx; rw [hx]; exact hc0
    simp only [set_rdentry_rinodes, ops_get_rinodes, chain_get_rinodes, path_get_rinodes,
      ops_put_rinodes, chain_put_rinodes, path_put_rinodes, hc0]
    rw [rinode_set_ops_some _ cid o
      { c0 with ri_path_set := P, ri_chain_set := some c, ri_ops_set := some o, ri_path := P,
                ri_chain := some c } (by simp)]
    simp only [except_bind_ok]
    refine ⟨_, rfl, by simp, ?_, ?_⟩
    · intro x hx
      have : x ≠ cid := fun h => hx (by rw [h])
      simp [Function.update_apply, this]
    · intro cid2 c02 h1 h2
      cases h1
      rw [hc0] at h2
      cases h2
      simp [set_ops_mode_config]

theorem release_shared {E : Type} (w3 : World E) (rd pid : Nat) (e : rdentry) (pp : rinode)
    (ps cs os pa ch : Option Nat)
    (he : w3.rdentries rd = some e) (hrc : 2 ≤ e.rd_count)
    (hp : w3.rinodes pid = some pp) (hpc : 2 ≤ pp.ri_count) :
    ∃ w4, rfs_release w3 (some rd) pid ps cs os pa ch = .ok w4 ∧
      w4.rdentries = Function.update w3.rdentries rd
        (some { e with rd_count := e.rd_count - 1 }) ∧
      w4.rinodes = Function.update w3.rinodes pid
        (some { pp with ri_count := pp.ri_count - 1 }) := by
  have h1 : ¬ e.rd_count - 1 = 0 := by omega
  simp only [rfs_release, rdentry_put, he, h1, if_false, bind, except_bind_ok, pure,
    Except.pure]
  rw [rinode_put_shared _ pid pp (by simpa using hp) hpc]
  simp only [except_bind_ok]
  exact ⟨_, rfl, by simp, by simp⟩

theorem tail_some {E : Type} (env : Env E) (w0 w2 : World E) (dentry pid rd c o : Nat)
    (p p2 : rinode) (e0 : rdentry)
    (hcs : p.ri_chain_set = some c) (hos : p.ri_ops_set = some o)
    (hadd : env.rdentry_add dentry w0 = (some rd, w2))
    (he : w2.rdentries rd = some e0) (hrc : 2 ≤ e0.rd_count)
    (hp2 : w2.rinodes pid = some p2) (hpc : 2 ≤ p2.ri_count)
    (hch : ∀ cid, e0.rd_rinode = some cid → ∃ c0, w2.rinodes cid = some c0) :
    ∃ w4, rfs_tail env w0 dentry pid p = .ok w4 ∧
      w4.rdentries rd = some
        { e0 with rd_path := p.ri_path_set, rd_chain := some c, rd_ops := some o,
                  rd_op_new := some (w2.ops_bits o), rd_count := e0.rd_count - 1 } ∧
      (∀ cid c0, e0.rd_rinode = some cid → w2.rinodes cid = some c0 →
        ∃ n, w4.rinodes cid = some
          { rinode_set_ops_mode (w2.inodes c0.ri_inode).i_mode c0 (w2.ops_bits o) with
            ri_path_set := p.ri_path_set, ri_chain_set := some c, ri_ops_set := some o,
            ri_path := p.ri_path_set, ri_chain := some c, ri_count := n }) := by
  obtain ⟨w3, hprop, hrd, hother, hchild⟩ :=
    propagate_some env w0 w2 dentry rd c o p.ri_path_set e0 hadd he hch
  have hpp : ∃ pp, w3.rinodes pid = some pp ∧ 2 ≤ pp.ri_count := by
    by_cases hpid : e0.rd_rinode = some pid
    · refine ⟨_, hchild pid p2 hpid hp2, ?_⟩
      simpa [rinode_set_ops_mode_count] using hpc
    · exact ⟨p2, (hother pid hpid).trans hp2, hpc⟩
  obtain ⟨pp, hpp, hppc⟩ := hpp
  obtain ⟨w4, hrel, hrd4, hri4⟩ := release_shared w3 rd pid _ pp p.ri_path_set (some c) (some o)
    p.ri_path p.ri_chain hrd hrc hpp hppc
  refine ⟨w4, ?_, ?_, ?_⟩
  · simp only [rfs_tail, hcs, hos, hprop, bind, except_bind_ok]
    rw [← hcs, ← hos] at hrel ⊢
    simpa [hcs, hos] using hrel
  · rw [hrd4]; simp
  · intro cid c0 h1 h2
    rw [hri4]
    by_cases hcp : cid = pid
    · subst hcp
      rw [hchild cid c0 h1 h2] at hpp
      cases hpp
      refine ⟨(rinode_set_ops_mode (w2.inodes c0.ri_inode).i_mode c0 (w2.ops_bits o)).ri_count - 1,
        ?_⟩
      simp
    · refine ⟨(rinode_set_ops_mode (w2.inodes c0.ri_inode).i_mode c0 (w2.ops_bits o)).ri_count,
        ?_⟩
      simp [Function.update_apply, hcp, hchild cid c0 h1 h2]

/-! ### C6: propagation -/

/-- C6: each of the six wrappers that propagate (create, lookup, link, mkdir,
mknod, symlink), called on a wrapped parent directory whose pending configuration
is (P, C, S) with C and S non-null, returns, and afterwards the shadow entry `rd`
that `rdentry_add` gave for the child has the active path, chain and operation set
(P, C, S); if that entry is bound to a shadow node, the node has the active path
and chain P and C, the pending configuration (P, C, S), and the substituted tables
that `rinode_set_ops_mode` derives from S for the kind of the node. `rdentry_add`
is assumed to return an entry with a reference of its own, and to leave the parent
and the bound node alive. -/
theorem propagation_installs_pending {E : Type} (env : Env E) (w w2 : World E)
    (dir dentry pid rd c o : Nat) (p p2 : rinode) (e0 : rdentry) (k : prop_call)
    (hw : wrapped w dir pid p) (hk : S_ISDIR (w.inodes dir).i_mode = true) (hs : k.sound p)
    (hd : (k.fin env w p dir dentry).cont.data_list = [])
    (hcs : p.ri_chain_set = some c) (hos : p.ri_ops_set = some o)
    (hadd : env.rdentry_add dentry (propagate_start w pid p (k.fin env w p dir dentry).ext)
      = (some rd, w2))
    (he : w2.rdentries rd = some e0) (hrc : 2 ≤ e0.rd_count)
    (hp2 : w2.rinodes pid = some p2) (hpc : 2 ≤ p2.ri_count)
    (hch : ∀ cid, e0.rd_rinode = some cid → ∃ c0, w2.rinodes cid = some c0) :
    ∃ w' e', k.run env w dir dentry = .ok ((k.fin env w p dir dentry).args.retv, w') ∧
      w'.rdentries rd = some e' ∧
      e'.rd_path = p.ri_path_set ∧ e'.rd_chain = some c ∧ e'.rd_ops = some o ∧
      e'.rd_rinode = e0.rd_rinode ∧
      ∀ cid c0, e0.rd_rinode = some cid → w2.rinodes cid = some c0 →
        ∃ r', w'.rinodes cid = some r' ∧
          r'.ri_path = p.ri_path_set ∧ r'.ri_chain = some c ∧
          r'.ri_path_set = p.ri_path_set ∧ r'.ri_chain_set = some c ∧ r'.ri_ops_set = some o ∧
          r'.ri_op_new =
            (rinode_set_ops_mode (w2.inodes c0.ri_inode).i_mode c0 (w2.ops_bits o)).ri_op_new ∧
          r'.ri_aop_new =
            (rinode_set_ops_mode (w2.inodes c0.ri_inode).i_mode c0 (w2.ops_bits o)).ri_aop_new := by
  obtain ⟨w4, htail, hrd, hchild⟩ :=
    tail_some env _ w2 dentry pid rd c o p p2 e0 hcs hos hadd he hrc hp2 hpc hch
  refine ⟨w4, _, ?_, hrd, rfl, rfl, rfl, rfl, ?_⟩
  · rw [prop_call_wrapped env w dir dentry pid p k hw hk hs hd, htail]
    rfl
  · intro cid c0 h1 h2
    obtain ⟨n, hn⟩ := hchild cid c0 h1 h2
    exact ⟨_, hn, rfl, rfl, rfl, rfl, rfl, rfl, rfl⟩

/-- C6 on `demo_world`: `rfs_lookup` of the dentry 8 in the wrapped directory 0,
whose pending configuration is (path 1, chain 0, operation set 0); the entry 8 is
bound to the shadow 1 of a regular file. -/
theorem propagation_installs_pending_witness :
    ∃ w' e', rfs_lookup demo_env demo_world 0 8 0 = .ok (5, w') ∧
      w'.rdentries 8 = some e' ∧
      e'.rd_path = some 1 ∧ e'.rd_chain = some 0 ∧ e'.rd_ops = some 0 ∧
      e'.rd_rinode = some 1 ∧
      ∃ r', w'.rinodes 1 = some r' ∧
        r'.ri_path = some 1 ∧ r'.ri_chain = some 0 ∧
        r'.ri_path_set = some 1 ∧ r'.ri_chain_set = some 0 ∧ r'.ri_ops_set = some 0 ∧
        r'.ri_op_new = (rinode_set_ops_mode S_IFREG demo_rreg demo_ops).ri_op_new ∧
        r'.ri_aop_new = (rinode_set_ops_mode S_IFREG demo_rreg demo_ops).ri_aop_new := by
  obtain ⟨w', e', h1, h2, h3, h4, h5, h6, h7⟩ :=
    propagation_installs_pending demo_env demo_world _ 0 8 0 8 0 0 demo_rdir
      { demo_rdir with ri_count := 2 }
      { rd_path := none, rd_chain := none, rd_ops := none, rd_rinode := some 1,
        rd_count := 2, rd_op_new := none }
      (.lookup 0) demo_wrapped_dir (by decide) trivial rfl rfl rfl rfl rfl (by decide) rfl
      (by decide) (fun cid h => ⟨demo_rreg, by cases h; rfl⟩)
  exact ⟨w', e', h1, h2, h3, h4, h5, h6, h7 1 demo_rreg rfl rfl⟩

/-! ### C7: propagation does not look at the result -/

/-- C7 as worded fails: `rfs_create` of the dentry 5 in the wrapped directory 0 of
`demo_world`, whose saved table has no `create`, returns the error -EACCES; the
dentry 5 had no shadow entry before the call, and after it has one that carries
the pending configuration (path 1, chain 0, operation set 0) of the parent. The
same failing call on the dentry 8 replaces the pending chain of the bound shadow
node 1, which was null, by the chain 0. -/
theorem create_error_still_propagates :
    demo_world.rdentries 5 = none ∧
    outcome (rfs_create demo_env demo_world 0 5 0 0)
      = some (-EACCES, [101, 102, 103, 201, 202, 203]) ∧
    ((rfs_create demo_env demo_world 0 5 0 0).toOption.bind fun r =>
      (r.2.rdentries 5).map fun e => (e.rd_path, e.rd_chain, e.rd_ops))
      = some (some 1, some 0, some 0) ∧
    (demo_world.rinodes 1).map (·.ri_chain_set) = some none ∧
    outcome (rfs_create demo_env demo_world 0 8 0 0)
      = some (-EACCES, [101, 102, 103, 201, 202, 203]) ∧
    ((rfs_create demo_env demo_world 0 8 0 0).toOption.bind fun r =>
      (r.2.rinodes 1).map (·.ri_chain_set)) = some (some 0) := by
  refine ⟨rfl, ?_, ?_, rfl, ?_, ?_⟩ <;> decide

/-- C7, amended: whether one of the six wrappers that propagate, called on a
wrapped parent directory, touches the shadow entry of the child depends on the
pending chain of the parent alone, not on the result of the operation. With a null
pending chain the call returns the result of the protocol and changes nothing in
the layer: no shadow entry is obtained or created and no configuration changes.
With a non-null pending chain C (and operation set S) the entry that `rdentry_add`
gives for the child carries the pending configuration (P, C, S) after the call,
whatever the result is. -/
theorem propagation_ignores_result {E : Type} (env : Env E) (w : World E)
    (dir dentry pid : Nat) (p : rinode) (k : prop_call)
    (hw : wrapped w dir pid p) (hk : S_ISDIR (w.inodes dir).i_mode = true) (hs : k.sound p)
    (hd : (k.fin env w p dir dentry).cont.data_list = []) :
    (p.ri_chain_set = none →
      k.run env w dir dentry = .ok ((k.fin env w p dir dentry).args.retv,
        { w with ext := (k.fin env w p dir dentry).ext })) ∧
    (∀ (c o rd : Nat) (w2 : World E) (e0 : rdentry) (p2 : rinode),
      p.ri_chain_set = some c → p.ri_ops_set = some o →
      env.rdentry_add dentry (propagate_start w pid p (k.fin env w p dir dentry).ext)
        = (some rd, w2) →
      w2.rdentries rd = some e0 → 2 ≤ e0.rd_count →
      w2.rinodes pid = some p2 → 2 ≤ p2.ri_count →
      (∀ cid, e0.rd_rinode = some cid → ∃ c0, w2.rinodes cid = some c0) →
      ∃ w' e', k.run env w dir dentry = .ok ((k.fin env w p dir dentry).args.retv, w') ∧
        w'.rdentries rd = some e' ∧
        e'.rd_path = p.ri_path_set ∧ e'.rd_chain = some c ∧ e'.rd_ops = some o) := by
  obtain ⟨w1, r1, _, _, _, hc, _⟩ := wrapped_facts w dir pid p hw
  refine ⟨fun hn => ?_, ?_⟩
  · rw [prop_call_wrapped env w dir dentry pid p k hw hk hs hd,
      tail_none env w dentry pid p _ hw.2 hc hn]
    rfl
  · intro c o rd w2 e0 p2 hcs hos hadd he hrc hp2 hpc hch
    obtain ⟨w4, htail, hrd, _⟩ :=
      tail_some env _ w2 dentry pid rd c o p p2 e0 hcs hos hadd he hrc hp2 hpc hch
    refine ⟨w4, _, ?_, hrd, rfl, rfl, rfl⟩
    rw [prop_call_wrapped env w dir dentry pid p k hw hk hs hd, htail]
    rfl

theorem demo_idle_wrapped_dir :
    wrapped demo_idle_world 0 0
      { demo_rdir with ri_path_set := none, ri_chain_set := none, ri_ops_set := none } :=
  ⟨⟨_, rfl⟩, rfl⟩

/-- The amended C7 on the example states: `rfs_create` of the dentry 5 in the
wrapped directory 0 returns -EACCES in both; without a pending configuration
(`demo_idle_world`) the layer is unchanged, with the pending configuration
(path 1, chain 0, operation set 0) of `demo_world` the new entry 5 carries it. -/
theorem propagation_ignores_result_witness :
    rfs_create demo_env demo_idle_world 0 5 0 0 = .ok (-EACCES,
      { demo_idle_world with ext := [101, 102, 103, 201, 202, 203] }) ∧
    ∃ w' e', rfs_create demo_env demo_world 0 5 0 0 = .ok (-EACCES, w') ∧
      w'.rdentries 5 = some e' ∧
      e'.rd_path = some 1 ∧ e'.rd_chain = some 0 ∧ e'.rd_ops = some 0 :=
  ⟨(propagation_ignores_result demo_env demo_idle_world 0 5 0 _ (.create 0 0)
      demo_idle_wrapped_dir (by decide) trivial rfl).1 rfl,
   (propagation_ignores_result demo_env demo_world 0 5 0 demo_rdir (.create 0 0)
      demo_wrapped_dir (by decide) trivial rfl).2 0 0 5 _
      { rd_path := none, rd_chain := none, rd_ops := none, rd_rinode := none,
        rd_count := 2, rd_op_new := none }
      { demo_rdir with ri_count := 2 } rfl rfl rfl rfl (by decide) rfl (by decide)
      (fun cid h => by cases h)⟩

/-! ### Private data -/

theorem set_rinode_restore {E : Type} (w : World E) (rid : Nat) (r r1 : rinode)
    (h : w.rinodes rid = some r) :
    (w.set_rinode rid (some r1)).set_rinode rid (some r) = w := by
  cases w
  simp only [World.set_rinode, Function.update_idem] at h ⊢
  rw [← h, Function.update_eq_self]

theorem chain_find_flt_miss {E : Type} (w : World E) (chain : Option Nat) (flt : Nat) :
    chain_find_flt w chain flt = -1 ↔ flt ∉ chain_list w chain := by
  cases chain with
  | none => simp [chain_find_flt, chain_list]
  | some c =>
    simp only [chain_find_flt, chain_list]
    by_cases h : flt ∈ w.chain_flts c
    · simp only [h, if_true, not_true_eq_false, iff_false]
      omega
    · simp [h]

theorem attach_wrapped {E : Type} (w : World E) (flt i rid data : Nat) (r : rinode)
    (cell : Option Nat) (hw : wrapped w i rid r) :
    rfs_attach_data_inode w (some flt) (some i) (some data) (some cell) =
      if chain_find_flt w r.ri_chain flt = -1 then
        .ok { rv := -ENOENT, out := cell, w := w }
      else
        match rfs_find_data w r.ri_data flt with
        | some found => .ok { rv := -EEXIST, out := some found, w := rfs_get_data w found }
        | none =>
          .ok { rv := 0, out := none,
                w := (rfs_get_data w data).set_rinode rid
                  (some { r with ri_data := r.ri_data ++ [data] }) } := by
  obtain ⟨w1, r1, hf, hr1, he, hc, hw1⟩ := wrapped_facts w i rid r hw
  have hch : chain_find_flt w1 r1.ri_chain flt = chain_find_flt w r.ri_chain flt := by
    subst he hw1; cases r.ri_chain <;> rfl
  have hfd : rfs_find_data w1 r1.ri_data flt = rfs_find_data w r.ri_data flt := by
    subst he hw1; rfl
  simp only [rfs_attach_data_inode, hf, hr1, hch, hfd]
  by_cases h1 : chain_find_flt w r.ri_chain flt = -1
  · simp only [h1, if_true]
    rw [rinode_put_after_get w1 rid r r1 hr1 he hc, hw1, set_rinode_restore w rid r r1 hw.2]
  · simp only [h1, if_false]
    cases h2 : rfs_find_data w r.ri_data flt with
    | some found =>
      simp only []
      rw [rinode_put_after_get (rfs_get_data w1 found) rid r r1 hr1 he hc, hw1]
      have e : (rfs_get_data (w.set_rinode rid (some r1)) found).set_rinode rid (some r)
          = rfs_get_data w found := by
        show rfs_get_data ((w.set_rinode rid (some r1)).set_rinode rid (some r)) found = _
        rw [set_rinode_restore w rid r r1 hw.2]
      rw [e]
    | none =>
      simp only []
      rw [rinode_put_after_get _ rid { r with ri_data := r.ri_data ++ [data] }
        { r1 with ri_data := r1.ri_data ++ [data] } (by simp [World.set_rinode])
        (by subst he; rfl) hc, hw1]
      simp [World.set_rinode, rfs_get_data]

theorem detach_wrapped {E : Type} (w : World E) (flt i rid : Nat) (r : rinode)
    (cell : Option Nat) (hw : wrapped w i rid r) :
    rfs_detach_data_inode w (some flt) (some i) (some cell) =
      match rfs_find_data w r.ri_data flt with
      | none => .ok { rv := -ENODATA, out := cell, w := w }
      | some found =>
        .ok { rv := 0, out := some found,
              w := w.set_rinode rid (some { r with ri_data := r.ri_data.erase found }) } := by
  obtain ⟨w1, r1, hf, hr1, he, hc, hw1⟩ := wrapped_facts w i rid r hw
  have hfd : rfs_find_data w1 r1.ri_data flt = rfs_find_data w r.ri_data flt := by
    subst he hw1; rfl
  simp only [rfs_detach_data_inode, hf, hr1, hfd]
  cases h2 : rfs_find_data w r.ri_data flt with
  | none =>
    simp only []
    rw [rinode_put_after_get w1 rid r r1 hr1 he hc, hw1, set_rinode_restore w rid r r1 hw.2]
  | some found =>
    simp only []
    rw [rinode_put_after_get _ rid { r with ri_data := r.ri_data.erase found }
      { r1 with ri_data := r1.ri_data.erase found } (by simp [World.set_rinode])
      (by subst he; rfl) hc, hw1]
    simp [World.set_rinode]

/-! ### C10: private-data uniqueness -/

theorem set_ops_mode_lookup (mode : Nat) (r : rinode) (ops : rfs_op_id → Bool) :
    (rinode_set_ops_mode mode r ops).ri_op_new.lookup = some Fn.rfs_lookup := by
  simp only [rinode_set_ops_mode]
  rfl

/-- C9: the `lookup` slot of the substituted table is the sentinel `rfs_lookup`
in the shadow inode that `rinode_alloc` creates (it creates one whenever the slab
gives memory and the inode has a mapping and live table pointers), in the result
of `rinode_set_ops_mode` for every mode, every shadow inode and every operation
set, so also for a mode that is none of the seven kinds and for an operation set
without lookup, and in the shadow inode after every call of `rinode_set_ops`, which
returns for every non-null operation set, and for a null one when the kind is none
of the seven. Hence the slot is the sentinel after `rinode_alloc` followed by any
sequence of calls of `rinode_set_ops`. -/
theorem sentinel_pinned {E : Type} (w : World E) :
    (∀ rid i m a b, (w.inodes i).i_mapping = some m →
      w.iop_deref (w.inodes i).i_op = .ok a → w.aop_deref m.a_ops = .ok b →
      ∃ w' r, rinode_alloc (some rid) w i = .ok (.ok rid, w') ∧ w'.rinodes rid = some r ∧
        r.ri_op_new.lookup = some Fn.rfs_lookup) ∧
    (∀ mode r ops, (rinode_set_ops_mode mode r ops).ri_op_new.lookup = some Fn.rfs_lookup) ∧
    (∀ mode r, known_kind mode = false →
      ∀ ops, rinode_set_ops_mode mode r ops
        = r.set_iop fun t => { t with lookup := some Fn.rfs_lookup }) ∧
    (∀ rid r ops, w.rinodes rid = some r →
      (ops = none → known_kind (w.inodes r.ri_inode).i_mode = false) →
      ∃ w' r', rinode_set_ops w rid ops = .ok w' ∧ w'.rinodes rid = some r' ∧
        r'.ri_op_new.lookup = some Fn.rfs_lookup) ∧
    (∀ (calls : List (Nat × (rfs_op_id → Bool))) (r : rinode),
      r.ri_op_new.lookup = some Fn.rfs_lookup →
      (calls.foldl (fun x c => rinode_set_ops_mode c.1 x c.2) r).ri_op_new.lookup
        = some Fn.rfs_lookup) := by
  refine ⟨?_, set_ops_mode_lookup, ?_, ?_, ?_⟩
  · intro rid i m a b hm ha hb
    simp only [rinode_alloc, hm, ha, hb]
    exact ⟨_, _, rfl, Function.update_same _ _ _, rfl⟩
  · intro mode r hk ops
    simp only [known_kind, Bool.or_eq_false_iff] at hk
    obtain ⟨⟨⟨⟨⟨⟨h1, h2⟩, h3⟩, h4⟩, h5⟩, h6⟩, h7⟩ := hk
    simp [rinode_set_ops_mode, h1, h2, h3, h4, h5, h6, h7]
  · intro rid r ops hr hn
    cases ops with
    | none =>
      simp only [rinode_set_ops, hr, hn rfl]
      exact ⟨_, _, rfl, Function.update_same _ _ _, set_ops_mode_lookup _ _ _⟩
    | some o =>
      simp only [rinode_set_ops, hr]
      exact ⟨_, _, rfl, Function.update_same _ _ _, set_ops_mode_lookup _ _ _⟩
  · intro calls
    induction calls with
    | nil => intro r h; exact h
    | cons c cs ih =>
      intro r _
      exact ih _ (set_ops_mode_lookup _ _ _)

/-- C9 on `demo_world`: `rinode_alloc` for the unwrapped regular file 5, whose
table has its own `lookup`; `rinode_set_ops_mode` for the mode 0, which is none of
the seven kinds, and for a directory with the empty operation set; and
`rinode_set_ops` on the shadow 1 of a regular file with the operation set 0. -/
theorem sentinel_pinned_witness :
    (∃ w' r, rinode_alloc (some 7) demo_world 5 = .ok (.ok 7, w') ∧ w'.rinodes 7 = some r ∧
      r.ri_op_new.lookup = some Fn.rfs_lookup) ∧
    (rinode_set_ops_mode S_IFDIR demo_rdir (fun _ => false)).ri_op_new.lookup
      = some Fn.rfs_lookup ∧
    rinode_set_ops_mode 0 demo_rdir demo_ops
      = demo_rdir.set_iop (fun t => { t with lookup := some Fn.rfs_lookup }) ∧
    (∃ w' r', rinode_set_ops demo_world 1 (some 0) = .ok w' ∧ w'.rinodes 1 = some r' ∧
      r'.ri_op_new.lookup = some Fn.rfs_lookup) :=
  ⟨(sentinel_pinned demo_world).1 7 5 _ _ _ rfl rfl rfl,
   (sentinel_pinned demo_world).2.1 S_IFDIR demo_rdir _,
   (sentinel_pinned demo_world).2.2.1 0 demo_rdir (by decide) demo_ops,
   (sentinel_pinned demo_world).2.2.2.1 1 demo_rreg (some 0) rfl (fun h => by cases h)⟩

/-! ### Private data: the status codes -/

theorem get_wrapped {E : Type} (w : World E) (flt i rid : Nat) (r : rinode)
    (cell : Option Nat) (hw : wrapped w i rid r) :
    rfs_get_data_inode w (some flt) (some i) (some cell) =
      match rfs_find_data w r.ri_data flt with
      | none => .ok { rv := -ENODATA, out := cell, w := w }
      | some found => .ok { rv := 0, out := some found, w := rfs_get_data w found } := by
  obtain ⟨w1, r1, hf, hr1, he, hc, hw1⟩ := wrapped_facts w i rid r hw
  have hfd : rfs_find_data w1 r1.ri_data flt = rfs_find_data w r.ri_data flt := by
    subst he hw1; rfl
  simp only [rfs_get_data_inode, hf, hr1, hfd]
  cases h2 : rfs_find_data w r.ri_data flt with
  | none =>
    simp only []
    rw [rinode_put_after_get w1 rid r r1 hr1 he hc, hw1, set_rinode_restore w rid r r1 hw.2]
  | some found =>
    simp only []
    rw [rinode_put_after_get (rfs_get_data w1 found) rid r r1 hr1 he hc, hw1]
    have e : (rfs_get_data (w.set_rinode rid (some r1)) found).set_rinode rid (some r)
        = rfs_get_data w found := by
      show rfs_get_data ((w.set_rinode rid (some r1)).set_rinode rid (some r)) found = _
      rw [set_rinode_restore w rid r r1 hw.2]
    rw [e]

theorem attach_unwrapped {E : Type} (w : World E) (flt i data : Nat) (cell : Option Nat)
    (h : rinode_find w i = .ok (none, w)) :
    rfs_attach_data_inode w (some flt) (some i) (some data) (some cell)
      = .ok { rv := -ENODATA, out := cell, w := w } := by
  simp only [rfs_attach_data_inode, h]

theorem detach_unwrapped {E : Type} (w : World E) (flt i : Nat) (cell : Option Nat)
    (h : rinode_find w i = .ok (none, w)) :
    rfs_detach_data_inode w (some flt) (some i) (some cell)
      = .ok { rv := -ENODATA, out := cell, w := w } := by
  simp only [rfs_detach_data_inode, h]

theorem get_unwrapped {E : Type} (w : World E) (flt i : Nat) (cell : Option Nat)
    (h : rinode_find w i = .ok (none, w)) :
    rfs_get_data_inode w (some flt) (some i) (some cell)
      = .ok { rv := -ENODATA, out := cell, w := w } := by
  simp only [rfs_get_data_inode, h]

/-- Discovery either faults, finds no shadow and leaves the state as it is, or
finds the shadow of a wrapped node. -/
theorem rinode_find_cases {E : Type} (w : World E) (i : Nat) :
    (∃ f, rinode_find w i = .error f) ∨ rinode_find w i = .ok (none, w) ∨
      ∃ rid r, wrapped w i rid r := by
  cases h : rinode_find w i with
  | error f => exact Or.inl ⟨f, rfl⟩
  | ok x =>
    obtain ⟨o, w1⟩ := x
    cases o with
    | none =>
      obtain ⟨hw, _⟩ := rinode_find_none w w1 i h
      subst hw
      exact Or.inr (Or.inl rfl)
    | some rid =>
      obtain ⟨r0, _, hr0, _, _, _⟩ := rinode_find_some w w1 i rid h
      exact Or.inr (Or.inr ⟨rid, r0, ⟨w1, h⟩, hr0⟩)

theorem wrapped_not_unwrapped {E : Type} (w : World E) (i rid : Nat) (r : rinode)
    (hw : wrapped w i rid r) : rinode_find w i ≠ .ok (none, w) := by
  obtain ⟨w1, hf⟩ := hw.1
  rw [hf]
  intro h
  cases h

theorem wrapped_unique {E : Type} (w : World E) (i rid rid2 : Nat) (r r2 : rinode)
    (hw : wrapped w i rid r) (hw2 : wrapped w i rid2 r2) : rid2 = rid ∧ r2 = r := by
  obtain ⟨w1, hf⟩ := hw.1
  obtain ⟨w2, hf2⟩ := hw2.1
  rw [hf] at hf2
  cases hf2
  have := hw.2.symm.trans hw2.2
  cases this
  exact ⟨rfl, rfl⟩

/-! ### C11: the failures of the private-data calls -/

/-- C11: with non-null arguments, when discovery finds no shadow for the node,
`rfs_attach_data_inode`, `rfs_detach_data_inode` and `rfs_get_data_inode` return
-ENODATA, leave the output cell as it was and change no state. On a wrapped node
`rfs_attach_data_inode` by a filter that is not in the active chain returns -ENOENT
and changes no state, whether or not the node holds data of the filter: the test
of membership comes first. `rfs_detach_data_inode` and `rfs_get_data_inode` on a
wrapped node that holds the data `found` of the filter succeed whatever the active
chain is. -/
theorem data_lookup_failures {E : Type} (w : World E) (flt i : Nat) :
    (rinode_find w i = .ok (none, w) →
      (∀ data cell, rfs_attach_data_inode w (some flt) (some i) (some data) (some cell)
        = .ok { rv := -ENODATA, out := cell, w := w }) ∧
      (∀ cell, rfs_detach_data_inode w (some flt) (some i) (some cell)
        = .ok { rv := -ENODATA, out := cell, w := w }) ∧
      (∀ cell, rfs_get_data_inode w (some flt) (some i) (some cell)
        = .ok { rv := -ENODATA, out := cell, w := w })) ∧
    (∀ rid r data cell, wrapped w i rid r → flt ∉ chain_list w r.ri_chain →
      rfs_attach_data_inode w (some flt) (some i) (some data) (some cell)
        = .ok { rv := -ENOENT, out := cell, w := w }) ∧
    (∀ rid r cell found, wrapped w i rid r → rfs_find_data w r.ri_data flt = some found →
      rfs_detach_data_inode w (some flt) (some i) (some cell)
        = .ok { rv := 0, out := some found,
                w := w.set_rinode rid (some { r with ri_data := r.ri_data.erase found }) } ∧
      rfs_get_data_inode w (some flt) (some i) (some cell)
        = .ok { rv := 0, out := some found, w := rfs_get_data w found }) := by
  refine ⟨fun h => ⟨fun data cell => attach_unwrapped w flt i data cell h,
    fun cell => detach_unwrapped w flt i cell h, fun cell => get_unwrapped w flt i cell h⟩,
    ?_, ?_⟩
  · intro rid r data cell hw hn
    rw [attach_wrapped w flt i rid data r cell hw, if_pos ((chain_find_flt_miss w _ flt).2 hn)]
  · intro rid r cell found hw hf
    rw [detach_wrapped w flt i rid r cell hw, get_wrapped w flt i rid r cell hw, hf]
    exact ⟨rfl, rfl⟩

theorem demo_stale_wrapped_dir :
    wrapped demo_stale_world 0 0 { demo_rdir with ri_data := [4, 12] } :=
  ⟨⟨_, rfl⟩, rfl⟩

/-- C11 on the example states: the directory 2 of `demo_world` has no shadow, and
the three calls by filter 1 return -ENODATA; in `demo_stale_world` the shadow of
the directory 0 holds the data 12 of filter 9, which is not in the chain
[1, 2, 3]: the attach by filter 9 returns -ENOENT, not -EEXIST, while the detach
and the get by filter 9 return 0 with the data 12. -/
theorem data_lookup_failures_witness :
    (rfs_attach_data_inode demo_world (some 1) (some 2) (some 7) (some none)
        = .ok { rv := -ENODATA, out := none, w := demo_world } ∧
      rfs_detach_data_inode demo_world (some 1) (some 2) (some (some 3))
        = .ok { rv := -ENODATA, out := some 3, w := demo_world } ∧
      rfs_get_data_inode demo_world (some 1) (some 2) (some none)
        = .ok { rv := -ENODATA, out := none, w := demo_world }) ∧
    rfs_find_data demo_stale_world [4, 12] 9 = some 12 ∧
    rfs_attach_data_inode demo_stale_world (some 9) (some 0) (some 15) (some none)
      = .ok { rv := -ENOENT, out := none, w := demo_stale_world } ∧
    rfs_detach_data_inode demo_stale_world (some 9) (some 0) (some none)
      = .ok { rv := 0, out := some 12,
              w := demo_stale_world.set_rinode 0
                (some { demo_rdir with ri_data := [4] }) } ∧
    rfs_get_data_inode demo_stale_world (some 9) (some 0) (some none)
      = .ok { rv := 0, out := some 12, w := rfs_get_data demo_stale_world 12 } :=
  ⟨⟨((data_lookup_failures demo_world 1 2).1 rfl).1 7 none,
    ((data_lookup_failures demo_world 1 2).1 rfl).2.1 (some 3),
    ((data_lookup_failures demo_world 1 2).1 rfl).2.2 none⟩,
   rfl,
   (data_lookup_failures demo_stale_world 9 0).2.1 0 _ 15 none demo_stale_wrapped_dir
     (by decide),
   ((data_lookup_failures demo_stale_world 9 0).2.2 0 _ none 12 demo_stale_wrapped_dir rfl).1,
   ((data_lookup_failures demo_stale_world 9 0).2.2 0 _ none 12 demo_stale_wrapped_dir rfl).2⟩

/-! ### C12: what the status codes tell apart -/

/-- C12 as worded fails: `rfs_detach_data_inode` and `rfs_get_data_inode` by
filter 2 return -ENODATA both on the directory 2 of `demo_world`, which has no
shadow, and on the directory 0, which has a shadow that holds no data of filter 2:
the code does not tell the two conditions apart. -/
theorem detach_code_is_ambiguous :
    (rinode_find demo_world 2).toOption.map Prod.fst = some none ∧
    (rinode_find demo_world 0).toOption.map Prod.fst = some (some 0) ∧
    rfs_find_data demo_world demo_rdir.ri_data 2 = none ∧
    (rfs_detach_data_inode demo_world (some 2) (some 2) (some none)).toOption.map (·.rv)
      = some (-ENODATA) ∧
    (rfs_detach_data_inode demo_world (some 2) (some 0) (some none)).toOption.map (·.rv)
      = some (-ENODATA) ∧
    (rfs_get_data_inode demo_world (some 2) (some 2) (some none)).toOption.map (·.rv)
      = some (-ENODATA) ∧
    (rfs_get_data_inode demo_world (some 2) (some 0) (some none)).toOption.map (·.rv)
      = some (-ENODATA) := by
  decide

/-- C12, amended: with non-null arguments each of the three calls returns unless
discovery faults. The code of `rfs_attach_data_inode` determines the condition:
-ENODATA exactly when the node has no shadow, -ENOENT exactly when the node is
wrapped and the filter is not in its active chain, -EEXIST exactly when the filter
is in the chain and the node holds data of the filter, 0 exactly when the filter is
in the chain and the node holds none. The code of `rfs_detach_data_inode` and of
`rfs_get_data_inode` is -ENODATA both when the node has no shadow and when it is
wrapped and holds no data of the filter, and 0 exactly when it is wrapped and holds
data of the filter. -/
theorem data_codes_classify {E : Type} (w : World E) (flt i : Nat)
    (hf : ∃ x, rinode_find w i = .ok x) :
    (∀ data cell, ∃ res,
      rfs_attach_data_inode w (some flt) (some i) (some data) (some cell) = .ok res ∧
      (res.rv = -ENODATA ↔ rinode_find w i = .ok (none, w)) ∧
      (res.rv = -ENOENT ↔ ∃ rid r, wrapped w i rid r ∧ flt ∉ chain_list w r.ri_chain) ∧
      (res.rv = -EEXIST ↔ ∃ rid r, wrapped w i rid r ∧ flt ∈ chain_list w r.ri_chain ∧
        (rfs_find_data w r.ri_data flt).isSome = true) ∧
      (res.rv = 0 ↔ ∃ rid r, wrapped w i rid r ∧ flt ∈ chain_list w r.ri_chain ∧
        rfs_find_data w r.ri_data flt = none)) ∧
    (∀ cell, ∃ res,
      rfs_detach_data_inode w (some flt) (some i) (some cell) = .ok res ∧
      (res.rv = -ENODATA ↔ rinode_find w i = .ok (none, w) ∨
        ∃ rid r, wrapped w i rid r ∧ rfs_find_data w r.ri_data flt = none) ∧
      (res.rv = 0 ↔ ∃ rid r, wrapped w i rid r ∧
        (rfs_find_data w r.ri_data flt).isSome = true)) ∧
    (∀ cell, ∃ res,
      rfs_get_data_inode w (some flt) (some i) (some cell) = .ok res ∧
      (res.rv = -ENODATA ↔ rinode_find w i = .ok (none, w) ∨
        ∃ rid r, wrapped w i rid r ∧ rfs_find_data w r.ri_data flt = none) ∧
      (res.rv = 0 ↔ ∃ rid r, wrapped w i rid r ∧
        (rfs_find_data w r.ri_data flt).isSome = true)) := by
  have hcodes : (-ENODATA : Int) ≠ -ENOENT ∧ (-ENODATA : Int) ≠ -EEXIST ∧ (-ENODATA : Int) ≠ 0 ∧
      (-ENOENT : Int) ≠ -EEXIST ∧ (-ENOENT : Int) ≠ 0 ∧ (-EEXIST : Int) ≠ 0 := by decide
  obtain ⟨h1, h2, h3, h4, h5, h6⟩ := hcodes
  rcases rinode_find_cases w i with ⟨f, hflt⟩ | hun | ⟨rid, r, hw⟩
  · obtain ⟨x, hx⟩ := hf
    rw [hflt] at hx
    cases hx
  · have hnw : ∀ rid r, ¬ wrapped w i rid r := fun rid r hw =>
      wrapped_not_unwrapped w i rid r hw hun
    refine ⟨fun data cell => ⟨_, attach_unwrapped w flt i data cell hun, ?_, ?_, ?_, ?_⟩,
      fun cell => ⟨_, detach_unwrapped w flt i cell hun, ?_, ?_⟩,
      fun cell => ⟨_, get_unwrapped w flt i cell hun, ?_, ?_⟩⟩
    · exact ⟨fun _ => hun, fun _ => rfl⟩
    · exact ⟨fun h => absurd h h1, fun ⟨rid, r, hw, _⟩ => absurd hw (hnw rid r)⟩
    · exact ⟨fun h => absurd h h2, fun ⟨rid, r, hw, _⟩ => absurd hw (hnw rid r)⟩
    · exact ⟨fun h => absurd h h3, fun ⟨rid, r, hw, _⟩ => absurd hw (hnw rid r)⟩
    · exact ⟨fun _ => Or.inl hun, fun _ => rfl⟩
    · exact ⟨fun h => absurd h h3, fun ⟨rid, r, hw, _⟩ => absurd hw (hnw rid r)⟩
    · exact ⟨fun _ => Or.inl hun, fun _ => rfl⟩
    · exact ⟨fun h => absurd h h3, fun ⟨rid, r, hw, _⟩ => absurd hw (hnw rid r)⟩
  · have hnu := wrapped_not_unwrapped w i rid r hw
    have huq : ∀ (P : rinode → Prop), (∃ rid2 r2, wrapped w i rid2 r2 ∧ P r2) ↔ P r := by
      intro P
      constructor
      · rintro ⟨rid2, r2, hw2, hp⟩
        obtain ⟨_, hr⟩ := wrapped_unique w i rid rid2 r r2 hw hw2
        rw [← hr]; exact hp
      · exact fun hp => ⟨rid, r, hw, hp⟩
    refine ⟨fun data cell => ?_, fun cell => ?_, fun cell => ?_⟩
    · rw [attach_wrapped w flt i rid data r cell hw]
      rw [huq (fun r2 => flt ∉ chain_list w r2.ri_chain),
        huq (fun r2 => flt ∈ chain_list w r2.ri_chain ∧
          (rfs_find_data w r2.ri_data flt).isSome = true),
        huq (fun r2 => flt ∈ chain_list w r2.ri_chain ∧ rfs_find_data w r2.ri_data flt = none)]
      by_cases hm : flt ∈ chain_list w r.ri_chain
      · have hne : ¬ chain_find_flt w r.ri_chain flt = -1 := by
          rw [chain_find_flt_miss]; exact fun h => h hm
        rw [if_neg hne]
        cases hfd : rfs_find_data w r.ri_data flt with
        | none =>
          exact ⟨_, rfl, ⟨fun h => absurd h.symm h3, fun h => absurd h hnu⟩,
            ⟨fun h => absurd h.symm h5, fun h => absurd hm h⟩,
            ⟨fun h => absurd h.symm h6, fun h => by simp at h⟩,
            ⟨fun _ => ⟨hm, rfl⟩, fun _ => rfl⟩⟩
        | some found =>
          exact ⟨_, rfl, ⟨fun h => absurd h.symm h2, fun h => absurd h hnu⟩,
            ⟨fun h => absurd h.symm h4, fun h => absurd hm h⟩,
            ⟨fun _ => ⟨hm, rfl⟩, fun _ => rfl⟩,
            ⟨fun h => absurd h h6, fun h => by simp at h⟩⟩
      · rw [if_pos ((chain_find_flt_miss w _ flt).2 hm)]
        exact ⟨_, rfl, ⟨fun h => absurd h.symm h1, fun h => absurd h hnu⟩,
          ⟨fun _ => hm, fun _ => rfl⟩,
          ⟨fun h => absurd h h4, fun h => absurd h.1 hm⟩,
          ⟨fun h => absurd h h5, fun h => absurd h.1 hm⟩⟩
    · rw [detach_wrapped w flt i rid r cell hw,
        huq (fun r2 => rfs_find_data w r2.ri_data flt = none),
        huq (fun r2 => (rfs_find_data w r2.ri_data flt).isSome = true)]
      cases hfd : rfs_find_data w r.ri_data flt with
      | none =>
        exact ⟨_, rfl, ⟨fun _ => Or.inr rfl, fun _ => rfl⟩,
          ⟨fun h => absurd h h3, fun h => by simp at h⟩⟩
      | some found =>
        exact ⟨_, rfl, ⟨fun h => absurd h.symm h3, fun h => by
            rcases h with h | h
            · exact absurd h hnu
            · simp at h⟩,
          ⟨fun _ => rfl, fun _ => rfl⟩⟩
    · rw [get_wrapped w flt i rid r cell hw,
        huq (fun r2 => rfs_find_data w r2.ri_data flt = none),
        huq (fun r2 => (rfs_find_data w r2.ri_data flt).isSome = true)]
      cases hfd : rfs_find_data w r.ri_data flt with
      | none =>
        exact ⟨_, rfl, ⟨fun _ => Or.inr rfl, fun _ => rfl⟩,
          ⟨fun h => absurd h h3, fun h => by simp at h⟩⟩
      | some found =>
        exact ⟨_, rfl, ⟨fun h => absurd h.symm h3, fun h => by
            rcases h with h | h
            · exact absurd h hnu
            · simp at h⟩,
          ⟨fun _ => rfl, fun _ => rfl⟩⟩

/-- The amended C12 on `demo_world`: discovery returns for the directory 0; the
attach by filter 1, which is in the chain and whose data 4 the shadow holds, and
the detach by filter 2, of which the shadow holds no data. -/
theorem data_codes_classify_witness :
    (∃ x, rinode_find demo_world 0 = .ok x) ∧
    (∃ res,
      rfs_attach_data_inode demo_world (some 1) (some 0) (some 7) (some none) = .ok res ∧
      (res.rv = -ENODATA ↔ rinode_find demo_world 0 = .ok (none, demo_world)) ∧
      (res.rv = -ENOENT ↔
        ∃ rid r, wrapped demo_world 0 rid r ∧ 1 ∉ chain_list demo_world r.ri_chain) ∧
      (res.rv = -EEXIST ↔
        ∃ rid r, wrapped demo_world 0 rid r ∧ 1 ∈ chain_list demo_world r.ri_chain ∧
          (rfs_find_data demo_world r.ri_data 1).isSome = true) ∧
      (res.rv = 0 ↔
        ∃ rid r, wrapped demo_world 0 rid r ∧ 1 ∈ chain_list demo_world r.ri_chain ∧
          rfs_find_data demo_world r.ri_data 1 = none)) ∧
    (∃ res,
      rfs_detach_data_inode demo_world (some 2) (some 0) (some none) = .ok res ∧
      (res.rv = -ENODATA ↔ rinode_find demo_world 0 = .ok (none, demo_world) ∨
        ∃ rid r, wrapped demo_world 0 rid r ∧ rfs_find_data demo_world r.ri_data 2 = none) ∧
      (res.rv = 0 ↔ ∃ rid r, wrapped demo_world 0 rid r ∧
        (rfs_find_data demo_world r.ri_data 2).isSome = true)) :=
  ⟨⟨_, rfl⟩, (data_codes_classify demo_world 1 0 ⟨_, rfl⟩).1 7 none,
    (data_codes_classify demo_world 2 0 ⟨_, rfl⟩).2.1 none⟩

/-! ### C13: allocation -/

/-- C13: when the slab gives no memory `rinode_alloc` returns the error -ENOMEM
and changes nothing, and this is its only error. When it returns a shadow, the
saved tables of the shadow are the tables behind the primary, file and page-cache
pointers of the node; the substituted primary table is the primary table of the
node (the empty table when the pointer is null) with the sentinel in `lookup`; the
substituted page-cache table is the page-cache table of the node (the empty table
when the pointer is null); the active and pending path, chain and operation set
are null, the data list and the entry list are empty, and both counts are 1; the
inodes, so the live pointers of the node, are unchanged. It returns a shadow
whenever the slab gives memory, the node has a mapping and its table pointers are
live. -/
theorem rinode_alloc_result {E : Type} (w : World E) (i : Nat) :
    rinode_alloc none w i = .ok (.error (-ENOMEM), w) ∧
    (∀ slot e w', rinode_alloc slot w i = .ok (.error e, w') →
      slot = none ∧ e = -ENOMEM ∧ w' = w) ∧
    (∀ slot rid w', rinode_alloc slot w i = .ok (.ok rid, w') →
      slot = some rid ∧ w'.inodes = w.inodes ∧
      ∃ r m, w'.rinodes rid = some r ∧ (w.inodes i).i_mapping = some m ∧
        r.ri_inode = i ∧
        w.iop_deref (w.inodes i).i_op = .ok r.ri_op_old ∧
        r.ri_fop_old = (w.inodes i).i_fop ∧
        w.aop_deref m.a_ops = .ok r.ri_aop_old ∧
        r.ri_op_new = { r.ri_op_old.getD {} with lookup := some Fn.rfs_lookup } ∧
        r.ri_aop_new = r.ri_aop_old.getD {} ∧
        r.ri_path = none ∧ r.ri_chain = none ∧
        r.ri_path_set = none ∧ r.ri_chain_set = none ∧ r.ri_ops_set = none ∧
        r.ri_data = [] ∧ r.ri_rdentries = [] ∧ r.ri_count = 1 ∧ r.ri_nlink = 1 ∧
        w' = { w.set_rinode rid (some r) with rinode_cnt := (w.rinode_cnt + 1) % 2 ^ 64 }) ∧
    (∀ rid m a b, (w.inodes i).i_mapping = some m →
      w.iop_deref (w.inodes i).i_op = .ok a → w.aop_deref m.a_ops = .ok b →
      ∃ w', rinode_alloc (some rid) w i = .ok (.ok rid, w')) := by
  refine ⟨rfl, ?_, ?_, ?_⟩
  · intro slot e w' h
    cases slot with
    | none =>
      simp only [rinode_alloc] at h
      cases h
      exact ⟨rfl, rfl, rfl⟩
    | some rid =>
      simp only [rinode_alloc] at h
      cases hm : (w.inodes i).i_mapping with
      | none => simp [hm] at h
      | some m =>
        cases ha : w.iop_deref (w.inodes i).i_op <;>
          cases hb : w.aop_deref m.a_ops <;> simp [hm, ha, hb] at h
  · intro slot rid w' h
    cases slot with
    | none =>
      simp only [rinode_alloc] at h
      cases h
    | some rid0 =>
      simp only [rinode_alloc] at h
      cases hm : (w.inodes i).i_mapping with
      | none => simp [hm] at h
      | some m =>
        cases ha : w.iop_deref (w.inodes i).i_op with
        | error f => cases hb : w.aop_deref m.a_ops <;> simp [hm, ha, hb] at h
        | ok a =>
          cases hb : w.aop_deref m.a_ops with
          | error f => simp [hm, ha, hb] at h
          | ok b =>
            simp only [hm, ha, hb] at h
            cases h
            refine ⟨rfl, rfl, _, m, Function.update_same _ _ _, ?_, rfl, ?_, rfl, ?_, ?_, ?_,
              rfl, rfl, rfl, rfl, rfl, rfl, rfl, rfl, rfl, rfl⟩
            · rfl
            · rfl
            · exact hb
            · cases a <;> rfl
            · cases b <;> rfl
  · intro rid m a b hm ha hb
    simp only [rinode_alloc, hm, ha, hb]
    exact ⟨_, rfl⟩

/-- C13 on `demo_world`: the shadow that `rinode_alloc` creates in the slot 7 for
the regular file 5, whose tables have every operation, and the failure without
memory. -/
theorem rinode_alloc_result_witness :
    rinode_alloc none demo_world 5 = .ok (.error (-ENOMEM), demo_world) ∧
    ∃ w', rinode_alloc (some 7) demo_world 5 = .ok (.ok 7, w') ∧
      w'.inodes = demo_world.inodes ∧
      w'.rinodes 7 = some
        { ri_inode := 5
          ri_op_old := some demo_full_iops
          ri_fop_old := none
          ri_aop_old := some demo_full_aops
          ri_op_new := { demo_full_iops with lookup := some Fn.rfs_lookup }
          ri_aop_new := demo_full_aops
          ri_path := none
          ri_chain := none
          ri_path_set := none
          ri_chain_set := none
          ri_ops_set := none
          ri_count := 1
          ri_nlink := 1
          ri_data := []
          ri_rdentries := [] } :=
  ⟨(rinode_alloc_result demo_world 5).1,
   _, rfl, ((rinode_alloc_result demo_world 5).2.2.1 (some 7) 7 _ rfl).2.1, rfl⟩

/-! ### C14: removal -/

theorem set_rinode_idem {E : Type} (w : World E) (rid : Nat) (x y : Option rinode) :
    (w.set_rinode rid x).set_rinode rid y = w.set_rinode rid y := by
  simp only [World.set_rinode, Function.update_idem]

theorem rinode_del_shared {E : Type} (w : World E) (i rid : Nat) (r : rinode)
    (hw : wrapped w i rid r) (hn : r.ri_nlink - 1 ≠ 0) :
    rinode_del w i = .ok (w.set_rinode rid (some { r with ri_nlink := r.ri_nlink - 1 })) := by
  obtain ⟨w1, r1, hf, hr1, he, hc, hw1⟩ := wrapped_facts w i rid r hw
  subst he
  simp only [rinode_del, hf, hr1, ne_eq, hn, not_false_eq_true, if_true]
  rw [rinode_put_after_get _ rid { r with ri_nlink := r.ri_nlink - 1 } _
    (by simp [World.set_rinode]) rfl hc, hw1, set_rinode_idem, set_rinode_idem]

/-- The state after `rinode_del` has restored the tables of the inode from the
shadow `r`. -/
theorem rinode_del_last {E : Type} (w : World E) (i rid : Nat) (r : rinode)
    (hw : wrapped w i rid r) (hn : r.ri_nlink = 1)
    (hm : S_ISREG (w.inodes i).i_mode = true → ∃ m, (w.inodes i).i_mapping = some m) :
    rinode_del w i = .ok
      { (w.set_inode i
          { i_mode := (w.inodes i).i_mode
            i_op := iop_of r.ri_op_old
            i_fop := if S_ISSOCK (w.inodes i).i_mode then (w.inodes i).i_fop else r.ri_fop_old
            i_mapping :=
              if S_ISREG (w.inodes i).i_mode then some { a_ops := aop_of r.ri_aop_old }
              else (w.inodes i).i_mapping }).set_rinode rid (some { r with ri_nlink := 0 }) with
        rcu_pending := w.rcu_pending ++ [rid] } := by
  obtain ⟨w1, r1, hf, hr1, he, hc, hw1⟩ := wrapped_facts w i rid r hw
  subst he
  have hin : w1.inodes = w.inodes := by rw [hw1]; rfl
  simp only [rinode_del, hf, hr1, hn, sub_self, ne_eq, not_true_eq_false, if_false,
    set_rinode_inodes, hin]
  by_cases hs : S_ISSOCK (w.inodes i).i_mode = true <;>
    by_cases hg : S_ISREG (w.inodes i).i_mode = true
  · obtain ⟨m, hm⟩ := hm hg
    simp only [hs, hg, hm, Bool.not_true, Bool.not_false, if_true, if_false,
      Bool.false_eq_true, Bool.not_eq_true]
    rw [rinode_put_after_get _ rid { r with ri_nlink := 0 } _
        (by simp [World.set_rinode, World.set_inode]) rfl hc]
    simp [World.set_rinode, World.set_inode, hw1]
  · simp only [hs, hg, Bool.not_true, Bool.not_false, if_true, if_false,
      Bool.false_eq_true, Bool.not_eq_true]
    rw [rinode_put_after_get _ rid { r with ri_nlink := 0 } _
        (by simp [World.set_rinode, World.set_inode]) rfl hc]
    simp [World.set_rinode, World.set_inode, hw1]
  · obtain ⟨m, hm⟩ := hm hg
    simp only [hs, hg, hm, Bool.not_true, Bool.not_false, if_true, if_false,
      Bool.false_eq_true, Bool.not_eq_true]
    rw [rinode_put_after_get _ rid { r with ri_nlink := 0 } _
        (by simp [World.set_rinode, World.set_inode]) rfl hc]
    simp [World.set_rinode, World.set_inode, hw1]
  · simp only [hs, hg, Bool.not_true, Bool.not_false, if_true, if_false,
      Bool.false_eq_true, Bool.not_eq_true]
    rw [rinode_put_after_get _ rid { r with ri_nlink := 0 } _
        (by simp [World.set_rinode, World.set_inode]) rfl hc]
    simp [World.set_rinode, World.set_inode, hw1]

theorem rinode_put_last {E : Type} (w : World E) (rid : Nat) (r : rinode)
    (h : w.rinodes rid = some r) (hc : r.ri_count = 1) (hrd : r.ri_rdentries = []) :
    ∃ w', rinode_put w (some rid) = .ok w' ∧ w'.rinodes rid = none := by
  simp only [rinode_put, h, hc, hrd, Nat.one_ne_zero, if_false, Nat.sub_self, ne_eq,
    not_true_eq_false]
  exact ⟨_, rfl, Function.update_same _ _ _⟩

/-- C14 as worded fails. In `demo_del_world` the socket 6 is wrapped by the shadow
2, whose external-link count is 1; its live file table is 9 where the saved one is
3, and its live page-cache pointer points into the shadow where the saved table is
`demo_full_aops`. `rinode_del` restores the primary table only: the file table of a
socket and the page-cache table of a node that is not a regular file stay as they
were, so they are not the saved originals afterwards. -/
theorem rinode_del_skips_socket_tables :
    S_ISSOCK (demo_del_world.inodes 6).i_mode = true ∧
    S_ISREG (demo_del_world.inodes 6).i_mode = false ∧
    (rinode_find demo_del_world 6).toOption.map Prod.fst = some (some 2) ∧
    (demo_del_world.rinodes 2).map (·.ri_nlink) = some 1 ∧
    (demo_del_world.rinodes 2).map (·.ri_fop_old) = some (some 3) ∧
    (demo_del_world.rinodes 2).map (·.ri_aop_old) = some (some demo_full_aops) ∧
    ((rinode_del demo_del_world 6).toOption.map fun w' => (w'.inodes 6).i_op)
      = some (.table demo_full_iops) ∧
    ((rinode_del demo_del_world 6).toOption.map fun w' => (w'.inodes 6).i_fop)
      = some (some 9) ∧
    ((rinode_del demo_del_world 6).toOption.map fun w' => (w'.inodes 6).i_mapping)
      = some (some { a_ops := .ri_aop_new 2 }) := by
  decide

/-- C14, amended: on a wrapped node whose shadow has the external-link count
`n ≥ 1`, `rinode_del` returns and leaves the count `n - 1`. For `n > 1` nothing else
changes: the inode keeps its live pointers and the shadow its reference count.
For `n = 1` the primary table pointer of the inode is set to the saved original
(null when there is none); the file table pointer is set to the saved original
unless the node is a socket, whose file table stays; the page-cache pointer is set
to the saved original (null when there is none) if the node is a regular file, which
then must have a mapping, and stays otherwise; the shadow keeps its reference count
and its deferred callback is queued. Afterwards `rinode_find` finds nothing on the
node provided the saved original table does not carry the sentinel, and
`rinode_del_rcu` leaves the shadow with one reference less than before the call,
which destroys it when that was the last. On a node without shadow `rinode_del`
changes nothing. -/
theorem rinode_del_result {E : Type} (w : World E) (i : Nat) :
    (∀ rid r, wrapped w i rid r → 1 < r.ri_nlink →
      rinode_del w i = .ok (w.set_rinode rid (some { r with ri_nlink := r.ri_nlink - 1 }))) ∧
    (∀ rid r, wrapped w i rid r → r.ri_nlink = 1 →
      (S_ISREG (w.inodes i).i_mode = true → ∃ m, (w.inodes i).i_mapping = some m) →
      ∃ w', rinode_del w i = .ok w' ∧
        w'.rinodes rid = some { r with ri_nlink := 0 } ∧
        (r.ri_op_old = none → (w'.inodes i).i_op = .null) ∧
        (∀ t, r.ri_op_old = some t → (w'.inodes i).i_op = .table t) ∧
        (S_ISSOCK (w.inodes i).i_mode = false → (w'.inodes i).i_fop = r.ri_fop_old) ∧
        (S_ISSOCK (w.inodes i).i_mode = true → (w'.inodes i).i_fop = (w.inodes i).i_fop) ∧
        (S_ISREG (w.inodes i).i_mode = true → r.ri_aop_old = none →
          (w'.inodes i).i_mapping = some { a_ops := .null }) ∧
        (S_ISREG (w.inodes i).i_mode = true → ∀ t, r.ri_aop_old = some t →
          (w'.inodes i).i_mapping = some { a_ops := .table t }) ∧
        (S_ISREG (w.inodes i).i_mode = false →
          (w'.inodes i).i_mapping = (w.inodes i).i_mapping) ∧
        (w'.inodes i).i_mode = (w.inodes i).i_mode ∧
        (∀ j, j ≠ i → w'.inodes j = w.inodes j) ∧
        (∀ x, x ≠ rid → w'.rinodes x = w.rinodes x) ∧
        w'.rcu_pending = w.rcu_pending ++ [rid] ∧
        ((∀ t, r.ri_op_old = some t → t.lookup ≠ some Fn.rfs_lookup) →
          rinode_find w' i = .ok (none, w')) ∧
        (2 ≤ r.ri_count →
          rinode_del_rcu w' rid = .ok (w'.set_rinode rid
            (some { r with ri_nlink := 0, ri_count := r.ri_count - 1 }))) ∧
        (r.ri_count = 1 → r.ri_rdentries = [] →
          ∃ w'', rinode_del_rcu w' rid = .ok w'' ∧ w''.rinodes rid = none)) ∧
    (rinode_find w i = .ok (none, w) → rinode_del w i = .ok w) := by
  refine ⟨?_, ?_, ?_⟩
  · intro rid r hw hn
    exact rinode_del_shared w i rid r hw (by omega)
  · intro rid r hw hn hm
    refine ⟨_, rinode_del_last w i rid r hw hn hm, ?_, ?_, ?_, ?_, ?_, ?_, ?_, ?_, ?_, ?_, ?_,
      ?_, ?_, ?_, ?_⟩
    · simp [World.set_rinode, World.set_inode]
    · intro ho
      simp [World.set_rinode, World.set_inode, iop_of, ho]
    · intro t ho
      simp [World.set_rinode, World.set_inode, iop_of, ho]
    · intro hs
      simp [World.set_rinode, World.set_inode, hs]
    · intro hs
      simp [World.set_rinode, World.set_inode, hs]
    · intro hg ho
      simp [World.set_rinode, World.set_inode, aop_of, hg, ho]
    · intro hg t ho
      simp [World.set_rinode, World.set_inode, aop_of, hg, ho]
    · intro hg
      simp [World.set_rinode, World.set_inode, hg]
    · simp [World.set_rinode, World.set_inode]
    · intro j hj
      simp [World.set_rinode, World.set_inode, Function.update_apply, hj]
    · intro x hx
      simp [World.set_rinode, World.set_inode, Function.update_apply, hx]
    · rfl
    · intro hl
      cases ho : r.ri_op_old with
      | none => simp [rinode_find, World.set_rinode, World.set_inode, iop_of, ho]
      | some t =>
        simp [rinode_find, World.set_rinode, World.set_inode, iop_of, ho, hl t ho]
    · intro hc
      rw [rinode_del_rcu, rinode_put_shared _ rid { r with ri_nlink := 0 }
        (by simp [World.set_rinode, World.set_inode]) hc]
    · intro hc hrd
      exact rinode_put_last _ rid { r with ri_nlink := 0 }
        (by simp [World.set_rinode, World.set_inode]) hc hrd
  · intro h
    simp only [rinode_del, h]

theorem demo_del_wrapped_reg : wrapped demo_del_world 7 3 (demo_del_shadow 7) :=
  ⟨⟨_, rfl⟩, rfl⟩

theorem demo_del_wrapped_sock : wrapped demo_del_world 6 2 (demo_del_shadow 6) :=
  ⟨⟨_, rfl⟩, rfl⟩

/-- The amended C14 on the example states. With the external-link count 2 on the
shadow of the regular file 1 only the count changes. The regular file 7 of
`demo_del_world` gets its three saved tables back: the primary table
`demo_full_iops`, the file table 3 and the page-cache table `demo_full_aops`;
discovery finds nothing on it afterwards and the deferred callback destroys the
shadow. The socket 6 gets its primary table back and keeps its file table 9 and its
page-cache pointer. The directory 2 has no shadow. -/
theorem rinode_del_result_witness :
    rinode_del (demo_world.set_rinode 1 (some { demo_rreg with ri_nlink := 2 })) 1
      = .ok ((demo_world.set_rinode 1 (some { demo_rreg with ri_nlink := 2 })).set_rinode 1
          (some { demo_rreg with ri_nlink := 2 - 1 })) ∧
    (∃ w', rinode_del demo_del_world 7 = .ok w' ∧
      w'.rinodes 3 = some { demo_del_shadow 7 with ri_nlink := 0 } ∧
      (w'.inodes 7).i_op = .table demo_full_iops ∧
      (w'.inodes 7).i_fop = some 3 ∧
      (w'.inodes 7).i_mapping = some { a_ops := .table demo_full_aops } ∧
      rinode_find w' 7 = .ok (none, w') ∧
      ∃ w'', rinode_del_rcu w' 3 = .ok w'' ∧ w''.rinodes 3 = none) ∧
    (∃ w', rinode_del demo_del_world 6 = .ok w' ∧
      (w'.inodes 6).i_op = .table demo_full_iops ∧
      (w'.inodes 6).i_fop = some 9 ∧
      (w'.inodes 6).i_mapping = some { a_ops := .ri_aop_new 2 }) ∧
    rinode_del demo_world 2 = .ok demo_world := by
  refine ⟨?_, ?_, ?_, ?_⟩
  · exact (rinode_del_result _ 1).1 1 { demo_rreg with ri_nlink := 2 } ⟨⟨_, rfl⟩, rfl⟩
      (by decide)
  · obtain ⟨w', h1, h2, _, h4, h5, _, _, h8, _, _, _, _, _, h14, _, h16⟩ :=
      (rinode_del_result demo_del_world 7).2.1 3 (demo_del_shadow 7) demo_del_wrapped_reg rfl
        (fun _ => ⟨_, rfl⟩)
    exact ⟨w', h1, h2, h4 demo_full_iops rfl, h5 (by decide), h8 (by decide) demo_full_aops rfl,
      h14 (by intro t ht; cases ht; decide), h16 rfl rfl⟩
  · obtain ⟨w', h1, _, _, h4, _, h6, _, _, h9, _⟩ :=
      (rinode_del_result demo_del_world 6).2.1 2 (demo_del_shadow 6) demo_del_wrapped_sock rfl
        (fun h => absurd h (by decide))
    exact ⟨w', h1, h4 demo_full_iops rfl, h6 (by decide), h9 (by decide)⟩
  · exact (rinode_del_result demo_world 2).2.2 rfl

/-! ### C15: discovery -/

theorem rfs_symlink_null_call {E : Type} (env : Env E) (w : World E) (dir dentry : Nat)
    (oldname : Int) (pid : Nat) (p : rinode) (l : Fn) (hw : wrapped w dir pid p)
    (hk : S_ISDIR (w.inodes dir).i_mode = true)
    (hl : old_iop p (·.link) = some l) (hs : old_iop p (·.symlink) = none)
    (hpre : (precall_list env (chain_list w p.ri_chain)
      (call_init env w .RFS_DIR_IOP_SYMLINK
        { dir := dir, dentry := dentry, oldname := oldname })).1 = false) :
    rfs_symlink env w dir dentry oldname = .error .null_deref := by
  obtain ⟨w1, r1, hf, hr1, hr1e, hc, hw1⟩ := wrapped_facts w dir pid p hw
  obtain ⟨hfl, hex, hin, _⟩ := rfs_snapshot_facts w w1 pid p r1 w.ext hr1e hw1
  have hch : r1.ri_chain = p.ri_chain := by rw [hr1e]
  have hold : ∀ f, old_iop r1 f = old_iop p f := by intro f; rw [hr1e]; rfl
  have hk2 : S_ISDIR ((rfs_snapshot w1 r1).inodes dir).i_mode = true := by rw [hin]; exact hk
  simp only [call_init] at hpre
  simp only [rfs_symlink, hf, bind, except_bind_ok, hr1, precall_zero, hfl,
    hk2, hold, hex, hch, hl, hs, hpre]
  rfl

/-- C17: in `rfs_symlink` on a wrapped parent directory whose PRE phase does not
ask to skip the original, the saved `symlink` is called exactly when the saved
table exists and has a `link`. Without a `link` (or without a saved table) -EPERM
is stored in the return slot and nothing is called, also when the saved table has a
`symlink`; with a `link` and a `symlink` the saved `symlink` is called on the
arguments of the call and its result is stored; with a `link` and no `symlink` the
wrapper calls the null slot. -/
theorem symlink_tests_link {E : Type} (env : Env E) (w : World E) (dir dentry pid : Nat)
    (oldname : Int) (p : rinode) (hw : wrapped w dir pid p)
    (hk : S_ISDIR (w.inodes dir).i_mode = true)
    (hpre : (precall_list env (chain_list w p.ri_chain)
      (call_init env w .RFS_DIR_IOP_SYMLINK
        { dir := dir, dentry := dentry, oldname := oldname })).1 = false) :
    (p.ri_op_old.bind (·.link) = none →
      ∀ fin, fin = postcall_list env (chain_list w p.ri_chain)
        ((precall_list env (chain_list w p.ri_chain)
          (call_init env w .RFS_DIR_IOP_SYMLINK
            { dir := dir, dentry := dentry, oldname := oldname })).2.ret
          (-EPERM, (precall_list env (chain_list w p.ri_chain)
            (call_init env w .RFS_DIR_IOP_SYMLINK
              { dir := dir, dentry := dentry, oldname := oldname })).2.ext)) →
      fin.cont.data_list = [] →
      rfs_symlink env w dir dentry oldname =
        (rfs_tail env (propagate_start w pid p fin.ext) dentry pid p).map
          (fun w' => (fin.args.retv, w'))) ∧
    (∀ l fn, p.ri_op_old.bind (·.link) = some l → p.ri_op_old.bind (·.symlink) = some fn →
      ∀ fin, fin = postcall_list env (chain_list w p.ri_chain)
        ((precall_list env (chain_list w p.ri_chain)
          (call_init env w .RFS_DIR_IOP_SYMLINK
            { dir := dir, dentry := dentry, oldname := oldname })).2.ret
          (env.call fn
            [(precall_list env (chain_list w p.ri_chain)
              (call_init env w .RFS_DIR_IOP_SYMLINK
                { dir := dir, dentry := dentry, oldname := oldname })).2.args.args.dir,
             (precall_list env (chain_list w p.ri_chain)
              (call_init env w .RFS_DIR_IOP_SYMLINK
                { dir := dir, dentry := dentry, oldname := oldname })).2.args.args.dentry,
             (precall_list env (chain_list w p.ri_chain)
              (call_init env w .RFS_DIR_IOP_SYMLINK
                { dir := dir, dentry := dentry, oldname := oldname })).2.args.args.oldname]
            (precall_list env (chain_list w p.ri_chain)
              (call_init env w .RFS_DIR_IOP_SYMLINK
                { dir := dir, dentry := dentry, oldname := oldname })).2.ext)) →
      fin.cont.data_list = [] →
      rfs_symlink env w dir dentry oldname =
        (rfs_tail env (propagate_start w pid p fin.ext) dentry pid p).map
          (fun w' => (fin.args.retv, w'))) ∧
    (∀ l, p.ri_op_old.bind (·.link) = some l → p.ri_op_old.bind (·.symlink) = none →
      rfs_symlink env w dir dentry oldname = .error .null_deref) := by
  refine ⟨?_, ?_, ?_⟩
  · intro hl fin hfin hd
    have hl' : old_iop p (·.link) = none := by rw [old_iop_eq]; exact hl
    refine rfs_symlink_wrapped env w dir dentry oldname pid p fin hw hk
      (by rw [hl']; intro h; cases h) ?_ hd
    rw [hfin, run_protocol, hpre, hl']
    rfl
  · intro l fn hl hs fin hfin hd
    have hl' : old_iop p (·.link) = some l := by rw [old_iop_eq]; exact hl
    have hs' : old_iop p (·.symlink) = some fn := by rw [old_iop_eq]; exact hs
    refine rfs_symlink_wrapped env w dir dentry oldname pid p fin hw hk
      (by rw [hs']; intro _; rfl) ?_ hd
    rw [hfin, run_protocol, hpre, hl', hs']
    rfl
  · intro l hl hs
    exact rfs_symlink_null_call env w dir dentry oldname pid p l hw hk
      (by rw [old_iop_eq]; exact hl) (by rw [old_iop_eq]; exact hs) hpre

theorem demo_nolink_wrapped_dir :
    wrapped demo_nolink_world 0 0
      { demo_rdir with ri_op_old := some { symlink := some (.native 7) } } :=
  ⟨⟨_, rfl⟩, rfl⟩

theorem demo_nosymlink_wrapped_dir :
    wrapped demo_nosymlink_world 0 0
      { demo_rdir with ri_op_old := some { link := some (.native 4) } } :=
  ⟨⟨_, rfl⟩, rfl⟩

/-- C17 on the example states, with the chain [1, 2, 3] whose PRE phase does not
skip: the saved table of `demo_nolink_world` has a `symlink` and no `link`, and
-EPERM is returned without a call; the saved table of `demo_world` has both, and
the saved `symlink` (`native 7`) is called; the saved table of
`demo_nosymlink_world` has a `link` and no `symlink`, and the null slot is called. -/
theorem symlink_tests_link_witness :
    outcome (rfs_symlink demo_env demo_nolink_world 0 5 0)
      = some (-EPERM, [101, 102, 103, 201, 202, 203]) ∧
    outcome (rfs_symlink demo_env demo_world 0 5 0)
      = some (7, [101, 102, 103, 307, 201, 202, 203]) ∧
    rfs_symlink demo_env demo_nosymlink_world 0 5 0 = .error .null_deref := by
  refine ⟨?_, ?_, ?_⟩
  · rw [(symlink_tests_link demo_env demo_nolink_world 0 5 0 0 _ demo_nolink_wrapped_dir
      (by decide) (by decide)).1 rfl _ rfl rfl]
    decide
  · rw [(symlink_tests_link demo_env demo_world 0 5 0 0 _ demo_wrapped_dir
      (by decide) (by decide)).2.1 (.native 4) (.native 7) rfl rfl _ rfl rfl]
    decide
  · exact (symlink_tests_link demo_env demo_nosymlink_world 0 5 0 0 _
      demo_nosymlink_wrapped_dir (by decide) (by decide)).2.2 (.native 4) rfl rfl

/-! ### A re-entrant call by a filter outside the chain -/

theorem idx_start_stranger {E : Type} (w : World E) (c f : Nat) (hf : f ∉ w.chain_flts c) :
    idx_start_of w (some c) (some f) = .ok ((w.chain_flts c).length : Int) := by
  simp [idx_start_of, chain_find_flt, hf]

theorem run_protocol_nil {E : Type} (env : Env E) (orig : Call E → Int × E) (s : Call E) :
    run_protocol env [] orig s = s.ret (orig s) := by
  simp [run_protocol, precall_list, postcall_list]

theorem readpage_call_null_chain {E : Type} (env : Env E) (w : World E) (f : Nat) (file : Int)
    (page i rid : Nat) (r : rinode) (hi : w.page_host page = some i) (hw : wrapped w i rid r)
    (hk : S_ISREG (w.inodes i).i_mode = true) (hc : r.ri_chain = none) :
    rfs_readpage_call env w (some f) file page = .error .null_deref := by
  obtain ⟨w1, r1, hf, hr1, hr1e, _, hw1⟩ := wrapped_facts w i rid r hw
  have hch : r1.ri_chain = none := by rw [hr1e]; exact hc
  have hin : w1.inodes = w.inodes := by rw [hw1]; rfl
  simp only [rfs_readpage_call, hi, hf, bind, Except.bind, hr1, hch, chain_get_inodes, hin, hk,
    idx_start_of, chain_find_flt]
  rfl

theorem writepage_call_null_chain {E : Type} (env : Env E) (w : World E) (f : Nat) (wbc : Int)
    (page i rid : Nat) (r : rinode) (hi : w.page_host page = some i) (hw : wrapped w i rid r)
    (hk : S_ISREG (w.inodes i).i_mode = true) (hc : r.ri_chain = none) :
    rfs_writepage_call env w (some f) page wbc = .error .null_deref := by
  obtain ⟨w1, r1, hf, hr1, hr1e, _, hw1⟩ := wrapped_facts w i rid r hw
  have hch : r1.ri_chain = none := by rw [hr1e]; exact hc
  have hin : w1.inodes = w.inodes := by rw [hw1]; rfl
  simp only [rfs_writepage_call, hi, hf, bind, Except.bind, hr1, hch, chain_get_inodes, hin, hk,
    idx_start_of, chain_find_flt]
  rfl

/-- What C18 describes holds on a non-null active chain: for a filter `f` that is
not in the chain `c`, the start index of a re-entrant call is the length of the
chain, past its last filter. On a wrapped regular node with the active chain `c`,
`rfs_readpage_subcall` and `rfs_writepage_subcall` by such a filter return what the
original step gives on the arguments of the call, the saved implementation if there
is one and -EINVAL otherwise, and the state outside the layer is what that step
left: no filter is invoked in either phase, and nothing in the layer changes. -/
theorem subcall_stranger_runs_no_filter {E : Type} (env : Env E) (w : World E) :
    (∀ (c f : Nat), f ∉ w.chain_flts c →
      idx_start_of w (some c) (some f) = .ok ((w.chain_flts c).length : Int) ∧
      (w.chain_flts c).drop (w.chain_flts c).length = [] ∧
      (∀ s, rfs_precall_flts env w ((w.chain_flts c).length : Int) (some c) s = (false, s)) ∧
      (∀ s, rfs_postcall_flts env w ((w.chain_flts c).length : Int) (some c) s = s)) ∧
    (∀ (f : Nat) (args : rfs_op_args) (page i rid : Nat) (r : rinode) (c : Nat),
      args.page = (page : Int) → w.page_host page = some i → wrapped w i rid r →
      S_ISREG (w.inodes i).i_mode = true →
      r.ri_chain = some c → f ∉ w.chain_flts c →
      rfs_readpage_subcall env w (some f) args
        = .ok ((orig_step env (r.ri_aop_old.bind (·.readpage)) (fun a => [a.file, a.page])
                (fun s => (-EINVAL, s.ext))
                (call_init env w .RFS_REG_AOP_READPAGE { file := args.file, page := page })).1,
              { w with ext :=
                (orig_step env (r.ri_aop_old.bind (·.readpage)) (fun a => [a.file, a.page])
                  (fun s => (-EINVAL, s.ext))
                  (call_init env w .RFS_REG_AOP_READPAGE
                    { file := args.file, page := page })).2 })) ∧
    (∀ (f : Nat) (args : rfs_op_args) (page i rid : Nat) (r : rinode) (c : Nat),
      args.page = (page : Int) → w.page_host page = some i → wrapped w i rid r →
      S_ISREG (w.inodes i).i_mode = true →
      r.ri_chain = some c → f ∉ w.chain_flts c →
      rfs_writepage_subcall env w (some f) args
        = .ok ((orig_step env (r.ri_aop_old.bind (·.writepage)) (fun a => [a.page, a.wbc])
                (fun s => (-EINVAL, s.ext))
                (call_init env w .RFS_REG_AOP_WRITEPAGE { page := page, wbc := args.wbc })).1,
              { w with ext :=
                (orig_step env (r.ri_aop_old.bind (·.writepage)) (fun a => [a.page, a.wbc])
                  (fun s => (-EINVAL, s.ext))
                  (call_init env w .RFS_REG_AOP_WRITEPAGE
                    { page := page, wbc := args.wbc })).2 })) := by
  refine ⟨?_, ?_, ?_⟩
  · intro c f hf
    refine ⟨idx_start_stranger w c f hf, List.drop_length _, ?_, ?_⟩
    · intro s
      simp [rfs_precall_flts, precall_list]
    · intro s
      simp [rfs_postcall_flts, postcall_list]
  · intro f args page i rid r c hp hi hw hk hc hf
    have hidx : idx_start_of w r.ri_chain (some f) = .ok ((w.chain_flts c).length : Int) := by
      rw [hc]; exact idx_start_stranger w c f hf
    have := rfs_readpage_call_wrapped env w (some f) args.file page i rid r _ _ hi hw hk hidx
      rfl (by simp [hc, chain_list, run_protocol_nil, Call.ret, call_init])
    simpa [rfs_readpage_subcall, hp, hc, chain_list, run_protocol_nil, Call.ret, old_aop_eq]
      using this
  · intro f args page i rid r c hp hi hw hk hc hf
    have hidx : idx_start_of w r.ri_chain (some f) = .ok ((w.chain_flts c).length : Int) := by
      rw [hc]; exact idx_start_stranger w c f hf
    have := rfs_writepage_call_wrapped env w (some f) page args.wbc i rid r _ _ hi hw hk hidx
      rfl (by simp [hc, chain_list, run_protocol_nil, Call.ret, call_init])
    simpa [rfs_writepage_subcall, hp, hc, chain_list, run_protocol_nil, Call.ret, old_aop_eq]
      using this

/-- On `demo_world` filter 7 is not in the chain [1, 2, 3] of the wrapped regular
file 1, so its start index is 3 and its re-entrant calls invoke no filter: without
a saved implementation the result is -EINVAL and nothing is logged; with the saved
`writepage` (`native 12`) of `demo_paged_world` the result is 12 and only that call
is logged. -/
theorem subcall_stranger_runs_no_filter_witness :
    idx_start_of demo_world (some 0) (some 7) = .ok 3 ∧
    outcome (rfs_readpage_subcall demo_env demo_world (some 7) { file := 0, page := 0 })
      = some (-EINVAL, []) ∧
    outcome (rfs_writepage_subcall demo_env demo_paged_world (some 7) { page := 0, wbc := 0 })
      = some (12, [312]) := by
  refine ⟨?_, ?_, ?_⟩
  · exact ((subcall_stranger_runs_no_filter demo_env demo_world).1 0 7 (by decide)).1
  · rw [(subcall_stranger_runs_no_filter demo_env demo_world).2.1 7 { file := 0, page := 0 }
      0 1 1 demo_rreg 0 rfl rfl demo_wrapped_reg (by decide) rfl (by decide)]
    decide
  · rw [(subcall_stranger_runs_no_filter demo_env demo_paged_world).2.2 7 { page := 0, wbc := 0 }
      0 1 1 { demo_rreg with ri_aop_old := some demo_full_aops } 0 rfl rfl ⟨⟨_, rfl⟩, rfl⟩
      (by decide) rfl (by decide)]
    decide

/-! ### Reference counts along the propagation -/

theorem rinode_set_ops_counts {E : Type} (w w' : World E) (rid : Nat) (ops : Option Nat)
    (h : rinode_set_ops w rid ops = .ok w') :
    w'.chain_cnt = w.chain_cnt ∧ w'.path_cnt = w.path_cnt ∧ w'.ops_cnt = w.ops_cnt := by
  unfold rinode_set_ops at h
  cases hr : w.rinodes rid with
  | none => simp [hr] at h
  | some r =>
    simp only [hr] at h
    cases ops with
    | none =>
      by_cases hk : known_kind (w.inodes r.ri_inode).i_mode = true
      · simp [hk] at h
      · simp only [hk, Bool.false_eq_true, if_false] at h
        cases h
        exact ⟨rfl, rfl, rfl⟩
    | some o =>
      simp only [] at h
      cases h
      exact ⟨rfl, rfl, rfl⟩

theorem rdentry_set_ops_counts {E : Type} (w w' : World E) (rd : Nat) (ops : Option Nat)
    (h : rdentry_set_ops w rd ops = .ok w') :
    w'.chain_cnt = w.chain_cnt ∧ w'.path_cnt = w.path_cnt ∧ w'.ops_cnt = w.ops_cnt := by
  unfold rdentry_set_ops at h
  cases hr : w.rdentries rd with
  | none => simp [hr] at h
  | some e =>
    simp only [hr] at h
    cases ops with
    | none => simp at h
    | some o =>
      simp only [] at h
      cases h
      exact ⟨rfl, rfl, rfl⟩

theorem propagate_counts {E : Type} (env : Env E) (w0 w2 w3 : World E) (dentry rd c o : Nat)
    (P : Option Nat) (e0 : rdentry) (rdo : Option Nat)
    (hadd : env.rdentry_add dentry w0 = (some rd, w2)) (he : w2.rdentries rd = some e0)
    (h : rfs_propagate env w0 dentry P (some c) (some o) = .ok (rdo, w3)) :
    (e0.rd_rinode = none →
      w3.chain_cnt = cnt_inc (cnt_dec w2.chain_cnt e0.rd_chain) (some c) ∧
      w3.path_cnt = cnt_inc (cnt_dec w2.path_cnt e0.rd_path) P ∧
      w3.ops_cnt = cnt_inc (cnt_dec w2.ops_cnt e0.rd_ops) (some o)) ∧
    (∀ cid c0, e0.rd_rinode = some cid → w2.rinodes cid = some c0 →
      w3.chain_cnt =
        cnt_inc (cnt_inc (cnt_dec (cnt_dec
          (cnt_inc (cnt_dec w2.chain_cnt e0.rd_chain) (some c))
          c0.ri_chain_set) c0.ri_chain) (some c)) (some c) ∧
      w3.path_cnt =
        cnt_inc (cnt_inc (cnt_dec (cnt_dec
          (cnt_inc (cnt_dec w2.path_cnt e0.rd_path) P)
          c0.ri_path_set) c0.ri_path) P) P ∧
      w3.ops_cnt =
        cnt_inc (cnt_dec (cnt_inc (cnt_dec w2.ops_cnt e0.rd_ops) (some o)) c0.ri_ops_set)
          (some o)) := by
  simp only [rfs_propagate, hadd, he, bind, except_bind_ok, pure, Except.pure] at h
  rw [rdentry_set_ops_some _ rd o
    { e0 with rd_path := P, rd_chain := some c, rd_ops := some o } (by simp)] at h
  simp only [except_bind_ok, set_rdentry_rdentries, Function.update_same] at h
  cases hr : e0.rd_rinode with
  | none =>
    simp only [hr] at h
    cases h
    exact ⟨fun _ => ⟨rfl, rfl, rfl⟩, fun cid c0 h1 => by cases h1⟩
  | some cid =>
    refine ⟨fun h1 => (by cases h1), ?_⟩
    intro cid2 c0 h1 hc0
    cases h1
    simp only [hr, set_rdentry_rinodes, ops_get_rinodes, chain_get_rinodes, path_get_rinodes,
      ops_put_rinodes, chain_put_rinodes, path_put_rinodes, hc0] at h
    rw [rinode_set_ops_some _ cid o
      { c0 with ri_path_set := P, ri_chain_set := some c, ri_ops_set := some o, ri_path := P,
                ri_chain := some c } (by simp)] at h
    simp only [except_bind_ok] at h
    cases h
    exact ⟨rfl, rfl, rfl⟩

theorem release_counts {E : Type} (w3 w4 : World E) (rd pid : Nat) (e : rdentry) (pp : rinode)
    (ps cs os pa ch : Option Nat)
    (he : w3.rdentries rd = some e) (hrc : 2 ≤ e.rd_count)
    (hp : w3.rinodes pid = some pp) (hpc : 2 ≤ pp.ri_count)
    (h : rfs_release w3 (some rd) pid ps cs os pa ch = .ok w4) :
    w4.chain_cnt = cnt_dec (cnt_dec w3.chain_cnt cs) ch ∧
    w4.path_cnt = cnt_dec (cnt_dec w3.path_cnt ps) pa ∧
    w4.ops_cnt = cnt_dec w3.ops_cnt os := by
  have h1 : ¬ e.rd_count - 1 = 0 := by omega
  simp only [rfs_release, rdentry_put, he, h1, if_false, bind, except_bind_ok, pure,
    Except.pure] at h
  rw [rinode_put_shared _ pid pp (by simpa using hp) hpc] at h
  simp only [except_bind_ok] at h
  cases h
  exact ⟨rfl, rfl, rfl⟩

theorem cnt_inc_apply (f : Nat → Int) (h : Option Nat) (x : Nat) :
    cnt_inc f h x = f x + (if h = some x then 1 else 0) := by
  cases h with
  | none => simp [cnt_inc]
  | some a =>
    by_cases hxa : x = a
    · subst hxa; simp [cnt_inc]
    · have : ¬ a = x := fun h => hxa h.symm
      simp [cnt_inc, Function.update_apply, hxa, this]

theorem cnt_dec_apply (f : Nat → Int) (h : Option Nat) (x : Nat) :
    cnt_dec f h x = f x - (if h = some x then 1 else 0) := by
  cases h with
  | none => simp [cnt_dec]
  | some a =>
    by_cases hxa : x = a
    · subst hxa; simp [cnt_dec]
    · have : ¬ a = x := fun h => hxa h.symm
      simp [cnt_dec, Function.update_apply, hxa, this]

/-- The references of the snapshot cancel around the installation on an entry
without a bound node. -/
theorem cnt_install_entry (f : Nat → Int) (a b old new : Option Nat) :
    cnt_dec (cnt_dec (cnt_inc (cnt_dec (cnt_inc (cnt_inc f a) b) old) new) a) b
      = cnt_inc (cnt_dec f old) new := by
  funext x
  simp only [cnt_inc_apply, cnt_dec_apply]
  ring

/-- The references of the snapshot cancel around the installation on an entry and
its bound node. -/
theorem cnt_install_node (f : Nat → Int) (a b old new o1 o2 : Option Nat) :
    cnt_dec (cnt_dec (cnt_inc (cnt_inc (cnt_dec (cnt_dec
        (cnt_inc (cnt_dec (cnt_inc (cnt_inc f a) b) old) new) o1) o2) new) new) a) b
      = cnt_inc (cnt_inc (cnt_dec (cnt_dec (cnt_inc (cnt_dec f old) new) o1) o2) new) new := by
  funext x
  simp only [cnt_inc_apply, cnt_dec_apply]
  ring

theorem cnt_install_entry_ops (f : Nat → Int) (a old new : Option Nat) :
    cnt_dec (cnt_inc (cnt_dec (cnt_inc f a) old) new) a = cnt_inc (cnt_dec f old) new := by
  funext x
  simp only [cnt_inc_apply, cnt_dec_apply]
  ring

theorem cnt_install_node_ops (f : Nat → Int) (a old new o1 : Option Nat) :
    cnt_dec (cnt_inc (cnt_dec (cnt_inc (cnt_dec (cnt_inc f a) old) new) o1) new) a
      = cnt_inc (cnt_dec (cnt_inc (cnt_dec f old) new) o1) new := by
  funext x
  simp only [cnt_inc_apply, cnt_dec_apply]
  ring

/-! ### The wrappers that do not propagate, as one statement -/

theorem plain_call_wrapped {E : Type} (env : Env E) (w : World E) (i rid : Nat) (r : rinode)
    (k : plain_call) (hw : wrapped w i rid r) (hr : k.ready w i r)
    (hd : (k.fin env w r i).cont.data_list = []) :
    k.run env w i =
      .ok ((k.fin env w r i).args.retv, { w with ext := (k.fin env w r i).ext }) := by
  cases k with
  | unlink dentry =>
    exact rfs_unlink_wrapped env w i dentry rid r _ hw hr
      (by simp only [plain_call.fin, old_iop_eq]) hd
  | rmdir dentry =>
    exact rfs_rmdir_wrapped env w i dentry rid r _ hw hr
      (by simp only [plain_call.fin, old_iop_eq]) hd
  | permission mask nd =>
    exact rfs_permission_wrapped env w i mask nd rid r _ hw
      (by simp only [plain_call.fin, old_iop_eq]) hd
  | setattr dentry iattr =>
    exact rfs_setattr_wrapped env w dentry iattr i rid r _ hr hw
      (by simp only [plain_call.fin, old_iop_eq]) hd
  | readpage flt file page =>
    obtain ⟨hp, hk, idx, hidx⟩ := hr
    exact rfs_readpage_call_wrapped env w flt file page i rid r idx _ hp hw hk hidx
      (by simp only [plain_call.fin, old_aop_eq, idx_start_nat, hidx]) hd
  | writepage flt page wbc =>
    obtain ⟨hp, hk, idx, hidx⟩ := hr
    exact rfs_writepage_call_wrapped env w flt page wbc i rid r idx _ hp hw hk hidx
      (by simp only [plain_call.fin, old_aop_eq, idx_start_nat, hidx]) hd

/-! ### The references at the exit of a wrapper that propagates -/

theorem tail_counts {E : Type} (env : Env E) (w0 w2 w4 : World E) (dentry pid rd c o : Nat)
    (p p2 : rinode) (e0 : rdentry)
    (hcs : p.ri_chain_set = some c) (hos : p.ri_ops_set = some o)
    (hadd : env.rdentry_add dentry w0 = (some rd, w2))
    (he : w2.rdentries rd = some e0) (hrc : 2 ≤ e0.rd_count)
    (hp2 : w2.rinodes pid = some p2) (hpc : 2 ≤ p2.ri_count)
    (hch : ∀ cid, e0.rd_rinode = some cid → ∃ c0, w2.rinodes cid = some c0)
    (h : rfs_tail env w0 dentry pid p = .ok w4) :
    (e0.rd_rinode ≠ some pid →
      w4.rinodes pid = some { p2 with ri_count := p2.ri_count - 1 }) ∧
    (e0.rd_rinode = none →
      w4.chain_cnt = cnt_dec (cnt_dec
        (cnt_inc (cnt_dec w2.chain_cnt e0.rd_chain) (some c)) (some c)) p.ri_chain ∧
      w4.path_cnt = cnt_dec (cnt_dec
        (cnt_inc (cnt_dec w2.path_cnt e0.rd_path) p.ri_path_set) p.ri_path_set) p.ri_path ∧
      w4.ops_cnt = cnt_dec (cnt_inc (cnt_dec w2.ops_cnt e0.rd_ops) (some o)) (some o)) ∧
    (∀ cid c0, e0.rd_rinode = some cid → w2.rinodes cid = some c0 →
      w4.chain_cnt = cnt_dec (cnt_dec
        (cnt_inc (cnt_inc (cnt_dec (cnt_dec
          (cnt_inc (cnt_dec w2.chain_cnt e0.rd_chain) (some c))
          c0.ri_chain_set) c0.ri_chain) (some c)) (some c)) (some c)) p.ri_chain ∧
      w4.path_cnt = cnt_dec (cnt_dec
        (cnt_inc (cnt_inc (cnt_dec (cnt_dec
          (cnt_inc (cnt_dec w2.path_cnt e0.rd_path) p.ri_path_set)
          c0.ri_path_set) c0.ri_path) p.ri_path_set) p.ri_path_set) p.ri_path_set) p.ri_path ∧
      w4.ops_cnt = cnt_dec
        (cnt_inc (cnt_dec (cnt_inc (cnt_dec w2.ops_cnt e0.rd_ops) (some o)) c0.ri_ops_set)
          (some o)) (some o)) := by
  obtain ⟨w3, hprop, hrd, hother, hchild⟩ :=
    propagate_some env w0 w2 dentry rd c o p.ri_path_set e0 hadd he hch
  have hpp : ∃ pp, w3.rinodes pid = some pp ∧ 2 ≤ pp.ri_count ∧
      (e0.rd_rinode ≠ some pid → pp = p2) := by
    by_cases hpid : e0.rd_rinode = some pid
    · refine ⟨_, hchild pid p2 hpid hp2, ?_, fun hn => absurd hpid hn⟩
      simpa [rinode_set_ops_mode_count] using hpc
    · exact ⟨p2, (hother pid hpid).trans hp2, hpc, fun _ => rfl⟩
  obtain ⟨pp, hpp, hppc, hppe⟩ := hpp
  have hrel : rfs_release w3 (some rd) pid p.ri_path_set (some c) (some o) p.ri_path p.ri_chain
      = .ok w4 := by
    simp only [rfs_tail, hcs, hos, hprop, bind, except_bind_ok] at h
    exact h
  obtain ⟨h1, h2, h3⟩ := release_counts w3 w4 rd pid _ pp _ _ _ _ _ hrd hrc hpp hppc hrel
  obtain ⟨hu, hb⟩ := propagate_counts env w0 w2 w3 dentry rd c o p.ri_path_set e0 _ hadd he hprop
  refine ⟨?_, ?_, ?_⟩
  · intro hn
    obtain ⟨w4', hrel', _, hri4⟩ := release_shared w3 rd pid _ pp p.ri_path_set (some c) (some o)
      p.ri_path p.ri_chain hrd hrc hpp hppc
    rw [hrel] at hrel'
    cases hrel'
    rw [hri4, hppe hn]
    simp
  · intro hn
    obtain ⟨a, b, d⟩ := hu hn
    exact ⟨by rw [h1, a], by rw [h2, b], by rw [h3, d]⟩
  · intro cid c0 hc1 hc2
    obtain ⟨a, b, d⟩ := hb cid c0 hc1 hc2
    exact ⟨by rw [h1, a], by rw [h2, b], by rw [h3, d]⟩

theorem propagate_start_counts {E : Type} (w : World E) (pid : Nat) (p : rinode) (e : E) :
    (propagate_start w pid p e).chain_cnt = cnt_inc (cnt_inc w.chain_cnt p.ri_chain_set) p.ri_chain ∧
    (propagate_start w pid p e).path_cnt = cnt_inc (cnt_inc w.path_cnt p.ri_path_set) p.ri_path ∧
    (propagate_start w pid p e).ops_cnt = cnt_inc w.ops_cnt p.ri_ops_set := by
  refine ⟨?_, ?_, ?_⟩ <;>
    simp only [propagate_start, rfs_snapshot, set_rinode_chain_cnt, chain_get_chain_cnt,
      path_get_chain_cnt, ops_get_chain_cnt, set_rinode_path_cnt, chain_get_path_cnt,
      path_get_path_cnt, ops_get_path_cnt, set_rinode_ops_cnt, chain_get_ops_cnt,
      path_get_ops_cnt, ops_get_ops_cnt]

/-! ### C16: every reference is released -/

/-- C16: a wrapper called on a wrapped object releases, before it returns, every
reference it took, whatever the filters and the original do and return. The six
wrappers that do not propagate, the paged ones with any calling filter, and the six
wrappers that propagate when the pending chain of the parent is null, leave the
state of the layer as it was: the shadow of the object with its reference count and
every chain, path and operation-set count are the same after the call as before.
When the pending chain is non-null, the entry that `rdentry_add` gave has one
reference less than `rdentry_add` left it with, the shadow of the parent is as
before the call (if it is not the node bound to the entry), and the chain, path and
operation-set counts are those before the call changed by the installation alone:
the entry, and the node bound to it, release their former configuration and hold
one reference for each pointer to the new one. `rdentry_add` is assumed to return
an entry with a reference of its own and to leave the parent and the counts of the
handles alone. -/
theorem references_released {E : Type} (env : Env E) (w : World E) :
    (∀ (k : plain_call) (i rid : Nat) (r : rinode),
      wrapped w i rid r → k.ready w i r → (k.fin env w r i).cont.data_list = [] →
      k.run env w i =
        .ok ((k.fin env w r i).args.retv, { w with ext := (k.fin env w r i).ext })) ∧
    (∀ (k : prop_call) (dir dentry pid : Nat) (p : rinode),
      wrapped w dir pid p → S_ISDIR (w.inodes dir).i_mode = true → k.sound p →
      (k.fin env w p dir dentry).cont.data_list = [] → p.ri_chain_set = none →
      k.run env w dir dentry =
        .ok ((k.fin env w p dir dentry).args.retv,
          { w with ext := (k.fin env w p dir dentry).ext })) ∧
    (∀ (k : prop_call) (dir dentry pid rd c o : Nat) (p : rinode) (e0 : rdentry)
        (w2 : World E),
      wrapped w dir pid p → S_ISDIR (w.inodes dir).i_mode = true → k.sound p →
      (k.fin env w p dir dentry).cont.data_list = [] →
      p.ri_chain_set = some c → p.ri_ops_set = some o →
      env.rdentry_add dentry (propagate_start w pid p (k.fin env w p dir dentry).ext)
        = (some rd, w2) →
      w2.rdentries rd = some e0 → 2 ≤ e0.rd_count →
      w2.rinodes pid = some { p with ri_count := p.ri_count + 1 } →
      (∀ cid, e0.rd_rinode = some cid → ∃ c0, w2.rinodes cid = some c0) →
      w2.chain_cnt = (propagate_start w pid p (k.fin env w p dir dentry).ext).chain_cnt →
      w2.path_cnt = (propagate_start w pid p (k.fin env w p dir dentry).ext).path_cnt →
      w2.ops_cnt = (propagate_start w pid p (k.fin env w p dir dentry).ext).ops_cnt →
      ∃ w' e', k.run env w dir dentry = .ok ((k.fin env w p dir dentry).args.retv, w') ∧
        w'.rdentries rd = some e' ∧ e'.rd_count = e0.rd_count - 1 ∧
        (e0.rd_rinode ≠ some pid → w'.rinodes pid = some p) ∧
        (e0.rd_rinode = none →
          w'.chain_cnt = cnt_inc (cnt_dec w.chain_cnt e0.rd_chain) (some c) ∧
          w'.path_cnt = cnt_inc (cnt_dec w.path_cnt e0.rd_path) p.ri_path_set ∧
          w'.ops_cnt = cnt_inc (cnt_dec w.ops_cnt e0.rd_ops) (some o)) ∧
        (∀ cid c0, e0.rd_rinode = some cid → w2.rinodes cid = some c0 →
          w'.chain_cnt =
            cnt_inc (cnt_inc (cnt_dec (cnt_dec
              (cnt_inc (cnt_dec w.chain_cnt e0.rd_chain) (some c))
              c0.ri_chain_set) c0.ri_chain) (some c)) (some c) ∧
          w'.path_cnt =
            cnt_inc (cnt_inc (cnt_dec (cnt_dec
              (cnt_inc (cnt_dec w.path_cnt e0.rd_path) p.ri_path_set)
              c0.ri_path_set) c0.ri_path) p.ri_path_set) p.ri_path_set ∧
          w'.ops_cnt =
            cnt_inc (cnt_dec (cnt_inc (cnt_dec w.ops_cnt e0.rd_ops) (some o)) c0.ri_ops_set)
              (some o))) := by
  refine ⟨fun k i rid r hw hr hd => plain_call_wrapped env w i rid r k hw hr hd, ?_, ?_⟩
  · intro k dir dentry pid p hw hk hs hd hn
    obtain ⟨_, _, _, _, _, hc, _⟩ := wrapped_facts w dir pid p hw
    rw [prop_call_wrapped env w dir dentry pid p k hw hk hs hd,
      tail_none env w dentry pid p _ hw.2 hc hn]
    rfl
  · intro k dir dentry pid rd c o p e0 w2 hw hk hs hd hcs hos hadd he hrc hp2 hch hfc hfp hfo
    obtain ⟨_, _, _, _, _, hc, _⟩ := wrapped_facts w dir pid p hw
    have hpc : 2 ≤ ({ p with ri_count := p.ri_count + 1 } : rinode).ri_count := by
      show 2 ≤ p.ri_count + 1
      omega
    obtain ⟨w4, htail, hrd, _⟩ :=
      tail_some env _ w2 dentry pid rd c o p _ e0 hcs hos hadd he hrc hp2 hpc hch
    obtain ⟨hpar, hu, hb⟩ :=
      tail_counts env _ w2 w4 dentry pid rd c o p _ e0 hcs hos hadd he hrc hp2 hpc hch htail
    obtain ⟨s1, s2, s3⟩ := propagate_start_counts w pid p (k.fin env w p dir dentry).ext
    rw [s1] at hfc
    rw [s2] at hfp
    rw [s3] at hfo
    refine ⟨w4, _, ?_, hrd, rfl, ?_, ?_, ?_⟩
    · rw [prop_call_wrapped env w dir dentry pid p k hw hk hs hd, htail]
      rfl
    · intro hn
      rw [hpar hn]
      rfl
    · intro hn
      obtain ⟨a, b, d⟩ := hu hn
      rw [hfc, hcs] at a
      rw [hfp] at b
      rw [hfo, hos] at d
      exact ⟨a.trans (cnt_install_entry _ _ _ _ _), b.trans (cnt_install_entry _ _ _ _ _),
        d.trans (cnt_install_entry_ops _ _ _ _)⟩
    · intro cid c0 h1 h2
      obtain ⟨a, b, d⟩ := hb cid c0 h1 h2
      rw [hfc, hcs] at a
      rw [hfp] at b
      rw [hfo, hos] at d
      exact ⟨a.trans (cnt_install_node _ _ _ _ _ _ _), b.trans (cnt_install_node _ _ _ _ _ _ _),
        d.trans (cnt_install_node_ops _ _ _ _ _)⟩

/-- C16 on the example states: `rfs_unlink` in the wrapped directory 0 and, without
a pending configuration (`demo_idle_world`), `rfs_create` return an error and leave
the layer as it was; `rfs_lookup` of the dentry 8 of `demo_world`, whose entry is
bound to the shadow 1 with the active chain 0, leaves the entry with the one
reference it had, the shadow of the parent as it was, and the counts changed by the
installation alone. -/
theorem references_released_witness :
    rfs_unlink demo_env demo_world 0 5
      = .ok (-EPERM, { demo_world with ext := [101, 102, 103, 201, 202, 203] }) ∧
    rfs_create demo_env demo_idle_world 0 5 0 0
      = .ok (-EACCES, { demo_idle_world with ext := [101, 102, 103, 201, 202, 203] }) ∧
    ∃ w' e', rfs_lookup demo_env demo_world 0 8 0 = .ok (5, w') ∧
      w'.rdentries 8 = some e' ∧ e'.rd_count = 1 ∧
      w'.rinodes 0 = some demo_rdir ∧
      w'.chain_cnt =
        cnt_inc (cnt_inc (cnt_dec (cnt_dec
          (cnt_inc (cnt_dec demo_world.chain_cnt none) (some 0)) none) (some 0)) (some 0))
          (some 0) ∧
      w'.path_cnt =
        cnt_inc (cnt_inc (cnt_dec (cnt_dec
          (cnt_inc (cnt_dec demo_world.path_cnt none) (some 1)) none) none) (some 1)) (some 1) ∧
      w'.ops_cnt =
        cnt_inc (cnt_dec (cnt_inc (cnt_dec demo_world.ops_cnt none) (some 0)) none) (some 0) := by
  refine ⟨?_, ?_, ?_⟩
  · exact (references_released demo_env demo_world).1 (.unlink 5) 0 0 demo_rdir
      demo_wrapped_dir (show S_ISDIR (demo_world.inodes 0).i_mode = true by decide) rfl
  · exact (references_released demo_env demo_idle_world).2.1 (.create 0 0) 0 5 0 _
      demo_idle_wrapped_dir (by decide) trivial rfl rfl
  · obtain ⟨w', e', h1, h2, h3, h4, _, h6⟩ :=
      (references_released demo_env demo_world).2.2 (.lookup 0) 0 8 0 8 0 0 demo_rdir
        { rd_path := none, rd_chain := none, rd_ops := none, rd_rinode := some 1,
          rd_count := 2, rd_op_new := none } _
        demo_wrapped_dir (by decide) trivial rfl rfl rfl rfl rfl (by decide) rfl
        (fun cid h => ⟨demo_rreg, by cases h; rfl⟩) rfl rfl rfl
    exact ⟨w', e', h1, h2, h3, h4 (by decide), h6 1 demo_rreg rfl rfl⟩

/-! ### C18: a re-entrant call on a node without an active chain -/

/-- C18 fails on the code: on a wrapped regular node whose active chain is null, no
filter is a member of the chain, and a re-entrant call by any non-null filter `f`
does not run the original: `chain_find_flt` gives -1 and the start index is read
from `chain->c_flts_nr` through the null chain (lines 1056 and 1130), so
`rfs_readpage_subcall` and `rfs_writepage_subcall` stop at a null dereference. -/
theorem subcall_null_chain_faults {E : Type} (env : Env E) (w : World E) (f : Nat)
    (args : rfs_op_args) (page i rid : Nat) (r : rinode)
    (hp : args.page = (page : Int)) (hi : w.page_host page = some i)
    (hw : wrapped w i rid r) (hk : S_ISREG (w.inodes i).i_mode = true)
    (hc : r.ri_chain = none) :
    f ∉ chain_list w r.ri_chain ∧
    chain_find_flt w r.ri_chain f = -1 ∧
    idx_start_of w r.ri_chain (some f) = .error .null_deref ∧
    rfs_readpage_subcall env w (some f) args = .error .null_deref ∧
    rfs_writepage_subcall env w (some f) args = .error .null_deref := by
  refine ⟨?_, ?_, ?_, ?_, ?_⟩
  · rw [hc]; simp [chain_list]
  · rw [hc]; rfl
  · rw [hc]; rfl
  · have := readpage_call_null_chain env w f args.file page i rid r hi hw hk hc
    simpa [rfs_readpage_subcall, hp] using this
  · have := writepage_call_null_chain env w f args.wbc page i rid r hi hw hk hc
    simpa [rfs_writepage_subcall, hp] using this

/-- C18 on `demo_nochain_world`: the page 0 belongs to the wrapped regular file 1,
whose shadow has a null active chain; the re-entrant calls by filter 7 stop at a
null dereference and nothing is logged. -/
theorem subcall_null_chain_faults_witness :
    7 ∉ chain_list demo_nochain_world none ∧
    rfs_readpage_subcall demo_env demo_nochain_world (some 7) { file := 0, page := 0 }
      = .error .null_deref ∧
    rfs_writepage_subcall demo_env demo_nochain_world (some 7) { page := 0, wbc := 0 }
      = .error .null_deref ∧
    outcome (rfs_readpage_subcall demo_env demo_nochain_world (some 7) { file := 0, page := 0 })
      = none :=
  ⟨(subcall_null_chain_faults demo_env demo_nochain_world 7 { file := 0, page := 0 } 0 1 1
      { demo_rreg with ri_chain := none } rfl rfl ⟨⟨_, rfl⟩, rfl⟩ (by decide) rfl).1,
   (subcall_null_chain_faults demo_env demo_nochain_world 7 { file := 0, page := 0 } 0 1 1
      { demo_rreg with ri_chain := none } rfl rfl ⟨⟨_, rfl⟩, rfl⟩ (by decide) rfl).2.2.2.1,
   (subcall_null_chain_faults demo_env demo_nochain_world 7 { page := 0, wbc := 0 } 0 1 1
      { demo_rreg with ri_chain := none } rfl rfl ⟨⟨_, rfl⟩, rfl⟩ (by decide) rfl).2.2.2.2,
   by decide⟩

end Redirfs
